import Mathlib

/-! Handle scopes and references of `js_native_api_qjs.c`.

A shallow embedding of the rooting and reference-lifetime code of
`src/src/js_native_api_qjs.c` (the N-API adapter over QuickJS).

* Pointers are natural numbers, `0` is `NULL`.
* The C heap reachable from one `NAPIEnv` is the record `World`; every C
  function becomes a function on `World`.
* `NAPICreateEnv` and `NAPIFreeEnv`, which make and free environments, are
  functions on the record `Process`; `NAPIDefineClass` threads the record
  `ClassTable` next to the `World`.
* A function that may read through a pointer nobody checked returns an
  `Option`; `none` stands for undefined behaviour of the C program.
* QuickJS itself is not part of the repository.  The few engine primitives
  the adapter calls are modelled here, each one marked as such; they log
  every change of an engine-level hold in `World.log`.
-/

namespace QJS

/-- Addresses; `0` is `NULL`. -/
abbrev Ptr := Nat

/-- The status codes used by `js_native_api_qjs.c`. -/
inductive NAPIStatus
  | NAPIOK
  | NAPIInvalidArg
  | NAPIStringExpected
  | NAPINumberExpected
  | NAPIBooleanExpected
  | NAPIGenericFailure
  | NAPIPendingException
  | NAPIEscapeCalledTwice
  | NAPIHandleScopeMismatch
  | NAPIMemoryError
  deriving DecidableEq, Repr

/-- The value types answered by `napi_typeof`. -/
inductive NAPIValueType
  | NAPIUndefined
  | NAPINull
  | NAPIBoolean
  | NAPINumber
  | NAPIString
  | NAPIFunction
  | NAPIExternal
  | NAPIObject
  deriving DecidableEq, Repr

/-- Modelled from the spec: the engine value (`JSValue` of quickjs.h, which is
not under src/): a tag and, for the reference-counted kinds, the address of
the engine cell. -/
inductive JSValue
  | undefined
  | null
  | exception
  | bool (b : Bool)
  | int (n : Int)
  | float64 (bits : Nat)
  | string (p : Ptr)
  | symbol (p : Ptr)
  | object (p : Ptr)
  deriving DecidableEq, Repr

/-- Modelled from the spec: `JS_IsObject` of quickjs.h, a test of the tag. -/
def JS_IsObject : JSValue → Bool
  | .object _ => true
  | _ => false

/-- Modelled from the spec: `JS_IsUndefined` of quickjs.h, a test of the tag. -/
def JS_IsUndefined : JSValue → Bool
  | .undefined => true
  | _ => false

/-- Modelled from the spec: `JS_IsNull` of quickjs.h, a test of the tag. -/
def JS_IsNull : JSValue → Bool
  | .null => true
  | _ => false

/-- Modelled from the spec: `JS_IsException` of quickjs.h, a test of the tag. -/
def JS_IsException : JSValue → Bool
  | .exception => true
  | _ => false

/-- Modelled from the spec: `JS_IsNumber` of quickjs.h, a test of the tag. -/
def JS_IsNumber : JSValue → Bool
  | .int _ => true
  | .float64 _ => true
  | _ => false

/-- Modelled from the spec: `JS_IsBool` of quickjs.h, a test of the tag. -/
def JS_IsBool : JSValue → Bool
  | .bool _ => true
  | _ => false

/-- Modelled from the spec: `JS_IsString` of quickjs.h, a test of the tag. -/
def JS_IsString : JSValue → Bool
  | .string _ => true
  | _ => false

/-- Modelled from the spec: `JS_VALUE_HAS_REF_COUNT` of quickjs.h: the kinds
of value whose cell carries an engine-level hold count. -/
def JS_VALUE_HAS_REF_COUNT : JSValue → Bool
  | .string _ => true
  | .symbol _ => true
  | .object _ => true
  | _ => false

/-- One change of an engine-level hold: a duplicate (`JS_DupValue`) or a
release (`JS_FreeValue`) of a value. -/
inductive JSEvent
  | dup (v : JSValue)
  | free (v : JSValue)
  deriving DecidableEq, Repr

/-- `struct Handle`: one node of a scope's handle list.  `addr` is the
address of the node, so `&handle->value` is `NAPIValue.handleValue addr`. -/
structure Handle where
  addr : Ptr
  value : JSValue
  deriving DecidableEq, Repr

/-- `struct OpaqueNAPIHandleScope` and `struct OpaqueNAPIEscapableHandleScope`:
one node of `env->handleScopeList`.  `escapeCalled` is `none` for a scope
allocated by `napi_open_handle_scope`, which has no such member. -/
structure OpaqueNAPIHandleScope where
  addr : Ptr
  handleList : List Handle
  escapeCalled : Option Bool
  deriving DecidableEq, Repr

abbrev NAPIHandleScope := Ptr
abbrev NAPIEscapableHandleScope := Ptr
abbrev NAPIRef := Ptr
abbrev JSClassID := Nat
abbrev JSAtom := String

/-- `NAPIValue`: a pointer to a `JSValue` stored somewhere in the adapter. -/
inductive NAPIValue
  | NULL
  | undefinedValue
  | nullValue
  | handleValue (handle : Ptr)
  | refValue (ref : NAPIRef)
  deriving DecidableEq, Repr

/-- `struct OpaqueNAPIRef`.  The list links (`node`) are kept in the
`ReferenceInfo` that holds the reference; `referenceCount` is a `uint8_t`. -/
structure OpaqueNAPIRef where
  value : JSValue
  referenceCount : Nat
  deriving DecidableEq, Repr

/-- `ReferenceInfo`: the list of the references that watch one object, head
first. -/
structure ReferenceInfo where
  referenceList : List NAPIRef
  deriving DecidableEq, Repr

/-- `NAPIFinalize`: a pointer to a finalize callback. -/
inductive NAPIFinalize
  | NULL
  | referenceFinalize
  | functionFinalize
  | user (f : Nat)
  deriving DecidableEq, Repr

/-- `FunctionInfo` (with its `BaseInfo`); `callback` numbers the host
function, `0` is `NULL`. -/
structure FunctionInfo where
  env : Ptr
  data : Ptr
  callback : Nat
  deriving DecidableEq, Repr

/-- `ExternalInfo` (with its `BaseInfo`). -/
structure ExternalInfo where
  env : Ptr
  data : Ptr
  finalizeHint : Ptr
  finalizeCallback : NAPIFinalize
  deriving DecidableEq, Repr

/-- Modelled from the spec: the finalizer slot of a `JSClassDef` of quickjs.h. -/
inductive JSClassFinalizer
  | NULL
  | functionFinalizer
  | externalFinalizer
  deriving DecidableEq, Repr

/-- Modelled from the spec: `JSClassDef` of quickjs.h, as far as the adapter
fills it in (`call` says whether the class has a call method). -/
structure JSClassDef where
  class_name : String
  finalizer : JSClassFinalizer
  call : Bool
  deriving DecidableEq, Repr

/-- Modelled from the spec: an engine object (`JSObject` of quickjs.c): its
class, the pointer set by `JS_SetOpaque`, and its own data properties.
Prototype chains, accessors, proxies and frozen objects are outside the
model. -/
structure JSObject where
  class_id : JSClassID
  opaquePtr : Ptr
  props : List (JSAtom × JSValue)
  deriving DecidableEq, Repr

/-- One call of a user finalize callback: `f(env, data, hint)`. -/
structure FinalizeCall where
  f : Nat
  env : Ptr
  data : Ptr
  hint : Ptr
  deriving DecidableEq, Repr

/-- The memory reachable from one `NAPIEnv`, and the engine behind it. -/
structure World where
  /-- the address of this `struct OpaqueNAPIEnv` -/
  env : Ptr
  /-- `env->context`; `0` is `NULL` -/
  context : Ptr
  /-- `env->handleScopeList`, topmost scope first -/
  handleScopeList : List OpaqueNAPIHandleScope
  /-- the live `struct OpaqueNAPIRef`s by address -/
  refs : List (NAPIRef × OpaqueNAPIRef)
  /-- the live `ReferenceInfo`s by address -/
  referenceInfos : List (Ptr × ReferenceInfo)
  /-- the live `ExternalInfo`s by address -/
  externalInfos : List (Ptr × ExternalInfo)
  /-- the live `FunctionInfo`s by address -/
  functionInfos : List (Ptr × FunctionInfo)
  /-- `static JSClassID constructorClassId` -/
  constructorClassId : JSClassID
  /-- `static JSClassID functionClassId` -/
  functionClassId : JSClassID
  /-- `static JSClassID externalClassId` -/
  externalClassId : JSClassID
  /-- engine: `rt->class_array` -/
  class_array : List (JSClassID × JSClassDef)
  /-- engine: the live objects by address -/
  objects : List (Ptr × JSObject)
  /-- engine: the live strings by address -/
  strings : List (Ptr × String)
  /-- engine: the pending exception, `JS_NULL` when there is none -/
  exception : JSValue
  /-- every engine-level duplicate and release so far, oldest first -/
  log : List JSEvent
  /-- every call of a user finalize callback so far, oldest first -/
  finalized : List FinalizeCall
  /-- the next fresh address -/
  brk : Ptr
  /-- the outcome of the next calls of `malloc`: `false` is a failure; past
  the end of the list every call succeeds -/
  mallocPlan : List Bool
  /-- the outcome of the next fallible engine calls: `some e` is a failure
  that throws `e`; past the end of the list every call succeeds -/
  enginePlan : List (Option JSValue)
  deriving DecidableEq, Repr

/-- `malloc`: `0` on failure, a fresh address otherwise. -/
def malloc (w : World) : Ptr × World :=
  match w.mallocPlan with
  | [] => (w.brk, { w with brk := w.brk + 1 })
  | true :: rest => (w.brk, { w with brk := w.brk + 1, mallocPlan := rest })
  | false :: rest => (0, { w with mallocPlan := rest })

/-- Modelled from the spec: `JS_DupValue` of quickjs.h: one more engine-level
hold on `v`, when `v` is reference counted; the value itself is returned
unchanged. -/
def JS_DupValue (w : World) (v : JSValue) : World :=
  if JS_VALUE_HAS_REF_COUNT v then { w with log := w.log ++ [JSEvent.dup v] } else w

/-- Modelled from the spec: `JS_FreeValue` of quickjs.h: one engine-level
hold on `v` is released; nothing happens for a value that is not reference
counted.  The collection of a cell whose holds are gone is the separate
engine step `free_object`. -/
def JS_FreeValue (w : World) (v : JSValue) : World :=
  if JS_VALUE_HAS_REF_COUNT v then { w with log := w.log ++ [JSEvent.free v] } else w

/-- The number of releases of `v` in a log. -/
def releases (log : List JSEvent) (v : JSValue) : Nat :=
  log.count (JSEvent.free v)

/-- The number of duplicates of `v` in a log. -/
def duplicates (log : List JSEvent) (v : JSValue) : Nat :=
  log.count (JSEvent.dup v)

/-- `addValueToHandleScope`.  `result` is `none` for a `NULL` pointer and
otherwise holds what `*result` held before; the second component of the answer
is what `*result` holds afterwards. -/
def addValueToHandleScope (w : World) (value : JSValue) (result : Option Ptr) :
    NAPIStatus × Option Ptr × World :=
  match result with
  | none => (.NAPIInvalidArg, none, w)
  | some old =>
    match w.handleScopeList with
    | [] => (.NAPIHandleScopeMismatch, some old, w)
    | top :: rest =>
      let (p, w1) := malloc w
      if p = 0 then (.NAPIMemoryError, some 0, w1)
      else
        (.NAPIOK, some p,
          { w1 with handleScopeList :=
              { top with handleList := { addr := p, value := value } :: top.handleList } :: rest })

/-- `napi_open_handle_scope`. -/
def napi_open_handle_scope (w : World) (result : Option NAPIHandleScope) :
    NAPIStatus × Option NAPIHandleScope × World :=
  match result with
  | none => (.NAPIInvalidArg, none, w)
  | some _ =>
    let (p, w1) := malloc w
    if p = 0 then (.NAPIMemoryError, some 0, w1)
    else
      (.NAPIOK, some p,
        { w1 with handleScopeList :=
            { addr := p, handleList := [], escapeCalled := none } :: w1.handleScopeList })

/-- The loop `SLIST_FOREACH_SAFE` of the two close functions: every handle
of the list, head first, has its value released and is freed. -/
def freeHandles (w : World) : List Handle → World
  | [] => w
  | handle :: rest => freeHandles (JS_FreeValue w handle.value) rest

/-- `napi_close_handle_scope`. -/
def napi_close_handle_scope (w : World) (scope : NAPIHandleScope) : NAPIStatus × World :=
  if scope = 0 then (.NAPIInvalidArg, w)
  else if w.context = 0 then (.NAPIInvalidArg, w)
  else
    match w.handleScopeList with
    | [] => (.NAPIHandleScopeMismatch, w)
    | top :: rest =>
      if top.addr ≠ scope then (.NAPIHandleScopeMismatch, w)
      else
        (.NAPIOK, { freeHandles w top.handleList with handleScopeList := rest })

/-- `napi_open_escapable_handle_scope`. -/
def napi_open_escapable_handle_scope (w : World) (result : Option NAPIEscapableHandleScope) :
    NAPIStatus × Option NAPIEscapableHandleScope × World :=
  match result with
  | none => (.NAPIInvalidArg, none, w)
  | some _ =>
    let (p, w1) := malloc w
    if p = 0 then (.NAPIMemoryError, some 0, w1)
    else
      (.NAPIOK, some p,
        { w1 with handleScopeList :=
            { addr := p, handleList := [], escapeCalled := some false } :: w1.handleScopeList })

/-- `napi_close_escapable_handle_scope`: the scope pointer is compared with
the address of its first member, which is the address of the scope. -/
def napi_close_escapable_handle_scope (w : World) (scope : NAPIEscapableHandleScope) :
    NAPIStatus × World :=
  if scope = 0 then (.NAPIInvalidArg, w)
  else if w.context = 0 then (.NAPIInvalidArg, w)
  else
    match w.handleScopeList with
    | [] => (.NAPIHandleScopeMismatch, w)
    | top :: rest =>
      if top.addr ≠ scope then (.NAPIHandleScopeMismatch, w)
      else
        (.NAPIOK, { freeHandles w top.handleList with handleScopeList := rest })

/-- The handle at address `h`, searched in every open scope. -/
def findHandle : List OpaqueNAPIHandleScope → Ptr → Option Handle
  | [], _ => none
  | s :: rest, h =>
    match s.handleList.find? (fun x => x.addr == h) with
    | some x => some x
    | none => findHandle rest h

/-- Reading `*((JSValue *)value)`; `none` when `value` points at nothing
live. -/
def load (w : World) : NAPIValue → Option JSValue
  | .NULL => none
  | .undefinedValue => some JSValue.undefined
  | .nullValue => some JSValue.null
  | .handleValue h => (findHandle w.handleScopeList h).map (fun x => x.value)
  | .refValue r => (w.refs.lookup r).map (fun x => x.value)

/-- The scope at address `scope` in the stack: the scopes above it, the
scope, and the scopes below it. -/
def splitScopes : List OpaqueNAPIHandleScope → Ptr →
    Option (List OpaqueNAPIHandleScope × OpaqueNAPIHandleScope × List OpaqueNAPIHandleScope)
  | [], _ => none
  | s :: rest, scope =>
    if s.addr = scope then some ([], s, rest)
    else
      match splitScopes rest scope with
      | none => none
      | some (above, t, below) => some (s :: above, t, below)

/-- `napi_escape_handle`.  `result` is `none` for a `NULL` pointer and
otherwise holds what `*result` held before the call.  The answer is `none`
where the C code reads or writes through a pointer that is not live: a
`scope` that is not an open escapable scope, a `NULL` handle from `malloc`,
an `escapee` that points at nothing. -/
def napi_escape_handle (w : World) (scope : NAPIEscapableHandleScope) (escapee : NAPIValue)
    (result : Option NAPIValue) : Option (NAPIStatus × Option NAPIValue × World) :=
  if scope = 0 then some (.NAPIInvalidArg, result, w)
  else if escapee = NAPIValue.NULL then some (.NAPIInvalidArg, result, w)
  else
    match result with
    | none => some (.NAPIInvalidArg, none, w)
    | some old =>
      match splitScopes w.handleScopeList scope with
      | none => none
      | some (above, s, below) =>
        match s.escapeCalled with
        | none => none
        | some true => some (.NAPIEscapeCalledTwice, some old, w)
        | some false =>
          match below with
          | [] => some (.NAPIHandleScopeMismatch, some old, w)
          | handleScope :: rest =>
            let (handle, w1) := malloc w
            if old = NAPIValue.NULL then some (.NAPIMemoryError, some old, w1)
            else if handle = 0 then none
            else
              match load w1 escapee with
              | none => none
              | some v =>
                some (.NAPIOK, some (NAPIValue.handleValue handle),
                  { w1 with handleScopeList :=
                      above ++ { s with escapeCalled := some true } ::
                        { handleScope with
                            handleList := { addr := handle, value := v } :: handleScope.handleList } ::
                        rest })

/-- The cell at address `p` of a table of live cells rewritten by `f`. -/
def updateAt {κ α : Type} [DecidableEq κ] (m : List (κ × α)) (p : κ) (f : α → α) :
    List (κ × α) :=
  m.map (fun e => if e.1 = p then (e.1, f e.2) else e)

/-- `free` of the cell at address `p` of a table of live cells. -/
def eraseAt {κ α : Type} [DecidableEq κ] (m : List (κ × α)) (p : κ) : List (κ × α) :=
  m.filter (fun e => e.1 ≠ p)

/-- Modelled from the spec: the outcome of the next fallible engine call,
`some e` when it fails and throws `e`. -/
def engineFails (w : World) : Option JSValue × World :=
  match w.enginePlan with
  | [] => (none, w)
  | r :: rest => (r, { w with enginePlan := rest })

/-- Modelled from the spec: `JS_GetException` of quickjs.h: the pending
exception is handed to the caller and the slot is reset to `JS_NULL`. -/
def JS_GetException (w : World) : JSValue × World :=
  (w.exception, { w with exception := JSValue.null })

/-- Modelled from the spec: `JS_Throw` of quickjs.h: the engine releases the
exception it held and takes `v` as the pending exception. -/
def JS_Throw (w : World) (v : JSValue) : World :=
  { JS_FreeValue w w.exception with exception := v }

/-- The macro `NAPI_PREAMBLE` (`CHECK_ARG(env)` holds by construction): the
status to return, if any, and the world. -/
def NAPI_PREAMBLE (w : World) : Option NAPIStatus × World :=
  if w.context = 0 then (some NAPIStatus.NAPIInvalidArg, w)
  else
    let (exceptionValue, w1) := JS_GetException w
    if !JS_IsNull exceptionValue then (some NAPIStatus.NAPIPendingException, JS_Throw w1 exceptionValue)
    else (none, w1)

/-- Modelled from the spec: `JS_NewStringLen` of quickjs.h: a fresh string
cell with one hold, or `JS_EXCEPTION` and a pending exception. -/
def JS_NewStringLen (w : World) (str : String) : JSValue × World :=
  match engineFails w with
  | (some e, w1) => (JSValue.exception, JS_Throw w1 e)
  | (none, w1) =>
    (JSValue.string w1.brk, { w1 with brk := w1.brk + 1, strings := (w1.brk, str) :: w1.strings })

/-- Modelled from the spec: `JS_NewObjectClass` of quickjs.h: a fresh object
of the class with one hold, no property and a `NULL` opaque pointer, or
`JS_EXCEPTION` and a pending exception. -/
def JS_NewObjectClass (w : World) (class_id : JSClassID) : JSValue × World :=
  match engineFails w with
  | (some e, w1) => (JSValue.exception, JS_Throw w1 e)
  | (none, w1) =>
    (JSValue.object w1.brk,
      { w1 with
          brk := w1.brk + 1
          objects := (w1.brk, { class_id := class_id, opaquePtr := 0, props := [] }) :: w1.objects })

/-- Modelled from the spec: `JS_SetOpaque` of quickjs.h. -/
def JS_SetOpaque (w : World) (obj : JSValue) (ptr : Ptr) : World :=
  match obj with
  | .object p => { w with objects := updateAt w.objects p (fun o => { o with opaquePtr := ptr }) }
  | _ => w

/-- Modelled from the spec: `JS_GetOpaque` of quickjs.h: `NULL` for a value
that is not an object or an object of another class, else the pointer set
by `JS_SetOpaque` (`napi_typeof` relies on this check of the class: it
tells an external from a plain object by it).  `none` when the object is
not live. -/
def JS_GetOpaque (w : World) (obj : JSValue) (class_id : JSClassID) : Option Ptr :=
  match obj with
  | .object p =>
    match w.objects.lookup p with
    | none => none
    | some o => if o.class_id ≠ class_id then some 0 else some o.opaquePtr
  | _ => some 0

/-- Modelled from the spec: `JS_IsFunction` of quickjs.h: an object whose
class has a call method.  `none` when the object is not live. -/
def JS_IsFunction (w : World) (val : JSValue) : Option Bool :=
  match val with
  | .object p =>
    match w.objects.lookup p with
    | none => none
    | some o =>
      match w.class_array.lookup o.class_id with
      | none => some false
      | some c => some c.call
  | _ => some false

/-- Modelled from the spec: `JS_ValueToAtom` of quickjs.h for a string key:
the atom of its text, or `JS_ATOM_NULL` (here `none`) and a pending
exception.  Keys that are not live strings are outside the model. -/
def JS_ValueToAtom (w : World) (val : JSValue) : Option (Option JSAtom × World) :=
  match val with
  | .string p =>
    match w.strings.lookup p with
    | none => none
    | some text =>
      match engineFails w with
      | (some e, w1) => some (none, JS_Throw w1 e)
      | (none, w1) => some (some text, w1)
  | _ => none

/-- Modelled from the spec: `JS_GetProperty` of quickjs.h on a live object:
a duplicate of the own property, `JS_UNDEFINED` when there is none. -/
def JS_GetProperty (w : World) (obj : JSValue) (atom : JSAtom) : Option (JSValue × World) :=
  match obj with
  | .object p =>
    match w.objects.lookup p with
    | none => none
    | some o =>
      match o.props.lookup atom with
      | none => some (JSValue.undefined, w)
      | some v => some (v, JS_DupValue w v)
  | _ => none

/-- Modelled from the spec: `JS_SetProperty` of quickjs.h on a live object;
the engine takes the caller's hold on `val`.  `1` on success (the value a
property had before is released), `-1` with a pending exception on failure
(`val` is released). -/
def JS_SetProperty (w : World) (obj : JSValue) (atom : JSAtom) (val : JSValue) :
    Option (Int × World) :=
  match obj with
  | .object p =>
    match w.objects.lookup p with
    | none => none
    | some o =>
      match engineFails w with
      | (some e, w1) => some (-1, JS_Throw (JS_FreeValue w1 val) e)
      | (none, w1) =>
        match o.props.lookup atom with
        | none =>
          some (1, { w1 with
            objects := updateAt w1.objects p (fun o => { o with props := o.props ++ [(atom, val)] }) })
        | some previous =>
          some (1, JS_FreeValue
            { w1 with
                objects := updateAt w1.objects p
                  (fun o => { o with props := updateAt o.props atom (fun _ => val) }) }
            previous)
  | _ => none

/-- Modelled from the spec: `JS_DeleteProperty` of quickjs.h on a live
object: the own property is removed and its value released; `1` (true) also
when there was no such property. -/
def JS_DeleteProperty (w : World) (obj : JSValue) (atom : JSAtom) : Option (Int × World) :=
  match obj with
  | .object p =>
    match w.objects.lookup p with
    | none => none
    | some o =>
      match o.props.lookup atom with
      | none => some (1, w)
      | some v =>
        some (1, JS_FreeValue
          { w with
              objects := updateAt w.objects p
                (fun o => { o with props := o.props.filter (fun e => e.1 ≠ atom) }) }
          v)
  | _ => none

/-- `napi_typeof`.  `none` when `value` points at nothing live. -/
def napi_typeof (w : World) (value : NAPIValue) (result : Option NAPIValueType) :
    Option (NAPIStatus × Option NAPIValueType × World) :=
  if value = NAPIValue.NULL then some (.NAPIInvalidArg, result, w)
  else
    match result with
    | none => some (.NAPIInvalidArg, none, w)
    | some old =>
      if w.context = 0 then some (.NAPIInvalidArg, some old, w)
      else
        match load w value with
        | none => none
        | some jsValue =>
          if JS_IsUndefined jsValue then some (.NAPIOK, some .NAPIUndefined, w)
          else if JS_IsNull jsValue then some (.NAPIOK, some .NAPINull, w)
          else if JS_IsNumber jsValue then some (.NAPIOK, some .NAPINumber, w)
          else if JS_IsBool jsValue then some (.NAPIOK, some .NAPIBoolean, w)
          else if JS_IsString jsValue then some (.NAPIOK, some .NAPIString, w)
          else
            match JS_IsFunction w jsValue with
            | none => none
            | some true => some (.NAPIOK, some .NAPIFunction, w)
            | some false =>
              match JS_GetOpaque w jsValue w.externalClassId with
              | none => none
              | some externalInfo =>
                if externalInfo ≠ 0 then some (.NAPIOK, some .NAPIExternal, w)
                else if JS_IsObject jsValue then some (.NAPIOK, some .NAPIObject, w)
                else some (.NAPIInvalidArg, some old, w)

/-- `napi_create_string_utf8`; `length` is `none` for `NAPI_AUTO_LENGTH`,
`str` is `none` for `NULL`.  `none` when a `NULL` string is read. -/
def napi_create_string_utf8 (w : World) (str : Option String) (length : Option Nat)
    (result : Option NAPIValue) : Option (NAPIStatus × Option NAPIValue × World) :=
  match NAPI_PREAMBLE w with
  | (some status, w1) => some (status, result, w1)
  | (none, w1) =>
    match result with
    | none => some (.NAPIInvalidArg, none, w1)
    | some old =>
      match (match str, length with
        | some text, none => some text
        | none, none => some ""
        | some text, some n => some (text.take n)
        | none, some n => if n = 0 then some "" else none) with
      | none => none
      | some text =>
        let r := JS_NewStringLen w1 text
        if JS_IsException r.1 then some (.NAPIPendingException, some old, r.2)
        else
          let a := addValueToHandleScope r.2 r.1 (some 0)
          if a.1 ≠ NAPIStatus.NAPIOK then some (a.1, some old, JS_FreeValue a.2.2 r.1)
          else some (.NAPIOK, some (NAPIValue.handleValue (a.2.1.getD 0)), a.2.2)

/-- `napi_get_property`. -/
def napi_get_property (w : World) (object key : NAPIValue) (result : Option NAPIValue) :
    Option (NAPIStatus × Option NAPIValue × World) :=
  match NAPI_PREAMBLE w with
  | (some status, w1) => some (status, result, w1)
  | (none, w1) =>
    if object = NAPIValue.NULL then some (.NAPIInvalidArg, result, w1)
    else if key = NAPIValue.NULL then some (.NAPIInvalidArg, result, w1)
    else
      match result with
      | none => some (.NAPIInvalidArg, none, w1)
      | some old =>
        match load w1 key with
        | none => none
        | some keyValue =>
          match JS_ValueToAtom w1 keyValue with
          | none => none
          | some (none, w2) => some (.NAPIPendingException, some old, w2)
          | some (some atom, w2) =>
            match load w2 object with
            | none => none
            | some objectValue =>
              match JS_GetProperty w2 objectValue atom with
              | none => none
              | some (value, w3) =>
                if JS_IsException value then some (.NAPIPendingException, some old, w3)
                else
                  let a := addValueToHandleScope w3 value (some 0)
                  if a.1 ≠ NAPIStatus.NAPIOK then some (a.1, some old, JS_FreeValue a.2.2 value)
                  else some (.NAPIOK, some (NAPIValue.handleValue (a.2.1.getD 0)), a.2.2)

/-- `napi_set_property`. -/
def napi_set_property (w : World) (object key value : NAPIValue) : Option (NAPIStatus × World) :=
  match NAPI_PREAMBLE w with
  | (some status, w1) => some (status, w1)
  | (none, w1) =>
    if object = NAPIValue.NULL then some (.NAPIInvalidArg, w1)
    else if key = NAPIValue.NULL then some (.NAPIInvalidArg, w1)
    else if value = NAPIValue.NULL then some (.NAPIInvalidArg, w1)
    else
      match load w1 key with
      | none => none
      | some keyValue =>
        match JS_ValueToAtom w1 keyValue with
        | none => none
        | some (none, w2) => some (.NAPIPendingException, w2)
        | some (some atom, w2) =>
          match load w2 object, load w2 value with
          | some objectValue, some jsValue =>
            match JS_SetProperty (JS_DupValue w2 jsValue) objectValue atom jsValue with
            | none => none
            | some (status, w3) =>
              if status = -1 then some (.NAPIPendingException, w3)
              else if status = 0 then some (.NAPIGenericFailure, w3)
              else some (.NAPIOK, w3)
          | _, _ => none

/-- `napi_delete_property`; `result` is `none` for a `NULL` pointer. -/
def napi_delete_property (w : World) (object key : NAPIValue) (result : Option Bool) :
    Option (NAPIStatus × Option Bool × World) :=
  match NAPI_PREAMBLE w with
  | (some status, w1) => some (status, result, w1)
  | (none, w1) =>
    if object = NAPIValue.NULL then some (.NAPIInvalidArg, result, w1)
    else if key = NAPIValue.NULL then some (.NAPIInvalidArg, result, w1)
    else
      match load w1 key with
      | none => none
      | some keyValue =>
        match JS_ValueToAtom w1 keyValue with
        | none => none
        | some (none, w2) => some (.NAPIPendingException, result, w2)
        | some (some atom, w2) =>
          match load w2 object with
          | none => none
          | some objectValue =>
            match JS_DeleteProperty w2 objectValue atom with
            | none => none
            | some (status, w3) =>
              if status = -1 then some (.NAPIPendingException, result, w3)
              else some (.NAPIOK, result.map (fun _ => decide (status ≠ 0)), w3)

/-- `napi_create_external`. -/
def napi_create_external (w : World) (data : Ptr) (finalizeCB : NAPIFinalize) (finalizeHint : Ptr)
    (result : Option NAPIValue) : NAPIStatus × Option NAPIValue × World :=
  match NAPI_PREAMBLE w with
  | (some status, w1) => (status, result, w1)
  | (none, w1) =>
    match result with
    | none => (.NAPIInvalidArg, none, w1)
    | some old =>
      let m := malloc w1
      if m.1 = 0 then (.NAPIMemoryError, some old, m.2)
      else
        let w2 : World :=
          { m.2 with
              externalInfos :=
                (m.1, { env := m.2.env, data := data, finalizeHint := finalizeHint,
                        finalizeCallback := NAPIFinalize.NULL }) :: m.2.externalInfos }
        let o := JS_NewObjectClass w2 w2.externalClassId
        if JS_IsException o.1 then
          (.NAPIPendingException, some old, { o.2 with externalInfos := eraseAt o.2.externalInfos m.1 })
        else
          let w3 := JS_SetOpaque o.2 o.1 m.1
          let a := addValueToHandleScope w3 o.1 (some 0)
          if a.1 ≠ NAPIStatus.NAPIOK then (a.1, some old, JS_FreeValue a.2.2 o.1)
          else
            (.NAPIOK, some (NAPIValue.handleValue (a.2.1.getD 0)),
              { a.2.2 with
                  externalInfos :=
                    updateAt a.2.2.externalInfos m.1
                      (fun info => { info with finalizeCallback := finalizeCB }) })

/-- `napi_get_value_external`.  `none` when `value` points at nothing live
or the opaque pointer of the external is not a live `ExternalInfo`. -/
def napi_get_value_external (w : World) (value : NAPIValue) (result : Option Ptr) :
    Option (NAPIStatus × Option Ptr × World) :=
  if value = NAPIValue.NULL then some (.NAPIInvalidArg, result, w)
  else
    match result with
    | none => some (.NAPIInvalidArg, none, w)
    | some _ =>
      match load w value with
      | none => none
      | some jsValue =>
        match JS_GetOpaque w jsValue w.externalClassId with
        | none => none
        | some externalInfo =>
          if externalInfo = 0 then some (.NAPIOK, some 0, w)
          else
            match w.externalInfos.lookup externalInfo with
            | none => none
            | some info => some (.NAPIOK, some info.data, w)

/-- `referenceFinalize`: every reference of the list is tombstoned and the
`ReferenceInfo` is freed.  `none` when `finalizeData` or a reference of the
list is not live. -/
def referenceFinalize (w : World) (finalizeData : Ptr) : Option World :=
  if finalizeData = 0 then some w
  else
    match w.referenceInfos.lookup finalizeData with
    | none => none
    | some referenceInfo =>
      if referenceInfo.referenceList.all (fun r => (w.refs.lookup r).isSome) then
        some
          { w with
              refs := referenceInfo.referenceList.foldl
                (fun refs r => updateAt refs r (fun x => { x with value := JSValue.undefined })) w.refs
              referenceInfos := eraseAt w.referenceInfos finalizeData }
      else none

/-- `static const char *const referenceString`. -/
def referenceString : String := "__reference__"

/-- The block `if (valueType == NAPIUndefined)` of `setWeak` that creates the
registry: the status, the new `referenceValue` and the world. -/
def setWeakCreate (w : World) (referenceValue : NAPIValue) : NAPIStatus × NAPIValue × World :=
  let m := malloc w
  if m.1 = 0 then (.NAPIMemoryError, referenceValue, m.2)
  else
    let w1 : World :=
      { m.2 with referenceInfos := (m.1, { referenceList := [] }) :: m.2.referenceInfos }
    let c := napi_create_external w1 m.1 NAPIFinalize.referenceFinalize 0 (some referenceValue)
    if c.1 ≠ NAPIStatus.NAPIOK then
      (c.1, c.2.1.getD referenceValue, { c.2.2 with referenceInfos := eraseAt c.2.2.referenceInfos m.1 })
    else (.NAPIOK, c.2.1.getD referenceValue, c.2.2)

/-- `setWeak`. -/
def setWeak (w : World) (value : NAPIValue) (ref : NAPIRef) : Option (NAPIStatus × World) :=
  if value = NAPIValue.NULL then some (.NAPIInvalidArg, w)
  else if ref = 0 then some (.NAPIInvalidArg, w)
  else
    match napi_create_string_utf8 w (some referenceString) none (some NAPIValue.NULL) with
    | none => none
    | some (status, stringValue, w1) =>
      if status ≠ NAPIStatus.NAPIOK then some (status, w1)
      else
        match napi_get_property w1 value (stringValue.getD NAPIValue.NULL) (some NAPIValue.NULL) with
        | none => none
        | some (status, referenceValue, w2) =>
          if status ≠ NAPIStatus.NAPIOK then some (status, w2)
          else
            match napi_typeof w2 (referenceValue.getD NAPIValue.NULL)
                (some NAPIValueType.NAPIUndefined) with
            | none => none
            | some (status, valueType, w3) =>
              if status ≠ NAPIStatus.NAPIOK then some (status, w3)
              else if valueType ≠ some NAPIValueType.NAPIUndefined ∧
                  valueType ≠ some NAPIValueType.NAPIExternal then
                some (.NAPIGenericFailure, w3)
              else
                let c :=
                  if valueType = some NAPIValueType.NAPIUndefined then
                    setWeakCreate w3 (referenceValue.getD NAPIValue.NULL)
                  else (NAPIStatus.NAPIOK, referenceValue.getD NAPIValue.NULL, w3)
                if c.1 ≠ NAPIStatus.NAPIOK then some (c.1, c.2.2)
                else
                  match napi_get_value_external c.2.2 c.2.1 (some 0) with
                  | none => none
                  | some (status, referenceInfo, w5) =>
                    if status ≠ NAPIStatus.NAPIOK then some (status, w5)
                    else if referenceInfo.getD 0 = 0 then some (.NAPIGenericFailure, w5)
                    else
                      match (if valueType = some NAPIValueType.NAPIUndefined then
                          napi_set_property w5 value (stringValue.getD NAPIValue.NULL) c.2.1
                        else some (NAPIStatus.NAPIOK, w5)) with
                      | none => none
                      | some (status, w6) =>
                        if status ≠ NAPIStatus.NAPIOK then some (status, w6)
                        else if (w6.referenceInfos.lookup (referenceInfo.getD 0)).isNone then none
                        else
                          some (.NAPIOK,
                            { w6 with
                                referenceInfos :=
                                  updateAt w6.referenceInfos (referenceInfo.getD 0)
                                    (fun info => { referenceList := ref :: info.referenceList }) })

/-- `napi_create_reference`; `initialRefCount` is a `uint32_t`, the stored
count a `uint8_t`. -/
def napi_create_reference (w : World) (value : NAPIValue) (initialRefCount : Nat)
    (result : Option NAPIRef) : Option (NAPIStatus × Option NAPIRef × World) :=
  if value = NAPIValue.NULL then some (.NAPIInvalidArg, result, w)
  else
    match result with
    | none => some (.NAPIInvalidArg, none, w)
    | some old =>
      if w.context = 0 then some (.NAPIInvalidArg, some old, w)
      else
        let m := malloc w
        if m.1 = 0 then some (.NAPIMemoryError, some 0, m.2)
        else
          match load m.2 value with
          | none => none
          | some jsValue =>
            if !JS_IsObject jsValue && initialRefCount = 0 then
              some (.NAPIOK, some m.1,
                { m.2 with
                    refs := (m.1, { value := JSValue.undefined, referenceCount := 0 }) :: m.2.refs })
            else
              let w2 : World :=
                { m.2 with
                    refs := (m.1, { value := jsValue, referenceCount := initialRefCount % 256 }) ::
                      m.2.refs }
              if !JS_IsObject jsValue then some (.NAPIOK, some m.1, w2)
              else if initialRefCount ≠ 0 then some (.NAPIOK, some m.1, JS_DupValue w2 jsValue)
              else
                match setWeak w2 value m.1 with
                | none => none
                | some (status, w3) =>
                  if status ≠ NAPIStatus.NAPIOK then
                    some (status, some m.1, { w3 with refs := eraseAt w3.refs m.1 })
                  else some (.NAPIOK, some m.1, w3)

/-- `LIST_REMOVE(ref, node)`: the reference is unlinked from the list it is
in.  `none` when it is in no list (its links are not initialised). -/
def LIST_REMOVE (w : World) (ref : NAPIRef) : Option World :=
  if w.referenceInfos.any (fun e => e.2.referenceList.contains ref) then
    some
      { w with
          referenceInfos :=
            w.referenceInfos.map (fun e => (e.1, { referenceList := e.2.referenceList.erase ref })) }
  else none

/-- `clearWeak`. -/
def clearWeak (w : World) (ref : NAPIRef) : Option (NAPIStatus × World) :=
  if ref = 0 then some (.NAPIInvalidArg, w)
  else
    match napi_create_string_utf8 w (some referenceString) none (some NAPIValue.NULL) with
    | none => none
    | some (status, stringValue, w1) =>
      if status ≠ NAPIStatus.NAPIOK then some (status, w1)
      else
        match napi_get_property w1 (NAPIValue.refValue ref) (stringValue.getD NAPIValue.NULL)
            (some NAPIValue.NULL) with
        | none => none
        | some (status, externalValue, w2) =>
          if status ≠ NAPIStatus.NAPIOK then some (status, w2)
          else
            match napi_get_value_external w2 (externalValue.getD NAPIValue.NULL) (some 0) with
            | none => none
            | some (status, referenceInfo, w3) =>
              if status ≠ NAPIStatus.NAPIOK then some (status, w3)
              else if referenceInfo.getD 0 = 0 then some (.NAPIGenericFailure, w3)
              else
                match w3.referenceInfos.lookup (referenceInfo.getD 0) with
                | none => none
                | some info =>
                  match (if info.referenceList = [ref] then
                      napi_delete_property w3 (NAPIValue.refValue ref)
                        (stringValue.getD NAPIValue.NULL) (some false)
                    else some (NAPIStatus.NAPIOK, some true, w3)) with
                  | none => none
                  | some (status, deleteResult, w4) =>
                    if status ≠ NAPIStatus.NAPIOK then some (status, w4)
                    else if deleteResult ≠ some true then some (.NAPIGenericFailure, w4)
                    else
                      match LIST_REMOVE w4 ref with
                      | none => none
                      | some w5 => some (.NAPIOK, w5)

/-- `napi_delete_reference`.  `none` when `ref` is not a live reference. -/
def napi_delete_reference (w : World) (ref : NAPIRef) : Option (NAPIStatus × World) :=
  if ref = 0 then some (.NAPIInvalidArg, w)
  else if w.context = 0 then some (.NAPIInvalidArg, w)
  else
    match w.refs.lookup ref with
    | none => none
    | some r =>
      if !JS_IsObject r.value then some (.NAPIOK, { w with refs := eraseAt w.refs ref })
      else if r.referenceCount ≠ 0 then
        some (.NAPIOK,
          { JS_FreeValue w r.value with refs := eraseAt (JS_FreeValue w r.value).refs ref })
      else if JS_IsUndefined r.value then some (.NAPIOK, { w with refs := eraseAt w.refs ref })
      else
        match clearWeak w ref with
        | none => none
        | some (status, w1) =>
          if status ≠ NAPIStatus.NAPIOK then some (status, w1)
          else some (.NAPIOK, { w1 with refs := eraseAt w1.refs ref })

/-- `napi_reference_ref`; `result` is `none` for a `NULL` pointer.  `none`
when `ref` is not a live reference. -/
def napi_reference_ref (w : World) (ref : NAPIRef) (result : Option Nat) :
    Option (NAPIStatus × Option Nat × World) :=
  if ref = 0 then some (.NAPIInvalidArg, result, w)
  else if w.context = 0 then some (.NAPIInvalidArg, result, w)
  else
    match w.refs.lookup ref with
    | none => none
    | some r =>
      if ¬ (r.referenceCount ≠ 0 ∨ JS_IsUndefined r.value = false) then
        some (.NAPIGenericFailure, result, w)
      else
        match (if r.referenceCount = 0 then
            match (if JS_IsObject r.value then clearWeak w ref else some (NAPIStatus.NAPIOK, w)) with
            | none => none
            | some (status, w1) =>
              if status ≠ NAPIStatus.NAPIOK then some (status, w1)
              else some (NAPIStatus.NAPIOK, JS_DupValue w1 r.value)
          else some (NAPIStatus.NAPIOK, w)) with
        | none => none
        | some (status, w2) =>
          if status ≠ NAPIStatus.NAPIOK then some (status, result, w2)
          else
            some (.NAPIOK, result.map (fun _ => (r.referenceCount + 1) % 256),
              { w2 with
                  refs := updateAt w2.refs ref
                    (fun x => { x with referenceCount := (x.referenceCount + 1) % 256 }) })

/-- `napi_reference_unref`; `result` is `none` for a `NULL` pointer.  `none`
when `ref` is not a live reference. -/
def napi_reference_unref (w : World) (ref : NAPIRef) (result : Option Nat) :
    Option (NAPIStatus × Option Nat × World) :=
  if ref = 0 then some (.NAPIInvalidArg, result, w)
  else if w.context = 0 then some (.NAPIInvalidArg, result, w)
  else
    match w.refs.lookup ref with
    | none => none
    | some r =>
      if r.referenceCount = 0 then some (.NAPIGenericFailure, result, w)
      else
        match (if r.referenceCount = 1 then
            if JS_IsObject r.value then
              match setWeak w (NAPIValue.refValue ref) ref with
              | none => none
              | some (status, w1) =>
                if status ≠ NAPIStatus.NAPIOK then some (status, w1)
                else some (NAPIStatus.NAPIOK, JS_FreeValue w1 r.value)
            else
              some (NAPIStatus.NAPIOK,
                { JS_FreeValue w r.value with
                    refs := updateAt (JS_FreeValue w r.value).refs ref
                      (fun x => { x with value := JSValue.undefined }) })
          else some (NAPIStatus.NAPIOK, w)) with
        | none => none
        | some (status, w2) =>
          if status ≠ NAPIStatus.NAPIOK then some (status, result, w2)
          else
            some (.NAPIOK, result.map (fun _ => (r.referenceCount + 255) % 256),
              { w2 with
                  refs := updateAt w2.refs ref
                    (fun x => { x with referenceCount := (x.referenceCount + 255) % 256 }) })

/-- `napi_get_reference_value`.  `none` when `ref` is not a live reference. -/
def napi_get_reference_value (w : World) (ref : NAPIRef) (result : Option NAPIValue) :
    Option (NAPIStatus × Option NAPIValue × World) :=
  if ref = 0 then some (.NAPIInvalidArg, result, w)
  else
    match result with
    | none => some (.NAPIInvalidArg, none, w)
    | some _ =>
      match w.refs.lookup ref with
      | none => none
      | some r =>
        if r.referenceCount = 0 ∧ JS_IsUndefined r.value = true then
          some (.NAPIOK, some NAPIValue.NULL, w)
        else some (.NAPIOK, some (NAPIValue.refValue ref), w)

/-- A call of a finalize callback `cb(env, data, hint)`: `referenceFinalize`
runs, `functionFinalize` frees the hint (memory the model does not track), a
user callback is recorded.  `none` for a call through `NULL`. -/
def callFinalize (w : World) (cb : NAPIFinalize) (env data hint : Ptr) : Option World :=
  match cb with
  | .NULL => none
  | .referenceFinalize => referenceFinalize w data
  | .functionFinalize => some w
  | .user f => some { w with finalized := w.finalized ++ [{ f := f, env := env, data := data, hint := hint }] }

/-- `functionFinalizer`. -/
def functionFinalizer (w : World) (val : JSValue) : Option World :=
  match JS_GetOpaque w val w.functionClassId with
  | none => none
  | some functionInfo => some { w with functionInfos := eraseAt w.functionInfos functionInfo }

/-- `externalFinalizer`.  `none` when the opaque pointer it reads is not a
live `ExternalInfo`. -/
def externalFinalizer (w : World) (val : JSValue) : Option World :=
  match JS_GetOpaque w val w.functionClassId with
  | none => none
  | some externalInfo =>
    if externalInfo = 0 then some w
    else
      match w.externalInfos.lookup externalInfo with
      | none => none
      | some info =>
        match (if info.finalizeCallback ≠ NAPIFinalize.NULL then
            callFinalize w info.finalizeCallback info.env info.data info.finalizeHint
          else some w) with
        | none => none
        | some w1 => some { w1 with externalInfos := eraseAt w1.externalInfos externalInfo }

/-- Modelled from the spec: the engine collects the object at address `p`
(`free_object` of quickjs.c): the values of its properties are released, the
finalizer registered for its class runs, and the cell is freed.  `none`
when `p` is not a live object. -/
def free_object (w : World) (p : Ptr) : Option World :=
  match w.objects.lookup p with
  | none => none
  | some o =>
    let w1 := o.props.foldl (fun acc e => JS_FreeValue acc e.2) w
    match (match (w1.class_array.lookup o.class_id).map (fun c => c.finalizer) with
      | some JSClassFinalizer.externalFinalizer => externalFinalizer w1 (JSValue.object p)
      | some JSClassFinalizer.functionFinalizer => functionFinalizer w1 (JSValue.object p)
      | _ => some w1) with
    | none => none
    | some w2 => some { w2 with objects := eraseAt w2.objects p }

/-- `SLIST_FIRST(&env->handleScopeList)` as an optional address: the current
(topmost) scope, if any scope is open. -/
def currentScope (w : World) : Option Ptr :=
  w.handleScopeList.head?.map (fun s => s.addr)

/-- A world as `NAPICreateEnv` leaves it: a context, no open scope, the three
classes of the adapter registered under three consecutive class identifiers,
beside some built-in classes of the engine. -/
def freshWorld : World :=
  { env := 1
    context := 2
    handleScopeList := []
    refs := []
    referenceInfos := []
    externalInfos := []
    functionInfos := []
    constructorClassId := 56
    functionClassId := 57
    externalClassId := 58
    class_array :=
      [(1, { class_name := "Object", finalizer := .NULL, call := false }),
       (12, { class_name := "Function", finalizer := .NULL, call := true }),
       (56, { class_name := "ExternalConstructor", finalizer := .functionFinalizer, call := false }),
       (57, { class_name := "ExternalFunction", finalizer := .functionFinalizer, call := false }),
       (58, { class_name := "External", finalizer := .externalFinalizer, call := false })]
    objects := []
    strings := []
    exception := JSValue.null
    log := []
    finalized := []
    brk := 100
    mallocPlan := []
    enginePlan := [] }

/-- A sample stack: the plain scope `7` with one handle on top of the plain
scope `5`. -/
def twoScopes : World :=
  { freshWorld with
      handleScopeList := [⟨7, [⟨9, JSValue.object 40⟩], none⟩, ⟨5, [⟨8, JSValue.object 41⟩], none⟩] }

/-- A sample stack: the escapable scope `7`, in which the handle `9` roots
the object `40`, on top of the plain scope `5`. -/
def escapableOverPlain : World :=
  { freshWorld with
      handleScopeList := [⟨7, [⟨9, JSValue.object 40⟩], some false⟩, ⟨5, [], none⟩] }

/-- A sample stack: the escapable scope `7` alone. -/
def escapableAlone : World :=
  { freshWorld with handleScopeList := [⟨7, [⟨9, JSValue.object 40⟩], some false⟩] }

/-- The end-to-end sequence of the spec: open scope A, root `v1` in A, open
the escapable scope B, root `v2` in B, escape `v2` from B (the caller passes
the address of the variable that holds the handle of `v2` as `result`),
close B, close A.  The answer lists the seven statuses and the final world. -/
def endToEnd (w : World) (v1 v2 : JSValue) : Option (List NAPIStatus × World) :=
  match napi_open_handle_scope w (some 0) with
  | (s1, a, w1) =>
    match addValueToHandleScope w1 v1 (some 0) with
    | (s2, _, w2) =>
      match napi_open_escapable_handle_scope w2 (some 0) with
      | (s3, b, w3) =>
        match addValueToHandleScope w3 v2 (some 0) with
        | (s4, h2, w4) =>
          match napi_escape_handle w4 (b.getD 0) (NAPIValue.handleValue (h2.getD 0))
              (some (NAPIValue.handleValue (h2.getD 0))) with
          | none => none
          | some (s5, _, w5) =>
            match napi_close_escapable_handle_scope w5 (b.getD 0) with
            | (s6, w6) =>
              match napi_close_handle_scope w6 (a.getD 0) with
              | (s7, w7) => some ([s1, s2, s3, s4, s5, s6, s7], w7)

/-- A sample world: the scope `7` is open and its handle `9` roots the plain
object `40`, which has no property. -/
def objWorld : World :=
  { freshWorld with
      handleScopeList := [⟨7, [⟨9, JSValue.object 40⟩], none⟩]
      objects := [(40, { class_id := 1, opaquePtr := 0, props := [] })] }

/-- The reference lifecycle of the spec: `napi_create_reference(value, 0)`
inside the scope `scope`, the scope is closed, the engine collects the
object `obj` and then the external `ext` that backs its registry, and
`napi_get_reference_value` is asked.  The answer lists the three statuses,
what `napi_get_reference_value` yields, the reference and the final world. -/
def weakLifecycle (w : World) (value : NAPIValue) (scope : NAPIHandleScope) (obj ext : Ptr) :
    Option (List NAPIStatus × Option NAPIValue × Option NAPIRef × World) :=
  match napi_create_reference w value 0 (some 0) with
  | none => none
  | some (s1, ref, w1) =>
    match napi_close_handle_scope w1 scope with
    | (s2, w2) =>
      match free_object w2 obj with
      | none => none
      | some w3 =>
        match free_object w3 ext with
        | none => none
        | some w4 =>
          match napi_get_reference_value w4 (ref.getD 0) (some NAPIValue.NULL) with
          | none => none
          | some (s3, v, w5) => some ([s1, s2, s3], v, ref, w5)

/-- A sample world: the reference `50` is strong (count 1) on the object
`40`, the reference `51` is tombstoned. -/
def refsWorld : World :=
  { objWorld with
      refs := [(50, { value := JSValue.object 40, referenceCount := 1 }),
               (51, { value := JSValue.undefined, referenceCount := 0 })] }

/-- The release events of a handle list: one per handle whose value is
reference counted, in list order. -/
def releaseEvents (hs : List Handle) : List JSEvent :=
  (hs.filter (fun h => JS_VALUE_HAS_REF_COUNT h.value)).map (fun h => JSEvent.free h.value)

/-- Every cell of the table lies below the address `n`. -/
def below {α : Type} (m : List (Nat × α)) (n : Nat) : Prop := ∀ e ∈ m, e.1 < n

/-- The addresses in use lie below `brk`, so that `malloc` and the engine
hand out fresh memory: the live objects, `ExternalInfo`s, `ReferenceInfo`s
and references, and no registry list names the address `brk` itself. -/
def Fresh (w : World) : Prop :=
  below w.objects w.brk ∧ below w.externalInfos w.brk ∧ below w.referenceInfos w.brk ∧
    below w.refs w.brk ∧ ∀ e ∈ w.referenceInfos, w.brk ∉ e.2.referenceList

/-- The strong/weak round trip of the spec: `napi_create_reference(value, 1)`,
`napi_reference_unref`, `napi_reference_ref`, `napi_get_reference_value`
(the two count variables hold 7 before the calls).  The answer lists the
four statuses, the reference, the count after the unref, the count after
the ref, what `napi_get_reference_value` yields, and the final world. -/
def roundTrip (w : World) (value : NAPIValue) :
    Option (List NAPIStatus × Option NAPIRef × Option Nat × Option Nat × Option NAPIValue × World) :=
  match napi_create_reference w value 1 (some 0) with
  | none => none
  | some (s1, ref, w1) =>
    match napi_reference_unref w1 (ref.getD 0) (some 7) with
    | none => none
    | some (s2, c2, w2) =>
      match napi_reference_ref w2 (ref.getD 0) (some 7) with
      | none => none
      | some (s3, c3, w3) =>
        match napi_get_reference_value w3 (ref.getD 0) (some NAPIValue.NULL) with
        | none => none
        | some (s4, v, w4) => some ([s1, s2, s3, s4], ref, c2, c3, v, w4)

/-- A sample world: the scope `7` roots the object `40`, which the weak
reference `50` already watches: its hidden slot `__reference__` holds the
external `60`, whose `ExternalInfo` `61` carries the registry `62` with the
list `[50]`. -/
def watchedWorld : World :=
  { freshWorld with
      handleScopeList := [⟨7, [⟨9, JSValue.object 40⟩], none⟩]
      refs := [(50, ⟨JSValue.object 40, 0⟩)]
      referenceInfos := [(62, ⟨[50]⟩)]
      externalInfos :=
        [(61, { env := 1, data := 62, finalizeHint := 0,
                finalizeCallback := NAPIFinalize.referenceFinalize })]
      objects :=
        [(60, { class_id := 58, opaquePtr := 61, props := [] }),
         (40, { class_id := 1, opaquePtr := 0, props := [("__reference__", JSValue.object 60)] })] }

/-- A sample world: the scope `7` roots the object `40`, which the weak
references `51` and `50` watch through one registry (`62`, list `[51, 50]`)
kept by the external `60` in the hidden slot. -/
def twoWeak : World :=
  { watchedWorld with
      refs := [(51, ⟨JSValue.object 40, 0⟩), (50, ⟨JSValue.object 40, 0⟩)]
      referenceInfos := [(62, ⟨[51, 50]⟩)] }

/-- A sample world: the scope `7` roots the string `30`. -/
def stringWorld : World :=
  { freshWorld with
      handleScopeList := [⟨7, [⟨9, JSValue.string 30⟩], none⟩]
      strings := [(30, "hello")] }

/-- A sample world: the reference `50` is strong on the object `40` with the
count 255. -/
def fullWorld : World :=
  { objWorld with refs := [(50, ⟨JSValue.object 40, 255⟩)] }

/-- `napi_create_reference(value, n)` followed by one `napi_reference_unref`:
the two statuses, the count the unref yields, and the final world. -/
def createThenUnref (w : World) (value : NAPIValue) (n : Nat) :
    Option (NAPIStatus × NAPIStatus × Option Nat × World) :=
  match napi_create_reference w value n (some 0) with
  | none => none
  | some (s1, ref, w1) =>
    match napi_reference_unref w1 (ref.getD 0) (some 7) with
    | none => none
    | some (s2, c, w2) => some (s1, s2, c, w2)

/-- `napi_create_reference(value, 0)` followed by `napi_get_reference_value`:
the two statuses, the reference, what the read yields, and the final world. -/
def createThenGet (w : World) (value : NAPIValue) :
    Option (NAPIStatus × NAPIStatus × Option NAPIRef × Option NAPIValue × World) :=
  match napi_create_reference w value 0 (some 0) with
  | none => none
  | some (s1, ref, w1) =>
    match napi_get_reference_value w1 (ref.getD 0) (some NAPIValue.nullValue) with
    | none => none
    | some (s2, v, w2) => some (s1, s2, ref, v, w2)

/-- Two calls of `napi_reference_ref` in a row on `ref` (the count variable
holds 7 before each): both statuses, both counts, the world in between and
the final world. -/
def refTwice (w : World) (ref : NAPIRef) :
    Option (NAPIStatus × Option Nat × NAPIStatus × Option Nat × World × World) :=
  match napi_reference_ref w ref (some 7) with
  | none => none
  | some (s1, c1, w1) =>
    match napi_reference_ref w1 ref (some 7) with
    | none => none
    | some (s2, c2, w2) => some (s1, c1, s2, c2, w1, w2)

/-- The external lifecycle of the spec: `napi_create_external(data, f, hint)`
inside the scope `scope`, the scope is closed, and the engine collects the
external `ext`.  The two statuses, the world after the creation and the
final world. -/
def externalLifecycle (w : World) (data : Ptr) (finalizeCB : NAPIFinalize) (hint : Ptr)
    (scope : NAPIHandleScope) (ext : Ptr) : Option (NAPIStatus × NAPIStatus × World × World) :=
  match napi_create_external w data finalizeCB hint (some NAPIValue.NULL) with
  | (s1, _, w1) =>
    match napi_close_handle_scope w1 scope with
    | (s2, w2) => (free_object w2 ext).map (fun w3 => (s1, s2, w1, w3))

/-- `struct OpaqueNAPICallbackInfo`; `argv` holds the `argc` arguments. -/
structure OpaqueNAPICallbackInfo where
  newTarget : JSValue
  thisArg : JSValue
  argv : List JSValue
  data : Ptr
  argc : Nat
  deriving DecidableEq, Repr

/-- `NAPICallback`: host code, run on the world with the callback info of
the call; it answers the `NAPIValue` it returns and the world it leaves
(`none` when it runs into undefined behaviour). -/
abbrev NAPICallback := World → OpaqueNAPICallbackInfo → Option (NAPIValue × World)

/-- `callAsFunction`; `callbacks` gives the host function behind each
callback number stored in a `FunctionInfo`, `funcData` is `funcData[0]`.
`none` where the C code reads through a pointer that is not live: a
`FunctionInfo` that is not live or belongs to another environment, a `NULL`
or dangling `NAPIValue` returned by the callback. -/
def callAsFunction (callbacks : Nat → NAPICallback) (w : World) (thisVal : JSValue)
    (argv : List JSValue) (funcData : JSValue) : Option (JSValue × World) :=
  match JS_GetOpaque w funcData w.functionClassId with
  | none => none
  | some functionInfo =>
    if functionInfo = 0 then some (JSValue.undefined, w)
    else
      match w.functionInfos.lookup functionInfo with
      | none => none
      | some info =>
        if info.callback = 0 ∨ info.env = 0 then some (JSValue.undefined, w)
        else if info.env ≠ w.env then none
        else
          let callbackInfo : OpaqueNAPICallbackInfo :=
            { newTarget := JSValue.undefined, thisArg := thisVal, argv := argv, data := info.data,
              argc := argv.length }
          let o1 := napi_open_handle_scope w (some 0)
          let o2 := napi_open_handle_scope o1.2.2 o1.2.1
          if o2.1 ≠ NAPIStatus.NAPIOK then some (JSValue.undefined, o2.2.2)
          else
            match callbacks info.callback o2.2.2 callbackInfo with
            | none => none
            | some (returned, w3) =>
              match load w3 returned with
              | none => none
              | some returnValue =>
                let c := napi_close_handle_scope (JS_DupValue w3 returnValue) (o2.2.1.getD 0)
                let e := JS_GetException c.2
                if !JS_IsNull e.1 then
                  some (JSValue.exception, JS_Throw (JS_FreeValue e.2 returnValue) e.1)
                else some (returnValue, e.2)

/-- The values `*((JSValue *)argv[i])` for `i < argc`; `none` when the array
is shorter than `argc` or an entry points at nothing live. -/
def loadArgs (w : World) (argv : List NAPIValue) (argc : Nat) : Option (List JSValue) :=
  if argv.length < argc then none else (argv.take argc).mapM (load w)

/-- `napi_call_function`.  `JS_Call` stands for the engine's call of a
function value with a `this` value and arguments (quickjs.h, not under
src/): the value it returns and the world it leaves, `none` outside what
the engine defines.  `argv` is `none` for a `NULL` array. -/
def napi_call_function
    (JS_Call : World → JSValue → JSValue → List JSValue → Option (JSValue × World))
    (w : World) (thisValue func : NAPIValue) (argc : Nat) (argv : Option (List NAPIValue))
    (result : Option NAPIValue) : Option (NAPIStatus × Option NAPIValue × World) :=
  match NAPI_PREAMBLE w with
  | (some status, w1) => some (status, result, w1)
  | (none, w1) =>
    if thisValue = NAPIValue.NULL then some (.NAPIInvalidArg, result, w1)
    else if func = NAPIValue.NULL then some (.NAPIInvalidArg, result, w1)
    else
      match (if argc > 0 then
          match argv with
          | none => some (some NAPIStatus.NAPIInvalidArg, [], w1)
          | some l =>
            let m := malloc w1
            if m.1 = 0 then some (some NAPIStatus.NAPIMemoryError, [], m.2)
            else (loadArgs m.2 l argc).map (fun args => (none, args, m.2))
        else some (none, [], w1)) with
      | none => none
      | some (some status, _, w2) => some (status, result, w2)
      | some (none, internalArgv, w2) =>
        match load w2 func, load w2 thisValue with
        | some funcValue, some thisArg =>
          match JS_Call w2 funcValue thisArg internalArgv with
          | none => none
          | some (returnValue, w3) =>
            if JS_IsException returnValue then some (.NAPIPendingException, result, w3)
            else
              match result with
              | none => some (.NAPIOK, none, w3)
              | some old =>
                let a := addValueToHandleScope w3 returnValue (some 0)
                if a.1 ≠ NAPIStatus.NAPIOK then some (a.1, some old, JS_FreeValue a.2.2 returnValue)
                else some (.NAPIOK, some (NAPIValue.handleValue (a.2.1.getD 0)), a.2.2)
        | _, _ => none

/-- A sample world: the scope `7` roots the function object `45` of the
class `functionClassId`, whose `FunctionInfo` `46` names the host callback
number 1 of this environment. -/
def funcWorld : World :=
  { freshWorld with
      handleScopeList := [⟨7, [⟨9, JSValue.object 45⟩], none⟩]
      functionInfos := [(46, { env := 1, data := 0, callback := 1 })]
      objects := [(45, { class_id := 57, opaquePtr := 46, props := [] })] }

/-- A host callback that does nothing and returns the address of the
static `undefinedValue` (what `napi_get_undefined` hands out). -/
def returnUndefined : NAPICallback := fun w _ => some (NAPIValue.undefinedValue, w)

/-- A host callback that throws the number 5 with `napi_throw` (`JS_Throw`)
and returns the address of the static `undefinedValue`. -/
def throwFive : NAPICallback := fun w _ => some (NAPIValue.undefinedValue, JS_Throw w (JSValue.int 5))

/-- The world `twoWeak` with no handle scope open. -/
def twoWeakNoScope : World :=
  { twoWeak with handleScopeList := [] }

/-- The world `refsWorld` with no handle scope open: the strong reference
`50` keeps the object `40`. -/
def strongNoScope : World :=
  { refsWorld with handleScopeList := [] }

/-- A host callback that does nothing and returns `nullptr`, as the three
callbacks of `test/callable.cpp` do. -/
def returnNull : NAPICallback := fun w _ => some (NAPIValue.NULL, w)

/-- What `napi_get_cb_info` leaves in the caller's `NAPIValue` variables: an
address inside the callback info of the running call, or any other
`NAPIValue`. -/
inductive CallbackValue
  /-- a `NAPIValue` that does not point into the callback info -/
  | value (v : NAPIValue)
  /-- `&callbackInfo->argv[i]` -/
  | argv (i : Nat)
  /-- `&callbackInfo->thisArg` -/
  | thisArg
  deriving DecidableEq, Repr

/-- Reading `*((JSValue *)value)` for a value handed out during the call with
the callback info `callbackInfo`; `none` when it points at nothing live. -/
def loadCallbackValue (w : World) (callbackInfo : OpaqueNAPICallbackInfo) :
    CallbackValue → Option JSValue
  | .value v => load w v
  | .argv i => callbackInfo.argv.get? i
  | .thisArg => some callbackInfo.thisArg

/-- The loop `for (; i < stop; ++i) { argv[i] = f(i); }` with `n = stop - i`
rounds to go; `none` when a store falls outside the array. -/
def storeLoop (f : Nat → CallbackValue) :
    Nat → Nat → List CallbackValue → Option (List CallbackValue)
  | 0, _, argv => some argv
  | n + 1, i, argv =>
    if i < argv.length then storeLoop f n (i + 1) (argv.set i (f i)) else none

/-- `napi_get_cb_info`.  The out-parameters `argc`, `argv`, `thisArg` and
`data` are `none` for a `NULL` pointer and otherwise hold the previous
content; `argv` is the caller's whole array.  `callbackInfo->argc` is an
`int` that the engine never makes negative, so its conversion to `size_t`
keeps the value.  `none` when a store falls outside the caller's array. -/
def napi_get_cb_info (env : Ptr) (callbackInfo : Option OpaqueNAPICallbackInfo)
    (argc : Option Nat) (argv : Option (List CallbackValue)) (thisArg : Option CallbackValue)
    (data : Option Ptr) :
    Option (NAPIStatus × Option Nat × Option (List CallbackValue) × Option CallbackValue ×
      Option Ptr) :=
  if env = 0 then some (.NAPIInvalidArg, argc, argv, thisArg, data)
  else
    match callbackInfo with
    | none => some (.NAPIInvalidArg, argc, argv, thisArg, data)
    | some info =>
      let filled : Option (Option NAPIStatus × Option (List CallbackValue)) :=
        match argv with
        | none => some (none, none)
        | some a =>
          match argc with
          | none => some (some NAPIStatus.NAPIInvalidArg, some a)
          | some c =>
            let min := if c > info.argc then info.argc else c
            match storeLoop CallbackValue.argv min 0 a with
            | none => none
            | some a1 =>
              if min < c then
                (storeLoop (fun _ => CallbackValue.value NAPIValue.undefinedValue) (c - min) min
                  a1).map (fun a2 => (none, some a2))
              else some (none, some a1)
      match filled with
      | none => none
      | some (some status, a) => some (status, argc, a, thisArg, data)
      | some (none, a) =>
        some (.NAPIOK, argc.map (fun _ => info.argc), a,
          thisArg.map (fun _ => CallbackValue.thisArg), data.map (fun _ => info.data))

/-- The callback info of a call with the two arguments `"hello"` (string
`30`) and the number 5. -/
def twoArgs : OpaqueNAPICallbackInfo :=
  { newTarget := JSValue.undefined, thisArg := JSValue.undefined,
    argv := [JSValue.string 30, JSValue.int 5], data := 77, argc := 2 }

/-- `ConstructorInfo`. -/
structure ConstructorInfo where
  functionInfo : FunctionInfo
  classId : JSClassID
  deriving DecidableEq, Repr

/-- What `NAPIDefineClass` reads and writes next to the `World`: the static
`runtime`, the `ConstructorInfo`s, and two tables of the engine. -/
structure ClassTable where
  /-- `static JSRuntime *runtime`; `0` is `NULL` -/
  runtime : Ptr
  /-- the live `ConstructorInfo`s by address -/
  constructorInfos : List (Ptr × ConstructorInfo)
  /-- engine: the next class id that `JS_NewClassID` hands out -/
  js_class_id_alloc : JSClassID
  /-- engine: `ctx->class_proto` -/
  class_proto : List (JSClassID × JSValue)
  deriving DecidableEq, Repr

/-- The conversion of an `int` to `NAPIStatus` that the compiler inserts
where an `int` is returned as a status.  The one value that reaches such a
conversion is 0, the value of the first enumerator `NAPIOK`
(`napi/js_native_api.h` is not under src/; Node-API numbers its success
status 0 as well); any other number is outside the model. -/
def NAPIStatus.ofInt (n : Int) : Option NAPIStatus :=
  if n = 0 then some NAPIStatus.NAPIOK else none

/-- Modelled from the spec: `JS_NewClassID` of quickjs.h for a class id
variable that holds 0: the next free class id. -/
def JS_NewClassID (t : ClassTable) : JSClassID × ClassTable :=
  (t.js_class_id_alloc, { t with js_class_id_alloc := t.js_class_id_alloc + 1 })

/-- Modelled from the spec: `JS_NewClass` of quickjs.h: the class is entered
in `rt->class_array` and 0 is returned, or -1 on failure. -/
def JS_NewClass (w : World) (class_id : JSClassID) (class_def : JSClassDef) : Int × World :=
  match engineFails w with
  | (some e, w1) => (-1, JS_Throw w1 e)
  | (none, w1) => (0, { w1 with class_array := (class_id, class_def) :: w1.class_array })

/-- Modelled from the spec: `JS_CLASS_C_FUNCTION` of quickjs.c, the class of
the function objects made by `JS_NewCFunction2`. -/
def JS_CLASS_C_FUNCTION : JSClassID := 12

/-- Modelled from the spec: `JS_NewCFunction2` of quickjs.h: a fresh function
object with one hold, or `JS_EXCEPTION` and a pending exception. -/
def JS_NewCFunction2 (w : World) : JSValue × World :=
  match engineFails w with
  | (some e, w1) => (JSValue.exception, JS_Throw w1 e)
  | (none, w1) =>
    (JSValue.object w1.brk,
      { w1 with
          brk := w1.brk + 1
          objects :=
            (w1.brk, { class_id := JS_CLASS_C_FUNCTION, opaquePtr := 0, props := [] }) ::
              w1.objects })

/-- Modelled from the spec: `JS_SetConstructor` of quickjs.h: `func.prototype`
becomes `proto` and `proto.constructor` becomes `func`, each with one more
hold on the value stored. -/
def JS_SetConstructor (w : World) (func proto : JSValue) : World :=
  match func, proto with
  | .object f, .object p =>
    let w1 := JS_DupValue (JS_DupValue w proto) func
    { w1 with
        objects :=
          updateAt
            (updateAt w1.objects f
              (fun o => { o with props := ("prototype", proto) :: o.props.filter (fun e => e.1 ≠ "prototype") }))
            p
            (fun o => { o with props := ("constructor", func) :: o.props.filter (fun e => e.1 ≠ "constructor") }) }
  | _, _ => w

/-- Modelled from the spec: `JS_SetClassProto` of quickjs.h: the context
takes over the caller's hold on `obj` as the prototype of the class. -/
def JS_SetClassProto (t : ClassTable) (class_id : JSClassID) (obj : JSValue) : ClassTable :=
  { t with class_proto := (class_id, obj) :: t.class_proto.filter (fun e => e.1 ≠ class_id) }

/-- `NAPIDefineClass`; `length` is `none` for `NAPI_AUTO_LENGTH`, `utf8name`
is `none` for `NULL`, `constructor` numbers the host function (`0` is
`NULL`).  The `classId` member of the fresh `ConstructorInfo` is taken to
hold 0 when `JS_NewClassID` reads it.  `none` where an `int` outside the
model is returned as a status. -/
def NAPIDefineClass (w : World) (t : ClassTable) (utf8name : Option String)
    (length : Option Nat) (constructor : Nat) (data : Ptr) (result : Option NAPIValue) :
    Option (NAPIStatus × Option NAPIValue × World × ClassTable) :=
  match NAPI_PREAMBLE w with
  | (some status, w1) => some (status, result, w1, t)
  | (none, w1) =>
    if constructor = 0 then some (.NAPIInvalidArg, result, w1, t)
    else
      match result with
      | none => some (.NAPIInvalidArg, none, w1, t)
      | some old =>
        if length ≠ none then some (.NAPIInvalidArg, some old, w1, t)
        else if t.runtime = 0 then some (.NAPIInvalidArg, some old, w1, t)
        else
          let m := malloc w1
          if m.1 = 0 then some (.NAPIMemoryError, some old, m.2, t)
          else
            let c := JS_NewClassID t
            let constructorInfo : ConstructorInfo :=
              { functionInfo := { env := w.env, data := data, callback := constructor },
                classId := c.1 }
            let t1 : ClassTable :=
              { c.2 with constructorInfos := (m.1, constructorInfo) :: c.2.constructorInfos }
            let classDef : JSClassDef :=
              { class_name := utf8name.getD "", finalizer := JSClassFinalizer.NULL, call := false }
            let n := JS_NewClass m.2 constructorInfo.classId classDef
            let status := n.1
            if status = -1 then
              some (.NAPIPendingException, some old, n.2,
                { t1 with constructorInfos := eraseAt t1.constructorInfos m.1 })
            else
              let p := JS_NewObjectClass n.2 w.constructorClassId
              let prototype := p.1
              if JS_IsException prototype then
                some (.NAPIPendingException, some old, p.2,
                  { t1 with constructorInfos := eraseAt t1.constructorInfos m.1 })
              else
                let w4 := JS_SetOpaque p.2 prototype m.1
                let f := JS_NewCFunction2 w4
                let constructorValue := f.1
                if JS_IsException constructorValue then
                  some (.NAPIPendingException, some old, JS_FreeValue f.2 prototype, t1)
                else
                  let a := addValueToHandleScope f.2 constructorValue (some 0)
                  let addStatus := a.1
                  if addStatus ≠ NAPIStatus.NAPIOK then
                    (NAPIStatus.ofInt status).map (fun returned =>
                      (returned, some old,
                        JS_FreeValue (JS_FreeValue a.2.2 constructorValue) prototype, t1))
                  else
                    some (.NAPIOK, some (NAPIValue.handleValue (a.2.1.getD 0)),
                      JS_SetConstructor a.2.2 constructorValue prototype,
                      JS_SetClassProto t1 constructorInfo.classId prototype)

/-- The statics of an environment that is up: the runtime `3` is live, no
class has been defined, and the next free class id is 59. -/
def freshClasses : ClassTable :=
  { runtime := 3, constructorInfos := [], js_class_id_alloc := 59, class_proto := [] }

/-- `struct OpaqueNAPIEnv` as `NAPICreateEnv` and `NAPIFreeEnv` use it. -/
structure OpaqueNAPIEnv where
  context : Ptr
  handleScopeList : List OpaqueNAPIHandleScope
  referenceSymbolValue : JSValue
  deriving DecidableEq, Repr

/-- Modelled from the spec: a live `JSContext` of quickjs.c: the runtime it
belongs to and its `class_proto` table. -/
structure JSContext where
  rt : Ptr
  class_proto : List (JSClassID × JSValue)
  deriving DecidableEq, Repr

/-- The process as `NAPICreateEnv` and `NAPIFreeEnv` see it: the statics of
`js_native_api_qjs.c`, the environments, and the runtimes and contexts of
the engine. -/
structure Process where
  /-- `static JSRuntime *runtime`; `0` is `NULL` -/
  runtime : Ptr
  /-- `static uint8_t contextCount` -/
  contextCount : Nat
  /-- `static JSClassID constructorClassId` -/
  constructorClassId : JSClassID
  /-- `static JSClassID functionClassId` -/
  functionClassId : JSClassID
  /-- `static JSClassID externalClassId` -/
  externalClassId : JSClassID
  /-- the live `struct OpaqueNAPIEnv`s by address -/
  envs : List (Ptr × OpaqueNAPIEnv)
  /-- engine: the live runtimes by address, each with its `class_array` -/
  runtimes : List (Ptr × List (JSClassID × JSClassDef))
  /-- engine: the live contexts by address -/
  contexts : List (Ptr × JSContext)
  /-- engine: the next class id that `JS_NewClassID` hands out -/
  js_class_id_alloc : JSClassID
  /-- every engine-level duplicate and release so far, oldest first -/
  log : List JSEvent
  /-- the next fresh address -/
  brk : Ptr
  /-- the outcome of the next calls of `malloc`: `false` is a failure; past
  the end of the list every call succeeds -/
  mallocPlan : List Bool
  /-- the outcome of the next fallible engine calls: `false` is a failure;
  past the end of the list every call succeeds -/
  enginePlan : List Bool
  deriving DecidableEq, Repr

/-- `malloc` in a `Process`: `0` on failure, a fresh address otherwise. -/
def Process.malloc (p : Process) : Ptr × Process :=
  match p.mallocPlan with
  | [] => (p.brk, { p with brk := p.brk + 1 })
  | true :: rest => (p.brk, { p with brk := p.brk + 1, mallocPlan := rest })
  | false :: rest => (0, { p with mallocPlan := rest })

/-- Modelled from the spec: whether the next fallible engine call of the
process succeeds. -/
def Process.engineSucceeds (p : Process) : Bool × Process :=
  match p.enginePlan with
  | [] => (true, p)
  | r :: rest => (r, { p with enginePlan := rest })

/-- Modelled from the spec: `JS_NewRuntime` of quickjs.h: a fresh runtime
with no class of the adapter, or `NULL`. -/
def Process.JS_NewRuntime (p : Process) : Ptr × Process :=
  match p.engineSucceeds with
  | (false, p1) => (0, p1)
  | (true, p1) => (p1.brk, { p1 with brk := p1.brk + 1, runtimes := (p1.brk, []) :: p1.runtimes })

/-- Modelled from the spec: `JS_FreeRuntime` of quickjs.h: the runtime is no
longer live.  The contexts that were created in it stay in the table of
contexts, with a runtime that is gone. -/
def Process.JS_FreeRuntime (p : Process) (rt : Ptr) : Process :=
  { p with runtimes := eraseAt p.runtimes rt }

/-- Modelled from the spec: `JS_NewClassID` of quickjs.h on a class id
variable that holds `class_id`: a variable that holds 0 gets the next free
id, any other keeps its id. -/
def Process.JS_NewClassID (p : Process) (class_id : JSClassID) : JSClassID × Process :=
  if class_id = 0 then (p.js_class_id_alloc, { p with js_class_id_alloc := p.js_class_id_alloc + 1 })
  else (class_id, p)

/-- Modelled from the spec: `JS_NewClass` of quickjs.h in a `Process`: the
class is entered in the `class_array` of the runtime and 0 is returned, or
-1 on failure. -/
def Process.JS_NewClass (p : Process) (rt : Ptr) (class_id : JSClassID) (class_def : JSClassDef) :
    Int × Process :=
  match p.engineSucceeds with
  | (false, p1) => (-1, p1)
  | (true, p1) =>
    (0, { p1 with runtimes := updateAt p1.runtimes rt (fun a => (class_id, class_def) :: a) })

/-- Modelled from the spec: `JS_NewContext` of quickjs.h: a fresh context of
the runtime, or `NULL`. -/
def Process.JS_NewContext (p : Process) (rt : Ptr) : Ptr × Process :=
  match p.engineSucceeds with
  | (false, p1) => (0, p1)
  | (true, p1) =>
    (p1.brk,
      { p1 with brk := p1.brk + 1, contexts := (p1.brk, { rt := rt, class_proto := [] }) :: p1.contexts })

/-- Modelled from the spec: `JS_FreeContext` of quickjs.h: the context is no
longer live. -/
def Process.JS_FreeContext (p : Process) (ctx : Ptr) : Process :=
  { p with contexts := eraseAt p.contexts ctx }

/-- Modelled from the spec: `JS_NewObject` of quickjs.h: a fresh object with
one hold, or `JS_EXCEPTION`. -/
def Process.JS_NewObject (p : Process) : JSValue × Process :=
  match p.engineSucceeds with
  | (false, p1) => (JSValue.exception, p1)
  | (true, p1) => (JSValue.object p1.brk, { p1 with brk := p1.brk + 1 })

/-- Modelled from the spec: `JS_Eval` of quickjs.h on the script
`(function () { return Symbol("reference") })();`: a fresh symbol with one
hold, or `JS_EXCEPTION`. -/
def Process.JS_Eval (p : Process) : JSValue × Process :=
  match p.engineSucceeds with
  | (false, p1) => (JSValue.exception, p1)
  | (true, p1) => (JSValue.symbol p1.brk, { p1 with brk := p1.brk + 1 })

/-- Modelled from the spec: `JS_SetClassProto` of quickjs.h in a `Process`:
the context takes over the caller's hold on `obj` as the prototype of the
class. -/
def Process.JS_SetClassProto (p : Process) (ctx : Ptr) (class_id : JSClassID) (obj : JSValue) :
    Process :=
  { p with
      contexts :=
        updateAt p.contexts ctx (fun c => { c with class_proto := (class_id, obj) :: c.class_proto }) }

/-- The three `JS_NewClass` calls of `NAPICreateEnv` for a runtime that was
just created, each followed by its failure branch: `JS_FreeRuntime(runtime);
free(*env); runtime = NULL; return NAPIMemoryError;`.  The answer is the
status to return, if any. -/
def NAPICreateEnv.newClasses (p : Process) : Option NAPIStatus × Process :=
  let c1 := p.JS_NewClassID p.constructorClassId
  let c2 := c1.2.JS_NewClassID c1.2.functionClassId
  let c3 := c2.2.JS_NewClassID c2.2.externalClassId
  let p3 : Process :=
    { c3.2 with constructorClassId := c1.1, functionClassId := c2.1, externalClassId := c3.1 }
  let n1 := p3.JS_NewClass p3.runtime p3.externalClassId
    { class_name := "External", finalizer := JSClassFinalizer.externalFinalizer, call := false }
  if n1.1 = -1 then
    (some NAPIStatus.NAPIMemoryError, { n1.2.JS_FreeRuntime n1.2.runtime with runtime := 0 })
  else
    let n2 := n1.2.JS_NewClass n1.2.runtime n1.2.functionClassId
      { class_name := "ExternalFunction", finalizer := JSClassFinalizer.functionFinalizer,
        call := false }
    if n2.1 = -1 then
      (some NAPIStatus.NAPIMemoryError, { n2.2.JS_FreeRuntime n2.2.runtime with runtime := 0 })
    else
      let n3 := n2.2.JS_NewClass n2.2.runtime n2.2.constructorClassId
        { class_name := "ExternalConstructor", finalizer := JSClassFinalizer.functionFinalizer,
          call := false }
      if n3.1 = -1 then
        (some NAPIStatus.NAPIMemoryError, { n3.2.JS_FreeRuntime n3.2.runtime with runtime := 0 })
      else (none, n3.2)

/-- `NAPICreateEnv`.  `env` is `none` for a `NULL` pointer and otherwise holds
what `*env` held before; the second component of the answer is what `*env`
holds afterwards (on a failure after `malloc`, the address that was freed). -/
def NAPICreateEnv (p : Process) (env : Option Ptr) : NAPIStatus × Option Ptr × Process :=
  match env with
  | none => (.NAPIInvalidArg, none, p)
  | some old =>
    if (p.runtime ≠ 0 ∧ p.contextCount = 0) ∨ (p.runtime = 0 ∧ p.contextCount ≠ 0) then
      (.NAPIGenericFailure, some old, p)
    else
      let m := p.malloc
      if m.1 = 0 then (.NAPIMemoryError, some 0, m.2)
      else
        let created : Option NAPIStatus × Process :=
          if m.2.runtime = 0 then
            let r := m.2.JS_NewRuntime
            if r.1 = 0 then (some NAPIStatus.NAPIMemoryError, r.2)
            else NAPICreateEnv.newClasses { r.2 with runtime := r.1 }
          else (none, m.2)
        match created with
        | (some status, p1) => (status, some m.1, p1)
        | (none, p1) =>
          let c := p1.JS_NewContext p1.runtime
          let context := c.1
          if context = 0 then
            (.NAPIMemoryError, some m.1, { c.2.JS_FreeRuntime c.2.runtime with runtime := 0 })
          else
            let o1 := c.2.JS_NewObject
            if JS_IsException o1.1 then
              let f := o1.2.JS_FreeContext context
              (.NAPIGenericFailure, some m.1, { f.JS_FreeRuntime f.runtime with runtime := 0 })
            else
              let s := o1.2.JS_SetClassProto context o1.2.externalClassId o1.1
              let e := s.JS_Eval
              let referenceSymbolValue := e.1
              if JS_IsException referenceSymbolValue then
                let f := e.2.JS_FreeContext context
                (.NAPIGenericFailure, some m.1, { f.JS_FreeRuntime f.runtime with runtime := 0 })
              else
                let o2 := e.2.JS_NewObject
                if JS_IsException o2.1 then
                  let f := o2.2.JS_FreeContext context
                  (.NAPIGenericFailure, some m.1, { f.JS_FreeRuntime f.runtime with runtime := 0 })
                else
                  let s2 := o2.2.JS_SetClassProto context o2.2.constructorClassId o2.1
                  (.NAPIOK, some m.1,
                    { s2 with
                        contextCount := (s2.contextCount + 1) % 256
                        envs :=
                          (m.1,
                            { context := context, handleScopeList := [],
                              referenceSymbolValue := referenceSymbolValue }) :: s2.envs })

/-- Modelled from the spec: `JS_FreeValue` of quickjs.h in a `Process`: one
engine-level hold on `v` is released; nothing happens for a value that is
not reference counted. -/
def Process.JS_FreeValue (p : Process) (v : JSValue) : Process :=
  if JS_VALUE_HAS_REF_COUNT v then { p with log := p.log ++ [JSEvent.free v] } else p

/-- `napi_close_handle_scope(env, scope)` on the environment `e` of a
`Process`: `NAPIInvalidArg` for a `NULL` scope or context,
`NAPIHandleScopeMismatch` unless the scope is the topmost one; else every
handle of the scope has its value released and the scope is popped. -/
def Process.napi_close_handle_scope (p : Process) (e : OpaqueNAPIEnv) (scope : NAPIHandleScope) :
    NAPIStatus × OpaqueNAPIEnv × Process :=
  if scope = 0 then (.NAPIInvalidArg, e, p)
  else if e.context = 0 then (.NAPIInvalidArg, e, p)
  else
    match e.handleScopeList with
    | [] => (.NAPIHandleScopeMismatch, e, p)
    | top :: rest =>
      if top.addr ≠ scope then (.NAPIHandleScopeMismatch, e, p)
      else
        (.NAPIOK, { e with handleScopeList := rest },
          top.handleList.foldl (fun q handle => q.JS_FreeValue handle.value) p)

/-- `NAPIFreeEnv`; `none` when `env` is not a live environment or its
context is not a live context. -/
def NAPIFreeEnv (p : Process) (env : Ptr) : Option (NAPIStatus × Process) :=
  if env = 0 then some (.NAPIInvalidArg, p)
  else
    match p.envs.lookup env with
    | none => none
    | some e =>
      let closed : OpaqueNAPIEnv × Process :=
        (e.handleScopeList.map (fun s => s.addr)).foldl
          (fun acc handleScope => (acc.2.napi_close_handle_scope acc.1 handleScope).2) (e, p)
      match p.contexts.lookup e.context with
      | none => none
      | some _ =>
        let p1 := closed.2.JS_FreeValue e.referenceSymbolValue
        let p2 := p1.JS_FreeContext e.context
        let p3 : Process := { p2 with contextCount := (p2.contextCount + 255) % 256 }
        let p4 : Process :=
          if p3.contextCount = 0 ∧ p3.runtime ≠ 0 then
            { p3.JS_FreeRuntime p3.runtime with runtime := 0 }
          else p3
        some (.NAPIOK, { p4 with envs := eraseAt p4.envs env })

/-- The process before the first `NAPICreateEnv`: no runtime, no context, the
three class id statics still 0. -/
def freshProcess : Process :=
  { runtime := 0, contextCount := 0, constructorClassId := 0, functionClassId := 0,
    externalClassId := 0, envs := [], runtimes := [], contexts := [], js_class_id_alloc := 56,
    log := [], brk := 100, mallocPlan := [], enginePlan := [] }

/-- The shared runtime exists: the static `runtime` is not `NULL` and names
a live runtime of the engine. -/
def runtimeExists (p : Process) : Prop :=
  p.runtime ≠ 0 ∧ (p.runtimes.lookup p.runtime).isSome = true

/-- The invariant of the spec: the shared runtime exists iff the count of
live contexts is above zero. -/
def RuntimeInvariant (p : Process) : Prop :=
  runtimeExists p ↔ 0 < p.contextCount
/-- The process after one successful `NAPICreateEnv` (environment `100`,
runtime `101`, context `102`), with the engine about to fail its next
fallible call. -/
def oneEnvThenFailure : Process :=
  { (NAPICreateEnv freshProcess (some 0)).2.2 with enginePlan := [false] }

/-- Modelled from the spec: `JS_ToCStringLen` of quickjs.h for a live string:
the bytes of its UTF-8 form (`length` is their number), or `NULL` (here
`none`, with `length` 0) and a pending exception.  The C string is not a
cell of the model.  `none` when the value is not a live string. -/
def JS_ToCStringLen (w : World) (val : JSValue) : Option (Option (List Nat) × World) :=
  match val with
  | .string p =>
    match w.strings.lookup p with
    | none => none
    | some text =>
      match engineFails w with
      | (some e, w1) => some (none, JS_Throw w1 e)
      | (none, w1) =>
        some (some ((text.data.flatMap String.utf8EncodeChar).map (fun b => b.toNat)), w1)
  | _ => none

/-- Modelled from the spec: `JS_FreeCString` of quickjs.h: the C string is
given back; it is not a cell of the model, so the world is as before. -/
def JS_FreeCString (w : World) (_cString : List Nat) : World := w

/-- `getUTF8CharacterBytesLength`; `bytesToWrite` is `none` for a `NULL`
pointer and otherwise holds the previous content. -/
def getUTF8CharacterBytesLength (codePoint : Nat) (bytesToWrite : Option Nat) :
    Bool × Option Nat :=
  match bytesToWrite with
  | none => (false, none)
  | some old =>
    if codePoint >>> 7 = 0 then (true, some 1)
    else if codePoint >>> 5 = 6 then (true, some 2)
    else if codePoint >>> 4 = 0xe then (true, some 3)
    else if codePoint >>> 3 = 0x1e then (true, some 4)
    else if codePoint >>> 2 = 0x3e then (true, some 5)
    else if codePoint >>> 1 = 0x7e then (true, some 6)
    else (false, some old)

/-- `memmove(buf, src, n)` on a buffer given by its bytes: `none` when the
store falls outside the buffer or the read outside `src`. -/
def memmove (buf src : List Nat) (n : Nat) : Option (List Nat) :=
  if n ≤ buf.length ∧ n ≤ src.length then some (src.take n ++ buf.drop n) else none

/-- `buf[i] = c`; `none` when `i` is outside the buffer. -/
def storeByte (buf : List Nat) (i c : Nat) : Option (List Nat) :=
  if i < buf.length then some (buf.set i c) else none

/-- The head of the `while` loop of `napi_get_value_string_utf8`, started
with `index`: as long as `cString[index]` is a continuation byte
(`codePoint >> 6 == 2`) and `index != 0`, `index` is decremented.  The
answer is the index at which the loop goes on to its exit; `none` when a
read falls outside the C string. -/
def scanBack (cString : List Nat) : Nat → Option Nat
  | 0 => if 0 < cString.length then some 0 else none
  | index + 1 =>
    match cString.get? (index + 1) with
    | none => none
    | some c => if (c % 256) >>> 6 = 2 then scanBack cString index else some (index + 1)

/-- `napi_get_value_string_utf8`.  `buf` is `none` for `NULL` and otherwise
the bytes of the caller's buffer, `result` is `none` for `NULL` and otherwise
the previous content of `*result`.  The sizes are `size_t`; no sum or
difference below leaves the range of a buffer that exists, so they are
computed in the natural numbers.  `none` when the C code reads or writes
outside the string or the buffer, or through a value that is not live. -/
def napi_get_value_string_utf8 (w : World) (value : NAPIValue) (buf : Option (List Nat))
    (bufSize : Nat) (result : Option Nat) :
    Option (NAPIStatus × Option (List Nat) × Option Nat × World) :=
  match NAPI_PREAMBLE w with
  | (some status, w1) => some (status, buf, result, w1)
  | (none, w1) =>
    if value = NAPIValue.NULL then some (.NAPIInvalidArg, buf, result, w1)
    else
      match load w1 value with
      | none => none
      | some v =>
        if !JS_IsString v then some (.NAPIStringExpected, buf, result, w1)
        else if buf.isSome ∧ bufSize = 0 then some (.NAPIOK, buf, result.map (fun _ => 0), w1)
        else if bufSize = 1 ∧ buf.isSome then
          (storeByte (buf.getD []) 0 0).map (fun b =>
            (.NAPIOK, some b, result.map (fun _ => 0), w1))
        else
          match JS_ToCStringLen w1 v with
          | none => none
          | some (none, w2) => some (.NAPIPendingException, buf, result, w2)
          | some (some cString, w2) =>
            let length := cString.length
            match buf with
            | none =>
              let w3 := JS_FreeCString w2 cString
              match result with
              | none => some (.NAPIInvalidArg, none, none, w3)
              | some _ => some (.NAPIOK, none, some length, w3)
            | some b =>
              if length ≤ bufSize - 1 then
                match memmove b cString length with
                | none => none
                | some b1 =>
                  let w3 := JS_FreeCString w2 cString
                  (storeByte b1 length 0).map (fun b2 =>
                    (.NAPIOK, some b2, result.map (fun _ => length), w3))
              else
                match memmove b cString (bufSize - 1) with
                | none => none
                | some b1 =>
                  let initialIndex := bufSize - 2
                  match scanBack cString initialIndex with
                  | none => none
                  | some index =>
                    let codePoint := (cString.getD index 0) % 256
                    let w3 := JS_FreeCString w2 cString
                    if codePoint >>> 6 = 2 then some (.NAPIGenericFailure, some b1, result, w3)
                    else if codePoint >>> 7 = 0 ∨ codePoint >>> 6 = 3 then
                      match getUTF8CharacterBytesLength codePoint (some 0) with
                      | (false, _) => some (.NAPIGenericFailure, some b1, result, w3)
                      | (true, written) =>
                        let bytesToWrite := written.getD 0
                        if bytesToWrite = 0 then some (.NAPIGenericFailure, some b1, result, w3)
                        else if index + bytesToWrite - 1 < initialIndex then
                          (storeByte b1 (index + bytesToWrite) 0).map (fun b2 =>
                            (.NAPIOK, some b2, result.map (fun _ => index + bytesToWrite), w3))
                        else if index + bytesToWrite - 1 > initialIndex then
                          (storeByte b1 index 0).map (fun b2 =>
                            (.NAPIOK, some b2, result.map (fun _ => index), w3))
                        else
                          (storeByte b1 (bufSize - 1) 0).map (fun b2 =>
                            (.NAPIOK, some b2, result.map (fun _ => bufSize - 1), w3))
                    else some (.NAPIGenericFailure, some b1, result, w3)

/-- The number of bytes of the UTF-8 character that starts with the byte
`b`: 1 for `0xxxxxxx`, 2 for `110xxxxx`, 3 for `1110xxxx`, 4 for
`11110xxx`, and 0 when `b` starts no character. -/
def utf8Length (b : Nat) : Nat :=
  if b < 128 then 1
  else if 192 ≤ b ∧ b < 224 then 2
  else if 224 ≤ b ∧ b < 240 then 3
  else if 240 ≤ b ∧ b < 248 then 4
  else 0

/-- A continuation byte `10xxxxxx`. -/
def isContinuation (b : Nat) : Prop := 128 ≤ b ∧ b < 192

/-- A byte sequence that is well-formed UTF-8 by its shape: a sequence of
characters, each one a first byte followed by exactly the continuation
bytes that the first byte announces.  Every sequence that the Unicode
standard calls well-formed has this shape. -/
inductive WellFormedUTF8 : List Nat → Prop
  | nil : WellFormedUTF8 []
  | cons (b : Nat) (t rest : List Nat) :
      utf8Length b = t.length + 1 → (∀ x ∈ t, isContinuation x) → WellFormedUTF8 rest →
        WellFormedUTF8 (b :: t ++ rest)

/-- A sample world: the scope `7` roots the string `30`, whose text is
`"héllo"` (6 bytes in UTF-8: `68 c3 a9 6c 6c 6f`). -/
def accentWorld : World :=
  { freshWorld with
      handleScopeList := [⟨7, [⟨9, JSValue.string 30⟩], none⟩]
      strings := [(30, "héllo")] }

/-! ## Theorems -/

theorem freeHandles_eq (hs : List Handle) (w : World) :
    freeHandles w hs = { w with log := w.log ++ releaseEvents hs } := by
  induction hs generalizing w with
  | nil => simp [freeHandles, releaseEvents]
  | cons h t ih =>
    by_cases hr : JS_VALUE_HAS_REF_COUNT h.value = true
    · simp [freeHandles, ih, JS_FreeValue, releaseEvents, hr]
    · simp [freeHandles, ih, JS_FreeValue, releaseEvents, hr]

theorem splitScopes_spec :
    ∀ (l : List OpaqueNAPIHandleScope) (scope : Ptr) (above : List OpaqueNAPIHandleScope)
      (s : OpaqueNAPIHandleScope) (below : List OpaqueNAPIHandleScope),
      splitScopes l scope = some (above, s, below) →
        l = above ++ s :: below ∧ s.addr = scope ∧ ∀ a ∈ above, a.addr ≠ scope := by
  intro l
  induction l with
  | nil => intro scope above s below h; simp [splitScopes] at h
  | cons x t ih =>
    intro scope above s below h
    unfold splitScopes at h
    by_cases hx : x.addr = scope
    · simp [hx] at h
      obtain ⟨h1, h2, h3⟩ := h
      subst h1 h2 h3
      simp [hx]
    · simp only [hx, if_false] at h
      cases hrec : splitScopes t scope with
      | none => simp [hrec] at h
      | some r =>
        obtain ⟨a, u, b⟩ := r
        simp only [hrec, Option.some.injEq, Prod.mk.injEq] at h
        obtain ⟨h1, h2, h3⟩ := h
        subst h1 h2 h3
        obtain ⟨e1, e2, e3⟩ := ih scope a u b hrec
        refine ⟨by simp [e1], e2, ?_⟩
        intro y hy
        rcases List.mem_cons.mp hy with hy | hy
        · subst hy; exact hx
        · exact e3 y hy

theorem splitScopes_append :
    ∀ (above : List OpaqueNAPIHandleScope) (s : OpaqueNAPIHandleScope)
      (below : List OpaqueNAPIHandleScope) (scope : Ptr),
      s.addr = scope → (∀ a ∈ above, a.addr ≠ scope) →
        splitScopes (above ++ s :: below) scope = some (above, s, below) := by
  intro above
  induction above with
  | nil => intro s below scope hs _; simp [splitScopes, hs]
  | cons x t ih =>
    intro s below scope hs ha
    have hx : x.addr ≠ scope := ha x (List.mem_cons_self _ _)
    have ht : ∀ a ∈ t, a.addr ≠ scope := fun a h => ha a (List.mem_cons_of_mem _ h)
    simp [splitScopes, hx, ih s below scope hs ht]

/-- C1: with `env`, its context and `scope` non-null, `napi_close_handle_scope`
returns `NAPIOK` exactly when `scope` is the topmost scope of the stack; for
every other `scope` it returns `NAPIHandleScopeMismatch` and the whole state
(the stack and every handle list in it) is unchanged. -/
theorem napi_close_handle_scope_iff_top (w : World) (scope : NAPIHandleScope)
    (hscope : scope ≠ 0) (hctx : w.context ≠ 0) :
    ((napi_close_handle_scope w scope).1 = NAPIStatus.NAPIOK ↔ currentScope w = some scope) ∧
    (currentScope w ≠ some scope →
      napi_close_handle_scope w scope = (NAPIStatus.NAPIHandleScopeMismatch, w)) := by
  unfold napi_close_handle_scope currentScope
  cases hl : w.handleScopeList with
  | nil => simp [hscope, hctx]
  | cons top rest =>
    by_cases h : top.addr = scope
    · simp [hscope, hctx, h]
    · simp [hscope, hctx, h]

theorem napi_close_handle_scope_iff_top_witness :
    ((napi_close_handle_scope twoScopes 5).1 = NAPIStatus.NAPIOK ↔
        currentScope twoScopes = some 5) ∧
      (currentScope twoScopes ≠ some 5 →
        napi_close_handle_scope twoScopes 5 = (NAPIStatus.NAPIHandleScopeMismatch, twoScopes)) :=
  napi_close_handle_scope_iff_top twoScopes 5 (by decide) (by decide)

theorem count_releaseEvents_free (l : List Handle) (v : JSValue)
    (hv : JS_VALUE_HAS_REF_COUNT v = true) :
    List.count (JSEvent.free v) (releaseEvents l) = (l.map (fun h => h.value)).count v := by
  induction l with
  | nil => simp [releaseEvents]
  | cons h t ih =>
    unfold releaseEvents at ih ⊢
    by_cases hr : JS_VALUE_HAS_REF_COUNT h.value = true
    · by_cases he : h.value = v
      · subst he
        simp [List.filter_cons, hv, ih]
      · have hne : JSEvent.free h.value ≠ JSEvent.free v := fun e => he (by injection e)
        simp [List.filter_cons, hr, List.count_cons, ih, he, hne]
    · have he : h.value ≠ v := fun e => hr (e ▸ hv)
      simp [List.filter_cons, hr, List.count_cons, ih, he]

theorem count_releaseEvents_dup (l : List Handle) (v : JSValue) :
    List.count (JSEvent.dup v) (releaseEvents l) = 0 := by
  apply List.count_eq_zero_of_not_mem
  intro hmem
  unfold releaseEvents at hmem
  obtain ⟨h, _, e⟩ := List.mem_map.mp hmem
  cases e

theorem count_releaseEvents_absent (l : List Handle) (v : JSValue)
    (hv : ∀ h ∈ l, h.value ≠ v) : List.count (JSEvent.free v) (releaseEvents l) = 0 := by
  apply List.count_eq_zero_of_not_mem
  intro hmem
  unfold releaseEvents at hmem
  obtain ⟨h, hh, e⟩ := List.mem_map.mp hmem
  injection e with e
  exact hv h (List.mem_filter.mp hh).1 e

/-- C2: when the topmost scope `top` holds the handles `h1..hn`, closing it
succeeds; the engine-level releases it performs are exactly one
`JS_FreeValue` per handle of `top`, on that handle's value and in list order
(`releaseEvents`: the release of a value that is not reference counted does
nothing); no duplicate is performed; and the stack afterwards is the stack
without `top`, every other scope and its handles untouched.  So a reference
counted value receives as many releases as `top` has handles holding it, and
a value held by no handle of `top` (rooted in other scopes only) receives
none. -/
theorem napi_close_handle_scope_releases (w : World) (top : OpaqueNAPIHandleScope)
    (rest : List OpaqueNAPIHandleScope) (hctx : w.context ≠ 0) (htop : top.addr ≠ 0)
    (hstack : w.handleScopeList = top :: rest) :
    napi_close_handle_scope w top.addr =
        (NAPIStatus.NAPIOK,
          { w with
              log := w.log ++ releaseEvents top.handleList
              handleScopeList := rest }) ∧
    (∀ v, JS_VALUE_HAS_REF_COUNT v = true →
      releases (napi_close_handle_scope w top.addr).2.log v =
        releases w.log v + (top.handleList.map (fun h => h.value)).count v) ∧
    (∀ v, (∀ h ∈ top.handleList, h.value ≠ v) →
        releases (napi_close_handle_scope w top.addr).2.log v = releases w.log v) ∧
    (∀ v, duplicates (napi_close_handle_scope w top.addr).2.log v = duplicates w.log v) := by
  have hrun : napi_close_handle_scope w top.addr =
      (NAPIStatus.NAPIOK,
        { w with
            log := w.log ++ releaseEvents top.handleList
            handleScopeList := rest }) := by
    simp [napi_close_handle_scope, hctx, htop, hstack, freeHandles_eq]
  refine ⟨hrun, ?_, ?_, ?_⟩
  · intro v hv
    simp [hrun, releases, List.count_append, count_releaseEvents_free _ _ hv]
  · intro v hv
    simp [hrun, releases, List.count_append, count_releaseEvents_absent _ _ hv]
  · intro v
    simp [hrun, duplicates, List.count_append, count_releaseEvents_dup]

theorem napi_close_handle_scope_releases_witness :
    releases (napi_close_handle_scope twoScopes 7).2.log (JSValue.object 40) = 1 ∧
    releases (napi_close_handle_scope twoScopes 7).2.log (JSValue.object 41) = 0 ∧
    (napi_close_handle_scope twoScopes 7).2.handleScopeList = [⟨5, [⟨8, JSValue.object 41⟩], none⟩] := by
  have h := napi_close_handle_scope_releases twoScopes ⟨7, [⟨9, JSValue.object 40⟩], none⟩
    [⟨5, [⟨8, JSValue.object 41⟩], none⟩] (by decide) (by decide) rfl
  refine ⟨?_, ?_, ?_⟩
  · rw [h.2.1 (JSValue.object 40) rfl]; decide
  · rw [h.2.1 (JSValue.object 41) rfl]; decide
  · rw [h.1]

/-- C3: on the stack "escapable scope 7 (handle 9 roots object 40) over scope
5", `napi_escape_handle` succeeds and roots object 40 in scope 5 through the
new handle 100, but handle 9 is still linked in scope 7; closing scope 7
then releases object 40, although scope 5 still roots it. -/
theorem napi_escape_handle_leaves_handle_linked :
    napi_escape_handle escapableOverPlain 7 (NAPIValue.handleValue 9)
        (some (NAPIValue.handleValue 9)) =
      some (NAPIStatus.NAPIOK, some (NAPIValue.handleValue 100),
        { escapableOverPlain with
            brk := 101
            handleScopeList :=
              [⟨7, [⟨9, JSValue.object 40⟩], some true⟩, ⟨5, [⟨100, JSValue.object 40⟩], none⟩] }) ∧
    napi_close_escapable_handle_scope
        { escapableOverPlain with
            brk := 101
            handleScopeList :=
              [⟨7, [⟨9, JSValue.object 40⟩], some true⟩, ⟨5, [⟨100, JSValue.object 40⟩], none⟩] } 7 =
      (NAPIStatus.NAPIOK,
        { escapableOverPlain with
            brk := 101
            log := [JSEvent.free (JSValue.object 40)]
            handleScopeList := [⟨5, [⟨100, JSValue.object 40⟩], none⟩] }) := by
  constructor <;> rfl

/-- C4: the end-to-end sequence on a fresh environment with `V1` the object
40 and `V2` the object 41: all seven calls return `NAPIOK`, `V1` is released
once, and `V2` is released twice (once by the close of B, once by the close
of A) without any duplicate in between. -/
theorem endToEnd_releases_escaped_value_twice :
    (endToEnd freshWorld (JSValue.object 40) (JSValue.object 41)).map (fun r => r.1) =
      some (List.replicate 7 NAPIStatus.NAPIOK) ∧
    (endToEnd freshWorld (JSValue.object 40) (JSValue.object 41)).map (fun r => r.2.log) =
      some [JSEvent.free (JSValue.object 41), JSEvent.free (JSValue.object 41),
        JSEvent.free (JSValue.object 40)] ∧
    (endToEnd freshWorld (JSValue.object 40) (JSValue.object 41)).map
        (fun r => (releases r.2.log (JSValue.object 40), releases r.2.log (JSValue.object 41),
          duplicates r.2.log (JSValue.object 41))) = some (1, 2, 0) := by
  refine ⟨?_, ?_, ?_⟩ <;> rfl

/-- C5: for a live escapable scope and non-null `escapee` and `result`,
`napi_escape_handle` returns `NAPIEscapeCalledTwice` when the scope's
`escapeCalled` flag is set, and otherwise `NAPIHandleScopeMismatch` when no
scope lies below it; in both cases the whole state (stack, handle lists,
flag) and `*result` are unchanged.  After a successful escape every further
call on the same scope returns `NAPIEscapeCalledTwice`. -/
theorem napi_escape_handle_failures (w : World) (scope : NAPIEscapableHandleScope)
    (escapee old : NAPIValue) (above below : List OpaqueNAPIHandleScope)
    (s : OpaqueNAPIHandleScope) (hscope : scope ≠ 0) (hescapee : escapee ≠ NAPIValue.NULL)
    (hlive : splitScopes w.handleScopeList scope = some (above, s, below)) :
    (s.escapeCalled = some true →
      napi_escape_handle w scope escapee (some old) =
        some (NAPIStatus.NAPIEscapeCalledTwice, some old, w)) ∧
    (s.escapeCalled = some false → below = [] →
      napi_escape_handle w scope escapee (some old) =
        some (NAPIStatus.NAPIHandleScopeMismatch, some old, w)) ∧
    (∀ r w1, napi_escape_handle w scope escapee (some old) = some (NAPIStatus.NAPIOK, r, w1) →
      ∀ escapee1 old1, escapee1 ≠ NAPIValue.NULL →
        napi_escape_handle w1 scope escapee1 (some old1) =
          some (NAPIStatus.NAPIEscapeCalledTwice, some old1, w1)) := by
  obtain ⟨hl, haddr, habove⟩ := splitScopes_spec _ _ _ _ _ hlive
  refine ⟨?_, ?_, ?_⟩
  · intro hflag
    simp [napi_escape_handle, hscope, hescapee, hlive, hflag]
  · intro hflag hbelow
    subst hbelow
    simp [napi_escape_handle, hscope, hescapee, hlive, hflag]
  · intro r w1 hrun escapee1 old1 hescapee1
    unfold napi_escape_handle at hrun
    simp only [hscope, hescapee, if_false, hlive] at hrun
    cases hflag : s.escapeCalled with
    | none => simp [hflag] at hrun
    | some b =>
      cases b with
      | true => simp [hflag] at hrun
      | false =>
        simp only [hflag] at hrun
        cases below with
        | nil => simp at hrun
        | cons handleScope rest =>
          simp only at hrun
          by_cases hold : old = NAPIValue.NULL
          · simp [hold] at hrun
          · simp only [hold, if_false] at hrun
            by_cases hm : (malloc w).1 = 0
            · simp [hm] at hrun
            · simp only [hm, if_false] at hrun
              cases hv : load (malloc w).2 escapee with
              | none => simp [hv] at hrun
              | some v =>
                simp only [hv, Option.some.injEq, Prod.mk.injEq, true_and] at hrun
                obtain ⟨_, hw1⟩ := hrun
                subst hw1
                have hsplit := splitScopes_append above { s with escapeCalled := some true }
                  ({ handleScope with
                      handleList := { addr := (malloc w).1, value := v } :: handleScope.handleList } ::
                    rest) scope haddr habove
                simp [napi_escape_handle, hscope, hescapee1, hsplit]

theorem napi_escape_handle_failures_witness :
    napi_escape_handle escapableAlone 7 (NAPIValue.handleValue 9) (some NAPIValue.undefinedValue) =
      some (NAPIStatus.NAPIHandleScopeMismatch, some NAPIValue.undefinedValue, escapableAlone) :=
  (napi_escape_handle_failures escapableAlone 7 (NAPIValue.handleValue 9) NAPIValue.undefinedValue
    [] [] ⟨7, [⟨9, JSValue.object 40⟩], some false⟩ (by decide) (by decide) rfl).2.1 rfl rfl

/-- C6: `addValueToHandleScope` (with a non-null `result`) returns
`NAPIHandleScopeMismatch` and changes nothing when no scope is open; when a
scope is open and `malloc` succeeds it returns `NAPIOK`, links exactly one
new handle that stores `value` at the head of the topmost scope's list,
leaves every other scope as it was, and performs no engine-level duplicate
or release (the log is unchanged). -/
theorem addValueToHandleScope_spec (w : World) (value : JSValue) (old : Ptr) :
    (w.handleScopeList = [] →
      addValueToHandleScope w value (some old) =
        (NAPIStatus.NAPIHandleScopeMismatch, some old, w)) ∧
    (∀ top rest, w.handleScopeList = top :: rest → w.brk ≠ 0 →
      w.mallocPlan.head? ≠ some false →
      addValueToHandleScope w value (some old) =
        (NAPIStatus.NAPIOK, some w.brk,
          { w with
              brk := w.brk + 1
              mallocPlan := w.mallocPlan.tail
              handleScopeList :=
                { top with handleList := { addr := w.brk, value := value } :: top.handleList } ::
                  rest }) ∧
      (addValueToHandleScope w value (some old)).2.2.log = w.log) := by
  refine ⟨?_, ?_⟩
  · intro h
    simp [addValueToHandleScope, h]
  · intro top rest hstack hbrk hplan
    cases hp : w.mallocPlan with
    | nil => simp [addValueToHandleScope, hstack, malloc, hp, hbrk]
    | cons b t =>
      cases b with
      | false => simp [hp] at hplan
      | true => simp [addValueToHandleScope, hstack, malloc, hp, hbrk]

theorem addValueToHandleScope_spec_witness :
    addValueToHandleScope freshWorld (JSValue.object 40) (some 0) =
        (NAPIStatus.NAPIHandleScopeMismatch, some 0, freshWorld) ∧
    (addValueToHandleScope twoScopes (JSValue.object 42) (some 0) =
        (NAPIStatus.NAPIOK, some twoScopes.brk,
          { twoScopes with
              brk := twoScopes.brk + 1
              mallocPlan := twoScopes.mallocPlan.tail
              handleScopeList :=
                { (⟨7, [⟨9, JSValue.object 40⟩], none⟩ : OpaqueNAPIHandleScope) with
                    handleList :=
                      { addr := twoScopes.brk, value := JSValue.object 42 } ::
                        [⟨9, JSValue.object 40⟩] } ::
                  [⟨5, [⟨8, JSValue.object 41⟩], none⟩] }) ∧
      (addValueToHandleScope twoScopes (JSValue.object 42) (some 0)).2.2.log = twoScopes.log) :=
  ⟨(addValueToHandleScope_spec freshWorld (JSValue.object 40) 0).1 rfl,
   (addValueToHandleScope_spec twoScopes (JSValue.object 42) 0).2
     ⟨7, [⟨9, JSValue.object 40⟩], none⟩ [⟨5, [⟨8, JSValue.object 41⟩], none⟩] rfl
     (by decide) (by decide)⟩

/-- The finalizer of the External class asks `JS_GetOpaque` for the class
`functionClassId`; on an object of the class `externalClassId`, a different
class, the answer is `NULL`, so no callback runs and nothing is freed. -/
theorem externalFinalizer_of_external (w : World) (p : Ptr) (o : JSObject)
    (hids : w.functionClassId ≠ w.externalClassId) (hlive : w.objects.lookup p = some o)
    (hclass : o.class_id = w.externalClassId) :
    externalFinalizer w (JSValue.object p) = some w := by
  have h : ¬ o.class_id = w.functionClassId := fun e => hids (e.symm.trans hclass)
  simp [externalFinalizer, JS_GetOpaque, hlive, h]

/-- C7: in the world where scope 7 roots the object 40: after
`napi_create_reference(obj, 0)` (reference 100, registry 104, backing
external 106), the close of the scope, and the engine's collection of the
object and of the external (which runs `externalFinalizer`), the three
calls have returned `NAPIOK`, but the reference still stores the collected
object 40 and not `undefined`, its registry was never finalized, and
`napi_get_reference_value` yields `&ref->value` and not `NULL`. -/
theorem weakLifecycle_reference_not_tombstoned :
    (weakLifecycle objWorld (NAPIValue.handleValue 9) 7 40 106).map
        (fun r => (r.1, r.2.1, r.2.2.1, r.2.2.2.refs, r.2.2.2.referenceInfos, r.2.2.2.objects)) =
      some ([NAPIStatus.NAPIOK, NAPIStatus.NAPIOK, NAPIStatus.NAPIOK],
        some (NAPIValue.refValue 100), some 100,
        [(100, { value := JSValue.object 40, referenceCount := 0 })],
        [(104, { referenceList := [100] })], []) := by
  rfl

/-- C8: for a live reference `r` (and a non-null `result`),
`napi_get_reference_value` returns `NAPIOK`, leaves the whole state
unchanged, and yields `NULL` exactly when the count of `r` is 0 and its
stored value is `undefined`; in every other case it yields `&ref->value`,
which reads as the stored value of `r`. -/
theorem napi_get_reference_value_spec (w : World) (ref : NAPIRef) (r : OpaqueNAPIRef)
    (old : NAPIValue) (href : ref ≠ 0) (hlive : w.refs.lookup ref = some r) :
    ∃ v, napi_get_reference_value w ref (some old) = some (NAPIStatus.NAPIOK, some v, w) ∧
      (v = NAPIValue.NULL ↔ (r.referenceCount = 0 ∧ r.value = JSValue.undefined)) ∧
      (v ≠ NAPIValue.NULL → v = NAPIValue.refValue ref ∧ load w v = some r.value) := by
  have hu : JS_IsUndefined r.value = true ↔ r.value = JSValue.undefined := by
    cases r.value <;> simp [JS_IsUndefined]
  by_cases h : r.referenceCount = 0 ∧ JS_IsUndefined r.value = true
  · refine ⟨NAPIValue.NULL, ?_, ?_, ?_⟩
    · simp [napi_get_reference_value, href, hlive, h]
    · simp [h.1, hu.mp h.2]
    · simp
  · refine ⟨NAPIValue.refValue ref, ?_, ?_, ?_⟩
    · simp only [napi_get_reference_value, href, hlive, if_false]
      rw [if_neg h]
    · constructor
      · intro e; cases e
      · intro e; exact absurd ⟨e.1, hu.mpr e.2⟩ h
    · intro _
      simp [load, hlive]

theorem napi_get_reference_value_spec_witness :
    ∃ v, napi_get_reference_value refsWorld 51 (some NAPIValue.nullValue) =
        some (NAPIStatus.NAPIOK, some v, refsWorld) ∧
      (v = NAPIValue.NULL ↔
        ((0 : Nat) = 0 ∧ JSValue.undefined = JSValue.undefined)) ∧
      (v ≠ NAPIValue.NULL →
        v = NAPIValue.refValue 51 ∧ load refsWorld v = some JSValue.undefined) :=
  napi_get_reference_value_spec refsWorld 51 ⟨JSValue.undefined, 0⟩ NAPIValue.nullValue
    (by decide) rfl

/-- C9: on a live reference whose count is 0 (with `env->context` non-null),
`napi_reference_unref` returns `NAPIGenericFailure`; when moreover the stored
value is `undefined` (a tombstoned reference), `napi_reference_ref` returns
`NAPIGenericFailure` too.  In both cases the whole state is unchanged: the
count and the stored value of the reference, the registries, and the log of
engine-level duplicates and releases; `*result` is not written. -/
theorem napi_reference_unref_ref_failures (w : World) (ref : NAPIRef) (r : OpaqueNAPIRef)
    (result : Option Nat) (href : ref ≠ 0) (hctx : w.context ≠ 0)
    (hlive : w.refs.lookup ref = some r) (hcount : r.referenceCount = 0) :
    napi_reference_unref w ref result = some (NAPIStatus.NAPIGenericFailure, result, w) ∧
    (r.value = JSValue.undefined →
      napi_reference_ref w ref result = some (NAPIStatus.NAPIGenericFailure, result, w)) := by
  refine ⟨?_, ?_⟩
  · simp [napi_reference_unref, href, hctx, hlive, hcount]
  · intro hv
    simp [napi_reference_ref, href, hctx, hlive, hcount, hv, JS_IsUndefined]

theorem napi_reference_unref_ref_failures_witness :
    napi_reference_unref refsWorld 51 (some 7) =
        some (NAPIStatus.NAPIGenericFailure, some 7, refsWorld) ∧
    (JSValue.undefined = JSValue.undefined →
      napi_reference_ref refsWorld 51 (some 7) =
        some (NAPIStatus.NAPIGenericFailure, some 7, refsWorld)) :=
  napi_reference_unref_ref_failures refsWorld 51 ⟨JSValue.undefined, 0⟩ (some 7)
    (by decide) (by decide) rfl rfl

theorem world_exception_eta (w : World) (hexc : w.exception = JSValue.null) :
    { w with exception := JSValue.null } = w := by
  cases w; simp at hexc; subst hexc; rfl

theorem NAPI_PREAMBLE_ok (w : World) (hctx : w.context ≠ 0) (hexc : w.exception = JSValue.null) :
    NAPI_PREAMBLE w = (none, w) := by
  simp [NAPI_PREAMBLE, hctx, JS_GetException, hexc, JS_IsNull, world_exception_eta]

theorem napi_create_string_utf8_ok (w : World) (top : OpaqueNAPIHandleScope)
    (rest : List OpaqueNAPIHandleScope) (text : String) (old : NAPIValue)
    (hctx : w.context ≠ 0) (hexc : w.exception = JSValue.null) (hm : w.mallocPlan = [])
    (he : w.enginePlan = []) (hstack : w.handleScopeList = top :: rest) :
    napi_create_string_utf8 w (some text) none (some old) =
      some (NAPIStatus.NAPIOK, some (NAPIValue.handleValue (w.brk + 1)),
        { w with
            brk := w.brk + 2
            strings := (w.brk, text) :: w.strings
            handleScopeList :=
              { top with handleList := ⟨w.brk + 1, JSValue.string w.brk⟩ :: top.handleList } :: rest }) := by
  simp [napi_create_string_utf8, NAPI_PREAMBLE_ok w hctx hexc, JS_NewStringLen, engineFails, he,
    JS_IsException, addValueToHandleScope, hstack, malloc, hm]

theorem JS_ValueToAtom_ok (w : World) (sp : Ptr) (text : String)
    (he : w.enginePlan = []) (hs : w.strings.lookup sp = some text) :
    JS_ValueToAtom w (JSValue.string sp) = some (some text, w) := by
  simp [JS_ValueToAtom, hs, engineFails, he]

theorem napi_get_property_absent (w : World) (top : OpaqueNAPIHandleScope)
    (rest : List OpaqueNAPIHandleScope) (object key old : NAPIValue) (sp p : Ptr) (atom : String)
    (o : JSObject)
    (hctx : w.context ≠ 0) (hexc : w.exception = JSValue.null) (hm : w.mallocPlan = [])
    (he : w.enginePlan = []) (hstack : w.handleScopeList = top :: rest) (hbrk : w.brk ≠ 0)
    (hkey : load w key = some (JSValue.string sp)) (hs : w.strings.lookup sp = some atom)
    (hobject : load w object = some (JSValue.object p)) (ho : w.objects.lookup p = some o)
    (hprop : o.props.lookup atom = none) :
    napi_get_property w object key (some old) =
      some (NAPIStatus.NAPIOK, some (NAPIValue.handleValue w.brk),
        { w with
            brk := w.brk + 1
            handleScopeList :=
              { top with handleList := ⟨w.brk, JSValue.undefined⟩ :: top.handleList } :: rest }) := by
  have hobj : object ≠ NAPIValue.NULL := by rintro rfl; simp [load] at hobject
  have hk : key ≠ NAPIValue.NULL := by rintro rfl; simp [load] at hkey
  simp [napi_get_property, NAPI_PREAMBLE_ok w hctx hexc, hobj, hk, hkey, JS_ValueToAtom_ok w sp atom he hs,
    hobject, JS_GetProperty, ho, hprop, JS_IsException, addValueToHandleScope, hstack, malloc, hm, hbrk]

theorem napi_get_property_present (w : World) (top : OpaqueNAPIHandleScope)
    (rest : List OpaqueNAPIHandleScope) (object key old : NAPIValue) (sp p q : Ptr) (atom : String)
    (o : JSObject)
    (hctx : w.context ≠ 0) (hexc : w.exception = JSValue.null) (hm : w.mallocPlan = [])
    (he : w.enginePlan = []) (hstack : w.handleScopeList = top :: rest) (hbrk : w.brk ≠ 0)
    (hkey : load w key = some (JSValue.string sp)) (hs : w.strings.lookup sp = some atom)
    (hobject : load w object = some (JSValue.object p)) (ho : w.objects.lookup p = some o)
    (hprop : o.props.lookup atom = some (JSValue.object q)) :
    napi_get_property w object key (some old) =
      some (NAPIStatus.NAPIOK, some (NAPIValue.handleValue w.brk),
        { w with
            brk := w.brk + 1
            log := w.log ++ [JSEvent.dup (JSValue.object q)]
            handleScopeList :=
              { top with handleList := ⟨w.brk, JSValue.object q⟩ :: top.handleList } :: rest }) := by
  have hobj : object ≠ NAPIValue.NULL := by rintro rfl; simp [load] at hobject
  have hk : key ≠ NAPIValue.NULL := by rintro rfl; simp [load] at hkey
  simp [napi_get_property, NAPI_PREAMBLE_ok w hctx hexc, hobj, hk, hkey, JS_ValueToAtom_ok w sp atom he hs,
    hobject, JS_GetProperty, ho, hprop, JS_IsException, addValueToHandleScope, hstack, malloc, hm, hbrk,
    JS_DupValue, JS_VALUE_HAS_REF_COUNT]

theorem napi_typeof_undefined (w : World) (value : NAPIValue) (old : NAPIValueType)
    (hctx : w.context ≠ 0) (hv : load w value = some JSValue.undefined) :
    napi_typeof w value (some old) = some (NAPIStatus.NAPIOK, some NAPIValueType.NAPIUndefined, w) := by
  have hn : value ≠ NAPIValue.NULL := by rintro rfl; simp [load] at hv
  simp [napi_typeof, hn, hctx, hv, JS_IsUndefined]

theorem napi_typeof_external (w : World) (value : NAPIValue) (old : NAPIValueType) (q x : Ptr)
    (e : JSObject) (c : JSClassDef)
    (hctx : w.context ≠ 0) (hv : load w value = some (JSValue.object q))
    (hq : w.objects.lookup q = some e) (hclass : e.class_id = w.externalClassId)
    (hcall : w.class_array.lookup w.externalClassId = some c) (hc : c.call = false)
    (hx : e.opaquePtr = x) (hx0 : x ≠ 0) :
    napi_typeof w value (some old) = some (NAPIStatus.NAPIOK, some NAPIValueType.NAPIExternal, w) := by
  have hn : value ≠ NAPIValue.NULL := by rintro rfl; simp [load] at hv
  simp [napi_typeof, hn, hctx, hv, JS_IsUndefined, JS_IsNull, JS_IsNumber, JS_IsBool, JS_IsString,
    JS_IsFunction, hq, hclass, hcall, hc, JS_GetOpaque, hx, hx0]

theorem napi_get_value_external_ok (w : World) (value : NAPIValue) (old q x : Ptr)
    (e : JSObject) (info : ExternalInfo)
    (hv : load w value = some (JSValue.object q))
    (hq : w.objects.lookup q = some e) (hclass : e.class_id = w.externalClassId)
    (hx : e.opaquePtr = x) (hx0 : x ≠ 0) (hinfo : w.externalInfos.lookup x = some info) :
    napi_get_value_external w value (some old) = some (NAPIStatus.NAPIOK, some info.data, w) := by
  have hn : value ≠ NAPIValue.NULL := by rintro rfl; simp [load] at hv
  simp [napi_get_value_external, hn, hv, JS_GetOpaque, hq, hclass, hx, hx0, hinfo]

theorem updateAt_cons {κ α : Type} [DecidableEq κ] (k : κ) (x : α) (m : List (κ × α)) (p : κ)
    (f : α → α) :
    updateAt ((k, x) :: m) p f = (if k = p then (k, f x) else (k, x)) :: updateAt m p f := by
  simp [updateAt]

theorem updateAt_below {α : Type} (m : List (Nat × α)) (n k : Nat) (f : α → α)
    (h : below m n) (hk : n ≤ k) : updateAt m k f = m := by
  unfold updateAt
  conv_rhs => rw [← List.map_id m]
  apply List.map_congr_left
  intro e he
  have := h e he
  have hne : e.1 ≠ k := by omega
  simp [hne]

theorem lookup_below {α : Type} (m : List (Nat × α)) (n k : Nat)
    (h : below m n) (hk : n ≤ k) : m.lookup k = none := by
  induction m with
  | nil => rfl
  | cons e t ih =>
    have h1 := h e (List.mem_cons_self _ _)
    have h2 : below t n := fun x hx => h x (List.mem_cons_of_mem _ hx)
    obtain ⟨a, b⟩ := e
    have hne : (k == a) = false := by simp at h1 ⊢; omega
    simp [List.lookup, hne, ih h2]

theorem lookup_lt {α : Type} (m : List (Nat × α)) (n k : Nat) (x : α)
    (h : below m n) (hk : m.lookup k = some x) : k < n := by
  by_contra hlt
  rw [lookup_below m n k h (by omega)] at hk
  cases hk

theorem napi_create_external_ok (w : World) (top : OpaqueNAPIHandleScope)
    (rest : List OpaqueNAPIHandleScope) (data hint : Ptr) (cb : NAPIFinalize) (old : NAPIValue)
    (hctx : w.context ≠ 0) (hexc : w.exception = JSValue.null) (hm : w.mallocPlan = [])
    (he : w.enginePlan = []) (hstack : w.handleScopeList = top :: rest) (hbrk : w.brk ≠ 0)
    (hobjs : below w.objects w.brk) (hexts : below w.externalInfos w.brk) :
    napi_create_external w data cb hint (some old) =
      (NAPIStatus.NAPIOK, some (NAPIValue.handleValue (w.brk + 2)),
        { w with
            brk := w.brk + 3
            externalInfos :=
              (w.brk, { env := w.env, data := data, finalizeHint := hint, finalizeCallback := cb }) ::
                w.externalInfos
            objects :=
              (w.brk + 1, { class_id := w.externalClassId, opaquePtr := w.brk, props := [] }) ::
                w.objects
            handleScopeList :=
              { top with handleList := ⟨w.brk + 2, JSValue.object (w.brk + 1)⟩ :: top.handleList } ::
                rest }) := by
  have h1 := updateAt_below w.externalInfos w.brk w.brk
    (fun info => { info with finalizeCallback := cb }) hexts (le_refl _)
  have h2 := updateAt_below w.objects w.brk (w.brk + 1)
    (fun o => { o with opaquePtr := w.brk }) hobjs (Nat.le_succ _)
  simp [napi_create_external, NAPI_PREAMBLE_ok w hctx hexc, malloc, hm, hbrk, JS_NewObjectClass,
    engineFails, he, JS_IsException, JS_SetOpaque, addValueToHandleScope, hstack, updateAt_cons,
    h1, h2]

theorem napi_set_property_new (w : World) (object key value : NAPIValue) (sp p q : Ptr)
    (atom : String) (o : JSObject)
    (hctx : w.context ≠ 0) (hexc : w.exception = JSValue.null) (he : w.enginePlan = [])
    (hkey : load w key = some (JSValue.string sp)) (hs : w.strings.lookup sp = some atom)
    (hobject : load w object = some (JSValue.object p)) (ho : w.objects.lookup p = some o)
    (hvalue : load w value = some (JSValue.object q))
    (hprop : o.props.lookup atom = none) :
    napi_set_property w object key value =
      some (NAPIStatus.NAPIOK,
        { w with
            log := w.log ++ [JSEvent.dup (JSValue.object q)]
            objects := updateAt w.objects p
              (fun o => { o with props := o.props ++ [(atom, JSValue.object q)] }) }) := by
  have hobj : object ≠ NAPIValue.NULL := by rintro rfl; simp [load] at hobject
  have hk : key ≠ NAPIValue.NULL := by rintro rfl; simp [load] at hkey
  have hv : value ≠ NAPIValue.NULL := by rintro rfl; simp [load] at hvalue
  simp [napi_set_property, NAPI_PREAMBLE_ok w hctx hexc, hobj, hk, hv, hkey,
    JS_ValueToAtom_ok w sp atom he hs, hobject, hvalue, JS_SetProperty, JS_DupValue,
    JS_VALUE_HAS_REF_COUNT, ho, hprop, engineFails, he]

theorem napi_delete_property_present (w : World) (object key : NAPIValue) (sp p q : Ptr)
    (atom : String) (o : JSObject) (old : Bool)
    (hctx : w.context ≠ 0) (hexc : w.exception = JSValue.null) (he : w.enginePlan = [])
    (hkey : load w key = some (JSValue.string sp)) (hs : w.strings.lookup sp = some atom)
    (hobject : load w object = some (JSValue.object p)) (ho : w.objects.lookup p = some o)
    (hprop : o.props.lookup atom = some (JSValue.object q)) :
    napi_delete_property w object key (some old) =
      some (NAPIStatus.NAPIOK, some true,
        { w with
            log := w.log ++ [JSEvent.free (JSValue.object q)]
            objects := updateAt w.objects p
              (fun o => { o with props := o.props.filter (fun e => e.1 ≠ atom) }) }) := by
  have hobj : object ≠ NAPIValue.NULL := by rintro rfl; simp [load] at hobject
  have hk : key ≠ NAPIValue.NULL := by rintro rfl; simp [load] at hkey
  simp [napi_delete_property, NAPI_PREAMBLE_ok w hctx hexc, hobj, hk, hkey,
    JS_ValueToAtom_ok w sp atom he hs, hobject, JS_DeleteProperty, JS_FreeValue,
    JS_VALUE_HAS_REF_COUNT, ho, hprop]

theorem lookup_cons_eq {α : Type} (k : Nat) (x : α) (m : List (Nat × α)) :
    List.lookup k ((k, x) :: m) = some x := by
  simp [List.lookup]

theorem lookup_cons_ne {α : Type} (k a : Nat) (x : α) (m : List (Nat × α)) (h : k ≠ a) :
    List.lookup k ((a, x) :: m) = List.lookup k m := by
  have : (k == a) = false := by simpa using h
  simp [List.lookup, this]

theorem lookup_updateAt_ne {α : Type} (m : List (Nat × α)) (k p : Nat) (f : α → α) (h : p ≠ k) :
    (updateAt m k f).lookup p = m.lookup p := by
  induction m with
  | nil => rfl
  | cons e t ih =>
    obtain ⟨a, b⟩ := e
    by_cases ha : a = k
    · subst ha
      rw [updateAt_cons, if_pos rfl, lookup_cons_ne _ _ _ _ h, lookup_cons_ne _ _ _ _ h, ih]
    · rw [updateAt_cons, if_neg ha]
      by_cases hp : p = a
      · subst hp
        rw [lookup_cons_eq, lookup_cons_eq]
      · rw [lookup_cons_ne _ _ _ _ hp, lookup_cons_ne _ _ _ _ hp, ih]

theorem lookup_updateAt_self {α : Type} (m : List (Nat × α)) (k : Nat) (f : α → α) :
    (updateAt m k f).lookup k = (m.lookup k).map f := by
  induction m with
  | nil => rfl
  | cons e t ih =>
    obtain ⟨a, b⟩ := e
    by_cases ha : a = k
    · subst ha
      rw [updateAt_cons, if_pos rfl, lookup_cons_eq, lookup_cons_eq]
      rfl
    · rw [updateAt_cons, if_neg ha, lookup_cons_ne _ _ _ _ (Ne.symm ha),
        lookup_cons_ne _ _ _ _ (Ne.symm ha), ih]

theorem setWeak_new (w : World) (top : OpaqueNAPIHandleScope)
    (rest : List OpaqueNAPIHandleScope) (r ref : NAPIRef) (c : Nat) (p : Ptr) (o : JSObject)
    (hctx : w.context ≠ 0) (hexc : w.exception = JSValue.null) (hm : w.mallocPlan = [])
    (he : w.enginePlan = []) (hstack : w.handleScopeList = top :: rest)
    (href : ref ≠ 0)
    (hvalue : w.refs.lookup r = some ⟨JSValue.object p, c⟩)
    (ho : w.objects.lookup p = some o) (hprop : o.props.lookup referenceString = none)
    (hobjs : below w.objects w.brk) (hexts : below w.externalInfos w.brk)
    (hinfos : below w.referenceInfos w.brk) :
    setWeak w (NAPIValue.refValue r) ref =
      some (NAPIStatus.NAPIOK,
        { w with
            brk := w.brk + 7
            strings := (w.brk, referenceString) :: w.strings
            handleScopeList :=
              { top with
                  handleList :=
                    ⟨w.brk + 6, JSValue.object (w.brk + 5)⟩ :: ⟨w.brk + 2, JSValue.undefined⟩ ::
                      ⟨w.brk + 1, JSValue.string w.brk⟩ :: top.handleList } :: rest
            referenceInfos := (w.brk + 3, { referenceList := [ref] }) :: w.referenceInfos
            externalInfos :=
              (w.brk + 4, { env := w.env, data := w.brk + 3, finalizeHint := 0,
                            finalizeCallback := NAPIFinalize.referenceFinalize }) :: w.externalInfos
            objects :=
              (w.brk + 5, { class_id := w.externalClassId, opaquePtr := w.brk + 4, props := [] }) ::
                updateAt w.objects p
                  (fun o => { o with props := o.props ++ [(referenceString, JSValue.object (w.brk + 5))] })
            log := w.log ++ [JSEvent.dup (JSValue.object (w.brk + 5))] }) := by
  have hp : p < w.brk := lookup_lt w.objects w.brk p o hobjs ho
  have hp5 : p ≠ w.brk + 5 := by unfold Ptr at *; omega
  have hp5c : ¬ w.brk + 1 + 1 + 1 + 1 + 1 = p := by unfold Ptr at *; omega
  have hp5b : (p == w.brk + 5) = false := by simpa using hp5
  have h1 := updateAt_below w.externalInfos w.brk (w.brk + 4)
    (fun info => { info with finalizeCallback := NAPIFinalize.referenceFinalize }) hexts (by omega)
  have h2 := updateAt_below w.objects w.brk (w.brk + 5)
    (fun o => { o with opaquePtr := w.brk + 4 }) hobjs (by omega)
  have h3 := updateAt_below w.referenceInfos w.brk (w.brk + 3)
    (fun info => { referenceList := ref :: info.referenceList }) hinfos (by omega)
  simp [setWeak, href, napi_create_string_utf8, napi_get_property, napi_typeof, setWeakCreate,
    napi_create_external, napi_get_value_external, napi_set_property,
    NAPI_PREAMBLE, JS_GetException, JS_IsNull, hctx, hexc,
    JS_NewStringLen, engineFails, he, JS_IsException, addValueToHandleScope, hstack, malloc, hm,
    load, findHandle, hvalue, JS_ValueToAtom, JS_GetProperty, ho, hprop, JS_IsUndefined,
    JS_NewObjectClass, JS_SetOpaque, updateAt_cons, JS_GetOpaque, JS_SetProperty, JS_DupValue,
    JS_VALUE_HAS_REF_COUNT, List.lookup, hp5b, hp5, hp5c, h1, h2, h3]

theorem mem_of_lookup {α : Type} (m : List (Nat × α)) (k : Nat) (x : α)
    (h : m.lookup k = some x) : (k, x) ∈ m := by
  induction m with
  | nil => cases h
  | cons e t ih =>
    obtain ⟨a, b⟩ := e
    by_cases hk : k = a
    · subst hk
      rw [lookup_cons_eq] at h
      cases h
      exact List.mem_cons_self _ _
    · rw [lookup_cons_ne _ _ _ _ hk] at h
      exact List.mem_cons_of_mem _ (ih h)

theorem lookup_append_new (l : List (JSAtom × JSValue)) (k : JSAtom) (v : JSValue)
    (h : l.lookup k = none) : (l ++ [(k, v)]).lookup k = some v := by
  induction l with
  | nil => simp [List.lookup]
  | cons e t ih =>
    obtain ⟨a, b⟩ := e
    by_cases hk : k = a
    · subst hk
      simp [List.lookup] at h
    · have hb : (k == a) = false := by simpa using hk
      simp only [List.cons_append, List.lookup, hb] at h ⊢
      exact ih h

theorem lookup_filter_self (l : List (JSAtom × JSValue)) (k : JSAtom) :
    (l.filter (fun e => e.1 ≠ k)).lookup k = none := by
  induction l with
  | nil => rfl
  | cons e t ih =>
    obtain ⟨a, b⟩ := e
    by_cases hk : a = k
    · simpa [List.filter_cons, hk] using ih
    · have hb : (k == a) = false := by simpa using (Ne.symm hk)
      simpa [List.filter_cons, hk, List.lookup, hb] using ih

theorem clearWeak_single (w : World) (top : OpaqueNAPIHandleScope)
    (rest : List OpaqueNAPIHandleScope) (ref : NAPIRef) (c : Nat) (p q x : Ptr) (o e : JSObject)
    (info : ExternalInfo)
    (hctx : w.context ≠ 0) (hexc : w.exception = JSValue.null) (hm : w.mallocPlan = [])
    (he : w.enginePlan = []) (hstack : w.handleScopeList = top :: rest)
    (href : ref ≠ 0)
    (hvalue : w.refs.lookup ref = some ⟨JSValue.object p, c⟩)
    (ho : w.objects.lookup p = some o)
    (hprop : o.props.lookup referenceString = some (JSValue.object q))
    (hq : w.objects.lookup q = some e) (hclass : e.class_id = w.externalClassId)
    (hx : e.opaquePtr = x) (hx0 : x ≠ 0) (hinfo : w.externalInfos.lookup x = some info)
    (hd0 : info.data ≠ 0)
    (hlist : w.referenceInfos.lookup info.data = some { referenceList := [ref] }) :
    clearWeak w ref =
      some (NAPIStatus.NAPIOK,
        { w with
            brk := w.brk + 3
            strings := (w.brk, referenceString) :: w.strings
            handleScopeList :=
              { top with
                  handleList :=
                    ⟨w.brk + 2, JSValue.object q⟩ :: ⟨w.brk + 1, JSValue.string w.brk⟩ ::
                      top.handleList } :: rest
            referenceInfos :=
              w.referenceInfos.map
                (fun e => (e.1, { referenceList := e.2.referenceList.erase ref }))
            objects := updateAt w.objects p
              (fun o => { o with props := o.props.filter (fun e => e.1 ≠ referenceString) })
            log := w.log ++ [JSEvent.dup (JSValue.object q), JSEvent.free (JSValue.object q)] }) := by
  have hmem := mem_of_lookup _ _ _ hlist
  have hany : ∃ a b, (a, b) ∈ w.referenceInfos ∧ ref ∈ b.referenceList :=
    ⟨_, _, hmem, by simp⟩
  simp [clearWeak, href, napi_create_string_utf8, napi_get_property, napi_get_value_external,
    napi_delete_property, LIST_REMOVE,
    NAPI_PREAMBLE, JS_GetException, JS_IsNull, hctx, hexc,
    JS_NewStringLen, engineFails, he, JS_IsException, addValueToHandleScope, hstack, malloc, hm,
    load, findHandle, hvalue, JS_ValueToAtom, JS_GetProperty, ho, hprop,
    JS_GetOpaque, hq, hclass, hx, hx0, hinfo, hd0, hlist, JS_DeleteProperty, JS_DupValue, JS_FreeValue,
    JS_VALUE_HAS_REF_COUNT, List.lookup, hany]

theorem below_mono {α : Type} (m : List (Nat × α)) (n k : Nat) (h : below m n) (hk : n ≤ k) :
    below m k := fun e he => Nat.lt_of_lt_of_le (h e he) hk

theorem create_strong (w : World) (value : NAPIValue) (p : Ptr) (old : NAPIRef)
    (hctx : w.context ≠ 0) (hm : w.mallocPlan = []) (hbrk : w.brk ≠ 0)
    (hvalue : load w value = some (JSValue.object p)) :
    napi_create_reference w value 1 (some old) =
      some (NAPIStatus.NAPIOK, some w.brk,
        { w with
            brk := w.brk + 1
            refs := (w.brk, { value := JSValue.object p, referenceCount := 1 }) :: w.refs
            log := w.log ++ [JSEvent.dup (JSValue.object p)] }) := by
  cases value <;> simp only [load] at hvalue <;>
    simp [napi_create_reference, hctx, malloc, hm, hbrk, load, hvalue, JS_IsObject, JS_DupValue,
      JS_VALUE_HAS_REF_COUNT]
  cases hvalue

theorem unref_to_weak (w : World) (top : OpaqueNAPIHandleScope)
    (rest : List OpaqueNAPIHandleScope) (ref : NAPIRef) (p : Ptr) (o : JSObject) (old : Nat)
    (refs : List (NAPIRef × OpaqueNAPIRef))
    (hctx : w.context ≠ 0) (hexc : w.exception = JSValue.null) (hm : w.mallocPlan = [])
    (he : w.enginePlan = []) (hstack : w.handleScopeList = top :: rest)
    (href : ref ≠ 0)
    (hrefs : w.refs = (ref, ⟨JSValue.object p, 1⟩) :: refs) (hbelow : below refs ref)
    (ho : w.objects.lookup p = some o) (hprop : o.props.lookup referenceString = none)
    (hobjs : below w.objects w.brk) (hexts : below w.externalInfos w.brk)
    (hinfos : below w.referenceInfos w.brk) :
    napi_reference_unref w ref (some old) =
      some (NAPIStatus.NAPIOK, some 0,
        { w with
            brk := w.brk + 7
            refs := (ref, ⟨JSValue.object p, 0⟩) :: refs
            strings := (w.brk, referenceString) :: w.strings
            handleScopeList :=
              { top with
                  handleList :=
                    ⟨w.brk + 6, JSValue.object (w.brk + 5)⟩ :: ⟨w.brk + 2, JSValue.undefined⟩ ::
                      ⟨w.brk + 1, JSValue.string w.brk⟩ :: top.handleList } :: rest
            referenceInfos := (w.brk + 3, { referenceList := [ref] }) :: w.referenceInfos
            externalInfos :=
              (w.brk + 4, { env := w.env, data := w.brk + 3, finalizeHint := 0,
                            finalizeCallback := NAPIFinalize.referenceFinalize }) :: w.externalInfos
            objects :=
              (w.brk + 5, { class_id := w.externalClassId, opaquePtr := w.brk + 4, props := [] }) ::
                updateAt w.objects p
                  (fun o => { o with props := o.props ++ [(referenceString, JSValue.object (w.brk + 5))] })
            log := w.log ++ [JSEvent.dup (JSValue.object (w.brk + 5)),
              JSEvent.free (JSValue.object p)] }) := by
  have hlook : w.refs.lookup ref = some ⟨JSValue.object p, 1⟩ := by
    rw [hrefs]; exact lookup_cons_eq _ _ _
  have hu := updateAt_below refs ref ref
    (fun x => { x with referenceCount := (x.referenceCount + 255) % 256 }) hbelow (le_refl _)
  simp [napi_reference_unref, href, hctx, hlook, JS_IsObject,
    setWeak_new w top rest ref ref 1 p o hctx hexc hm he hstack href hlook ho hprop hobjs hexts hinfos,
    JS_FreeValue, JS_VALUE_HAS_REF_COUNT, hrefs, updateAt_cons, hu]

theorem ref_to_strong (w : World) (top : OpaqueNAPIHandleScope)
    (rest : List OpaqueNAPIHandleScope) (ref : NAPIRef) (p q x : Ptr) (o e : JSObject)
    (info : ExternalInfo) (old : Nat) (refs : List (NAPIRef × OpaqueNAPIRef))
    (hctx : w.context ≠ 0) (hexc : w.exception = JSValue.null) (hm : w.mallocPlan = [])
    (he : w.enginePlan = []) (hstack : w.handleScopeList = top :: rest)
    (href : ref ≠ 0)
    (hrefs : w.refs = (ref, ⟨JSValue.object p, 0⟩) :: refs) (hbelow : below refs ref)
    (ho : w.objects.lookup p = some o)
    (hprop : o.props.lookup referenceString = some (JSValue.object q))
    (hq : w.objects.lookup q = some e) (hclass : e.class_id = w.externalClassId)
    (hx : e.opaquePtr = x) (hx0 : x ≠ 0) (hinfo : w.externalInfos.lookup x = some info)
    (hd0 : info.data ≠ 0)
    (hlist : w.referenceInfos.lookup info.data = some { referenceList := [ref] }) :
    napi_reference_ref w ref (some old) =
      some (NAPIStatus.NAPIOK, some 1,
        { w with
            brk := w.brk + 3
            refs := (ref, ⟨JSValue.object p, 1⟩) :: refs
            strings := (w.brk, referenceString) :: w.strings
            handleScopeList :=
              { top with
                  handleList :=
                    ⟨w.brk + 2, JSValue.object q⟩ :: ⟨w.brk + 1, JSValue.string w.brk⟩ ::
                      top.handleList } :: rest
            referenceInfos :=
              w.referenceInfos.map
                (fun e => (e.1, { referenceList := e.2.referenceList.erase ref }))
            objects := updateAt w.objects p
              (fun o => { o with props := o.props.filter (fun e => e.1 ≠ referenceString) })
            log := w.log ++ [JSEvent.dup (JSValue.object q), JSEvent.free (JSValue.object q),
              JSEvent.dup (JSValue.object p)] }) := by
  have hlook : w.refs.lookup ref = some ⟨JSValue.object p, 0⟩ := by
    rw [hrefs]; exact lookup_cons_eq _ _ _
  have hu := updateAt_below refs ref ref
    (fun x => { x with referenceCount := (x.referenceCount + 1) % 256 }) hbelow (le_refl _)
  simp [napi_reference_ref, href, hctx, hlook, JS_IsObject, JS_IsUndefined,
    clearWeak_single w top rest ref 0 p q x o e info hctx hexc hm he hstack href hlook ho hprop hq
      hclass hx hx0 hinfo hd0 hlist,
    JS_DupValue, JS_VALUE_HAS_REF_COUNT, hrefs, updateAt_cons, hu]

/-- C10 (amended): for every live object `obj` that carries no hidden
registry slot (no `__reference__` property, so no other weak reference
watches it), with a scope open, no exception pending, no allocation failing
and fresh addresses handed out: `napi_create_reference(obj, 1)`,
`napi_reference_unref`, `napi_reference_ref` and `napi_get_reference_value`
all return `NAPIOK`, the unref yields count 0, the ref yields count 1, the
value read is `&ref->value` holding `obj` itself, the reference is in no
registry list, the hidden slot of `obj` is absent, and over the calls `obj`
receives two duplicates and one release (net hold change +1). -/
theorem roundTrip_spec (w : World) (value : NAPIValue) (p : Ptr) (o : JSObject)
    (top : OpaqueNAPIHandleScope) (rest : List OpaqueNAPIHandleScope)
    (hctx : w.context ≠ 0) (hexc : w.exception = JSValue.null) (hm : w.mallocPlan = [])
    (he : w.enginePlan = []) (hstack : w.handleScopeList = top :: rest)
    (hvalue : load w value = some (JSValue.object p))
    (ho : w.objects.lookup p = some o) (hslot : o.props.lookup referenceString = none)
    (hfresh : Fresh w) :
    ∃ w1, roundTrip w value =
        some (List.replicate 4 NAPIStatus.NAPIOK, some w.brk, some 0, some 1,
          some (NAPIValue.refValue w.brk), w1) ∧
      load w1 (NAPIValue.refValue w.brk) = some (JSValue.object p) ∧
      (∀ e ∈ w1.referenceInfos, w.brk ∉ e.2.referenceList) ∧
      (w1.objects.lookup p).map (fun x => x.props.lookup referenceString) = some none ∧
      duplicates w1.log (JSValue.object p) = duplicates w.log (JSValue.object p) + 2 ∧
      releases w1.log (JSValue.object p) = releases w.log (JSValue.object p) + 1 := by
  obtain ⟨hobjs, hexts, hinfos, hrefs, hlists⟩ := hfresh
  have hp : p < w.brk := lookup_lt w.objects w.brk p o hobjs ho
  have hbrk : w.brk ≠ 0 := by unfold Ptr at *; omega
  have hp6 : p ≠ w.brk + 1 + 5 := by unfold Ptr at *; omega
  have h1 := create_strong w value p 0 hctx hm hbrk hvalue
  let W1 : World :=
    { w with
        brk := w.brk + 1
        refs := (w.brk, { value := JSValue.object p, referenceCount := 1 }) :: w.refs
        log := w.log ++ [JSEvent.dup (JSValue.object p)] }
  have h2 := unref_to_weak W1 top rest w.brk p o 7 w.refs hctx hexc hm he hstack hbrk rfl hrefs ho
    hslot (below_mono _ _ _ hobjs (Nat.le_succ _)) (below_mono _ _ _ hexts (Nat.le_succ _))
    (below_mono _ _ _ hinfos (Nat.le_succ _))
  let f : JSObject → JSObject :=
    fun o => { o with props := o.props ++ [(referenceString, JSValue.object (W1.brk + 5))] }
  let W2 : World :=
    { W1 with
        brk := W1.brk + 7
        refs := (w.brk, ⟨JSValue.object p, 0⟩) :: w.refs
        strings := (W1.brk, referenceString) :: W1.strings
        handleScopeList :=
          { top with
              handleList :=
                ⟨W1.brk + 6, JSValue.object (W1.brk + 5)⟩ :: ⟨W1.brk + 2, JSValue.undefined⟩ ::
                  ⟨W1.brk + 1, JSValue.string W1.brk⟩ :: top.handleList } :: rest
        referenceInfos := (W1.brk + 3, { referenceList := [w.brk] }) :: W1.referenceInfos
        externalInfos :=
          (W1.brk + 4,
            { env := W1.env, data := W1.brk + 3, finalizeHint := 0,
              finalizeCallback := NAPIFinalize.referenceFinalize }) :: W1.externalInfos
        objects :=
          (W1.brk + 5, { class_id := W1.externalClassId, opaquePtr := W1.brk + 4, props := [] }) ::
            updateAt W1.objects p f
        log := W1.log ++ [JSEvent.dup (JSValue.object (W1.brk + 5)),
          JSEvent.free (JSValue.object p)] }
  have ho2 : W2.objects.lookup p = some (f o) := by
    show List.lookup p ((w.brk + 1 + 5, _) :: updateAt w.objects p f) = some (f o)
    rw [lookup_cons_ne _ _ _ _ hp6, lookup_updateAt_self, ho]
    rfl
  let top2 : OpaqueNAPIHandleScope :=
    { top with
        handleList :=
          ⟨W1.brk + 6, JSValue.object (W1.brk + 5)⟩ :: ⟨W1.brk + 2, JSValue.undefined⟩ ::
            ⟨W1.brk + 1, JSValue.string W1.brk⟩ :: top.handleList }
  let W3 : World :=
    { W2 with
        brk := W2.brk + 3
        refs := (w.brk, ⟨JSValue.object p, 1⟩) :: w.refs
        strings := (W2.brk, referenceString) :: W2.strings
        handleScopeList :=
          { top2 with
              handleList :=
                ⟨W2.brk + 2, JSValue.object (W1.brk + 5)⟩ :: ⟨W2.brk + 1, JSValue.string W2.brk⟩ ::
                  top2.handleList } :: rest
        referenceInfos :=
          W2.referenceInfos.map
            (fun e => (e.1, { referenceList := e.2.referenceList.erase w.brk }))
        objects := updateAt W2.objects p
          (fun o => { o with props := o.props.filter (fun e => e.1 ≠ referenceString) })
        log := W2.log ++ [JSEvent.dup (JSValue.object (W1.brk + 5)),
          JSEvent.free (JSValue.object (W1.brk + 5)), JSEvent.dup (JSValue.object p)] }
  have h3 := ref_to_strong W2 top2 rest w.brk p (W1.brk + 5) (W1.brk + 4) (f o)
    { class_id := W1.externalClassId, opaquePtr := W1.brk + 4, props := [] }
    { env := W1.env, data := W1.brk + 3, finalizeHint := 0,
      finalizeCallback := NAPIFinalize.referenceFinalize }
    7 w.refs hctx hexc hm he rfl hbrk rfl hrefs ho2 (lookup_append_new _ _ _ hslot)
    (lookup_cons_eq _ _ _) rfl rfl (Nat.succ_ne_zero _) (lookup_cons_eq _ _ _)
    (Nat.succ_ne_zero _) (lookup_cons_eq _ _ _)
  refine ⟨W3, ?_, ?_, ?_, ?_, ?_, ?_⟩
  · unfold roundTrip
    rw [h1]
    simp only [Option.getD]
    rw [h2]
    simp only
    rw [h3]
    have hl : W3.refs.lookup w.brk = some ⟨JSValue.object p, 1⟩ := lookup_cons_eq _ _ _
    simp only [napi_get_reference_value, if_neg hbrk, hl]
    rw [if_neg (by simp)]
    rfl
  · simp [load, List.lookup]
  · intro e he
    simp only [List.map_cons, List.mem_cons, List.mem_map] at he
    rcases he with he | ⟨e0, he0, rfl⟩
    · subst he; simp
    · intro hmem
      exact hlists e0 he0 (List.mem_of_mem_erase hmem)
  · have hl : W3.objects.lookup p =
        (W2.objects.lookup p).map
          (fun o => { o with props := o.props.filter (fun e => e.1 ≠ referenceString) }) :=
      lookup_updateAt_self W2.objects p
        (fun o => { o with props := o.props.filter (fun e => e.1 ≠ referenceString) })
    rw [hl, ho2]
    exact congrArg some (lookup_filter_self _ _)
  · have hne : JSValue.object (w.brk + 1 + 5) ≠ JSValue.object p := fun e => hp6 (by injection e with e; exact e.symm)
    simp [duplicates, List.count_append, List.count_cons, W1, hne]
  · have hne : JSValue.object (w.brk + 1 + 5) ≠ JSValue.object p := fun e => hp6 (by injection e with e; exact e.symm)
    simp [releases, List.count_append, List.count_cons, W1, hne]

/-- C10, counterexample: the object 40 of `watchedWorld` is already watched
by the weak reference 50.  The round trip on a new reference (address 100)
succeeds with counts 0 and 1 and yields `&ref->value`, but the hidden
registry slot of the object is still present afterwards: it holds the
external 60, whose registry still lists the reference 50. -/
theorem roundTrip_keeps_shared_slot :
    (roundTrip watchedWorld (NAPIValue.handleValue 9)).map
        (fun r => (r.1, r.2.1, r.2.2.1, r.2.2.2.1, r.2.2.2.2.1,
          (r.2.2.2.2.2.objects.lookup 40).map (fun o => o.props.lookup referenceString),
          r.2.2.2.2.2.referenceInfos)) =
      some (List.replicate 4 NAPIStatus.NAPIOK, some 100, some 0, some 1,
        some (NAPIValue.refValue 100), some (some (JSValue.object 60)),
        [(62, { referenceList := [50] })]) := by
  rfl

theorem roundTrip_spec_witness :
    ∃ w1, roundTrip objWorld (NAPIValue.handleValue 9) =
        some (List.replicate 4 NAPIStatus.NAPIOK, some objWorld.brk, some 0, some 1,
          some (NAPIValue.refValue objWorld.brk), w1) ∧
      load w1 (NAPIValue.refValue objWorld.brk) = some (JSValue.object 40) ∧
      (∀ e ∈ w1.referenceInfos, objWorld.brk ∉ e.2.referenceList) ∧
      (w1.objects.lookup 40).map (fun x => x.props.lookup referenceString) = some none ∧
      duplicates w1.log (JSValue.object 40) = duplicates objWorld.log (JSValue.object 40) + 2 ∧
      releases w1.log (JSValue.object 40) = releases objWorld.log (JSValue.object 40) + 1 :=
  roundTrip_spec objWorld (NAPIValue.handleValue 9) 40 ⟨1, 0, []⟩ ⟨7, [⟨9, JSValue.object 40⟩], none⟩ []
    (by decide) rfl rfl rfl rfl rfl rfl rfl
    (by simp [Fresh, below, objWorld, freshWorld])

theorem mem_eraseAt {α : Type} (m : List (Nat × α)) (p : Nat) (e : Nat × α)
    (h : e ∈ eraseAt m p) : e ∈ m := by
  unfold eraseAt at h
  exact (List.mem_filter.mp h).1

theorem JS_Throw_externalInfos (w : World) (v : JSValue) :
    (JS_Throw w v).externalInfos = w.externalInfos ∧ (JS_Throw w v).finalized = w.finalized := by
  unfold JS_Throw JS_FreeValue
  split <;> simp

theorem NAPI_PREAMBLE_world (w : World) : (NAPI_PREAMBLE w).2 = w := by
  unfold NAPI_PREAMBLE
  by_cases hctx : w.context = 0
  · simp [hctx]
  · by_cases hexc : w.exception = JSValue.null
    · simp [hctx, JS_GetException, hexc, JS_IsNull, world_exception_eta]
    · have hn : JS_IsNull w.exception = false := by
        cases he : w.exception <;> simp_all [JS_IsNull]
      simp only [hctx, if_false, JS_GetException, hn]
      simp [JS_Throw, JS_FreeValue, JS_VALUE_HAS_REF_COUNT]

theorem malloc_frame (w : World) :
    (malloc w).2.finalized = w.finalized ∧ (malloc w).2.externalInfos = w.externalInfos ∧
      (malloc w).2.env = w.env := by
  unfold malloc
  split <;> exact ⟨rfl, rfl, rfl⟩

theorem JS_NewObjectClass_frame (w : World) (c : JSClassID) :
    (JS_NewObjectClass w c).2.finalized = w.finalized ∧
      (JS_NewObjectClass w c).2.externalInfos = w.externalInfos := by
  have hf : (engineFails w).2.finalized = w.finalized ∧
      (engineFails w).2.externalInfos = w.externalInfos := by
    unfold engineFails
    split <;> exact ⟨rfl, rfl⟩
  unfold JS_NewObjectClass
  rcases h : engineFails w with ⟨r, w1⟩
  rw [h] at hf
  cases r with
  | none => exact hf
  | some e =>
    have ht := JS_Throw_externalInfos w1 e
    exact ⟨ht.2.trans hf.1, ht.1.trans hf.2⟩

theorem JS_SetOpaque_frame (w : World) (v : JSValue) (p : Ptr) :
    (JS_SetOpaque w v p).finalized = w.finalized ∧
      (JS_SetOpaque w v p).externalInfos = w.externalInfos := by
  unfold JS_SetOpaque
  split <;> exact ⟨rfl, rfl⟩

theorem JS_FreeValue_frame (w : World) (v : JSValue) :
    (JS_FreeValue w v).finalized = w.finalized ∧
      (JS_FreeValue w v).externalInfos = w.externalInfos := by
  unfold JS_FreeValue
  split <;> exact ⟨rfl, rfl⟩

theorem addValueToHandleScope_frame (w : World) (v : JSValue) (r : Option Ptr) :
    (addValueToHandleScope w v r).2.2.finalized = w.finalized ∧
      (addValueToHandleScope w v r).2.2.externalInfos = w.externalInfos := by
  unfold addValueToHandleScope
  cases r with
  | none => exact ⟨rfl, rfl⟩
  | some old =>
    cases hl : w.handleScopeList with
    | nil => exact ⟨rfl, rfl⟩
    | cons top rest =>
      have h := malloc_frame w
      simp only
      split <;> simp [h.1, h.2.1]

/-- C17: whenever `napi_create_external` returns a status other than
`NAPIOK`, no finalize callback has been called (the record of calls is
unchanged) and every `ExternalInfo` the world then holds that was not there
before the call carries a `NULL` finalize callback: the binding that the
failure path leaves to the engine cannot reach the caller's finalizer. -/
theorem napi_create_external_failure (w : World) (data hint : Ptr) (finalizeCB : NAPIFinalize)
    (result : Option NAPIValue)
    (hfail : (napi_create_external w data finalizeCB hint result).1 ≠ NAPIStatus.NAPIOK) :
    (napi_create_external w data finalizeCB hint result).2.2.finalized = w.finalized ∧
    ∀ e ∈ (napi_create_external w data finalizeCB hint result).2.2.externalInfos,
      e ∈ w.externalInfos ∨ e.2.finalizeCallback = NAPIFinalize.NULL := by
  have hw := NAPI_PREAMBLE_world w
  revert hfail
  unfold napi_create_external
  rcases hp : NAPI_PREAMBLE w with ⟨st, w1⟩
  rw [hp] at hw
  simp only at hw
  subst hw
  cases st with
  | some status => intro _; exact ⟨rfl, fun e he => Or.inl he⟩
  | none =>
    cases result with
    | none => intro _; exact ⟨rfl, fun e he => Or.inl he⟩
    | some old =>
      intro hfail
      have hm := malloc_frame w1
      simp only at hfail ⊢
      by_cases hp0 : (malloc w1).1 = 0
      · simp only [hp0, if_true]
        exact ⟨hm.1, fun e he => Or.inl (hm.2.1 ▸ he)⟩
      · simp only [hp0, if_false] at hfail ⊢
        generalize hW2 : ({ (malloc w1).2 with
            externalInfos :=
              ((malloc w1).1, { env := (malloc w1).2.env, data := data, finalizeHint := hint,
                                finalizeCallback := NAPIFinalize.NULL }) ::
                (malloc w1).2.externalInfos } : World) = W2 at hfail ⊢
        have hW2f : W2.finalized = w1.finalized := by rw [← hW2]; exact hm.1
        have hW2e : W2.externalInfos =
            ((malloc w1).1, { env := (malloc w1).2.env, data := data, finalizeHint := hint,
                              finalizeCallback := NAPIFinalize.NULL }) :: w1.externalInfos := by
          rw [← hW2]; simp [hm.2.1]
        have hW2c : W2.externalClassId = (malloc w1).2.externalClassId := by rw [← hW2]
        rw [← hW2c] at hfail ⊢
        have ho := JS_NewObjectClass_frame W2 W2.externalClassId
        generalize JS_NewObjectClass W2 W2.externalClassId = o at hfail ho ⊢
        have hmem : ∀ e ∈ W2.externalInfos,
            e ∈ w1.externalInfos ∨ e.2.finalizeCallback = NAPIFinalize.NULL := by
          intro e he
          rw [hW2e] at he
          rcases List.mem_cons.mp he with he | he
          · right; rw [he]
          · left; exact he
        by_cases hexc : JS_IsException o.1 = true
        · simp only [hexc, if_true]
          refine ⟨by rw [ho.1, hW2f], ?_⟩
          intro e he
          exact hmem e (ho.2 ▸ mem_eraseAt _ _ _ he)
        · simp only [hexc] at hfail ⊢
          have hs := JS_SetOpaque_frame o.2 o.1 (malloc w1).1
          generalize JS_SetOpaque o.2 o.1 (malloc w1).1 = w4 at hfail hs ⊢
          have ha := addValueToHandleScope_frame w4 o.1 (some 0)
          generalize addValueToHandleScope w4 o.1 (some 0) = a at hfail ha ⊢
          by_cases hok : a.1 = NAPIStatus.NAPIOK
          · simp [hok] at hfail
          · have hf := JS_FreeValue_frame a.2.2 o.1
            simp only [hok, ne_eq, not_false_eq_true, if_true, Bool.false_eq_true, if_false]
            refine ⟨by rw [hf.1, ha.1, hs.1, ho.1, hW2f], ?_⟩
            intro e he
            rw [hf.2, ha.2, hs.2, ho.2] at he
            exact hmem e he

theorem napi_create_external_failure_witness :
    (napi_create_external freshWorld 77 (NAPIFinalize.user 3) 88 (some NAPIValue.NULL)).1 =
        NAPIStatus.NAPIHandleScopeMismatch ∧
      (napi_create_external freshWorld 77 (NAPIFinalize.user 3) 88
          (some NAPIValue.NULL)).2.2.finalized = freshWorld.finalized ∧
      ∀ e ∈ (napi_create_external freshWorld 77 (NAPIFinalize.user 3) 88
          (some NAPIValue.NULL)).2.2.externalInfos,
        e ∈ freshWorld.externalInfos ∨ e.2.finalizeCallback = NAPIFinalize.NULL :=
  ⟨rfl, napi_create_external_failure freshWorld 77 88 (NAPIFinalize.user 3) (some NAPIValue.NULL)
    (by decide)⟩

theorem NAPI_PREAMBLE_status (w : World) : (NAPI_PREAMBLE w).1 ≠ some NAPIStatus.NAPIOK := by
  unfold NAPI_PREAMBLE
  by_cases hctx : w.context = 0
  · simp [hctx]
  · simp only [hctx, if_false]
    split <;> simp

theorem JS_NewObjectClass_cases (w : World) (c : JSClassID) :
    (JS_NewObjectClass w c).1 = JSValue.exception ∨
      ∃ q, (JS_NewObjectClass w c).1 = JSValue.object q ∧
        (JS_NewObjectClass w c).2.objects =
          (q, { class_id := c, opaquePtr := 0, props := [] }) :: w.objects ∧
        (JS_NewObjectClass w c).2.externalInfos = w.externalInfos ∧
        (JS_NewObjectClass w c).2.externalClassId = w.externalClassId := by
  unfold JS_NewObjectClass
  rcases h : engineFails w with ⟨r, w1⟩
  cases r with
  | some e => left; rfl
  | none =>
    right
    have hf : w1.objects = w.objects ∧ w1.externalInfos = w.externalInfos ∧
        w1.externalClassId = w.externalClassId := by
      unfold engineFails at h
      split at h <;> cases h <;> exact ⟨rfl, rfl, rfl⟩
    exact ⟨w1.brk, rfl, by simp [hf.1], hf.2.1, hf.2.2⟩

theorem addValueToHandleScope_ok_inv (w : World) (v : JSValue) (old : Ptr)
    (h : (addValueToHandleScope w v (some old)).1 = NAPIStatus.NAPIOK) :
    ∃ p, (addValueToHandleScope w v (some old)).2.1 = some p ∧
      load (addValueToHandleScope w v (some old)).2.2 (NAPIValue.handleValue p) = some v ∧
      (addValueToHandleScope w v (some old)).2.2.objects = w.objects ∧
      (addValueToHandleScope w v (some old)).2.2.externalInfos = w.externalInfos ∧
      (addValueToHandleScope w v (some old)).2.2.externalClassId = w.externalClassId := by
  have hm : (malloc w).2.objects = w.objects ∧ (malloc w).2.externalInfos = w.externalInfos ∧
      (malloc w).2.externalClassId = w.externalClassId := by
    unfold malloc
    split <;> exact ⟨rfl, rfl, rfl⟩
  revert h
  unfold addValueToHandleScope
  cases hl : w.handleScopeList with
  | nil => intro h; simp at h
  | cons top rest =>
    simp only
    by_cases hp : (malloc w).1 = 0
    · simp [hp]
    · intro _
      simp only [hp, if_false]
      exact ⟨(malloc w).1, rfl, by simp [load, findHandle], hm.1, hm.2.1, hm.2.2⟩

/-- C18: `napi_get_value_external` applied to the value that a successful
`napi_create_external(data, ...)` produced returns `NAPIOK` with `data`;
applied to a value that is not an external (not an object, or a live object
of another class) it returns `NAPIOK` with `NULL`; in both cases the world
it leaves is the world it was given. -/
theorem napi_get_value_external_spec (w : World) :
    (∀ (data hint : Ptr) (finalizeCB : NAPIFinalize) (old : NAPIValue) (v : Option NAPIValue)
        (w1 : World) (r : Ptr),
      napi_create_external w data finalizeCB hint (some old) = (NAPIStatus.NAPIOK, v, w1) →
        napi_get_value_external w1 (v.getD NAPIValue.NULL) (some r) =
          some (NAPIStatus.NAPIOK, some data, w1)) ∧
    (∀ (value : NAPIValue) (jsValue : JSValue) (r : Ptr),
      load w value = some jsValue →
      (JS_IsObject jsValue = false ∨
        ∃ p o, jsValue = JSValue.object p ∧ w.objects.lookup p = some o ∧
          o.class_id ≠ w.externalClassId) →
        napi_get_value_external w value (some r) = some (NAPIStatus.NAPIOK, some 0, w)) := by
  refine ⟨?_, ?_⟩
  · intro data hint finalizeCB old v w1 r h
    have hw := NAPI_PREAMBLE_world w
    unfold napi_create_external at h
    rcases hp : NAPI_PREAMBLE w with ⟨st, w0⟩
    rw [hp] at hw h
    simp only at hw
    subst hw
    cases st with
    | some status =>
      simp only [Prod.mk.injEq] at h
      have hs := NAPI_PREAMBLE_status w0
      rw [hp] at hs
      exact absurd (congrArg some h.1) hs
    | none =>
      simp only at h
      by_cases hx : (malloc w0).1 = 0
      · simp [hx] at h
      · simp only [hx, if_false] at h
        generalize hW2 : ({ (malloc w0).2 with
            externalInfos :=
              ((malloc w0).1,
                { env := (malloc w0).2.env, data := data, finalizeHint := hint,
                  finalizeCallback := NAPIFinalize.NULL }) :: (malloc w0).2.externalInfos } :
            World) = W2 at h
        have hW2e : W2.externalInfos =
            ((malloc w0).1,
              { env := (malloc w0).2.env, data := data, finalizeHint := hint,
                finalizeCallback := NAPIFinalize.NULL }) :: (malloc w0).2.externalInfos := by
          rw [← hW2]
        have hW2c : W2.externalClassId = (malloc w0).2.externalClassId := by rw [← hW2]
        rw [← hW2c] at h
        have ho := JS_NewObjectClass_cases W2 W2.externalClassId
        generalize JS_NewObjectClass W2 W2.externalClassId = o at h ho
        rcases ho with ho | ⟨q, hq, hobjs, hexts, hcls⟩
        · simp [ho, JS_IsException] at h
        · simp only [hq, JS_IsException, Bool.false_eq_true, if_false] at h
          have hs : (JS_SetOpaque o.2 (JSValue.object q) (malloc w0).1).objects =
                (q, { class_id := W2.externalClassId, opaquePtr := (malloc w0).1, props := [] }) ::
                  updateAt W2.objects q (fun o => { o with opaquePtr := (malloc w0).1 }) ∧
              (JS_SetOpaque o.2 (JSValue.object q) (malloc w0).1).externalInfos = W2.externalInfos ∧
              (JS_SetOpaque o.2 (JSValue.object q) (malloc w0).1).externalClassId =
                W2.externalClassId := by
            simp [JS_SetOpaque, hobjs, updateAt_cons, hexts, hcls]
          generalize JS_SetOpaque o.2 (JSValue.object q) (malloc w0).1 = w4 at h hs
          by_cases hok : (addValueToHandleScope w4 (JSValue.object q) (some 0)).1 = NAPIStatus.NAPIOK
          · obtain ⟨p, hp1, hp2, hp3, hp4, hp5⟩ := addValueToHandleScope_ok_inv w4 _ 0 hok
            generalize addValueToHandleScope w4 (JSValue.object q) (some 0) = a at h hok hp1 hp2 hp3 hp4 hp5
            simp only [hok, ne_eq, not_true_eq_false, if_false, Prod.mk.injEq, true_and] at h
            obtain ⟨hv, hw1⟩ := h
            subst hv hw1
            have hload : load
                { a.2.2 with
                    externalInfos := updateAt a.2.2.externalInfos (malloc w0).1
                      (fun info => { info with finalizeCallback := finalizeCB }) }
                (NAPIValue.handleValue p) = some (JSValue.object q) := by
              simpa [load] using hp2
            refine napi_get_value_external_ok _ _ r q (malloc w0).1
              { class_id := W2.externalClassId, opaquePtr := (malloc w0).1, props := [] }
              { env := (malloc w0).2.env, data := data, finalizeHint := hint,
                finalizeCallback := finalizeCB } ?_ ?_ ?_ rfl hx ?_
            · simpa [hp1] using hload
            · show List.lookup q a.2.2.objects = _
              rw [hp3, hs.1]
              exact lookup_cons_eq _ _ _
            · show W2.externalClassId = a.2.2.externalClassId
              rw [hp5, hs.2.2]
            · show List.lookup (malloc w0).1 (updateAt a.2.2.externalInfos (malloc w0).1
                (fun info => { info with finalizeCallback := finalizeCB })) = _
              rw [hp4, hs.2.1, hW2e, updateAt_cons, if_pos rfl]
              exact lookup_cons_eq _ _ _
          · simp [hok] at h
  · intro value jsValue r hl hne
    have hn : value ≠ NAPIValue.NULL := by rintro rfl; simp [load] at hl
    rcases hne with hno | ⟨p, o, rfl, ho, hc⟩
    · have : JS_GetOpaque w jsValue w.externalClassId = some 0 := by
        cases jsValue <;> simp_all [JS_GetOpaque, JS_IsObject]
      simp [napi_get_value_external, hn, hl, this]
    · simp [napi_get_value_external, hn, hl, JS_GetOpaque, ho, hc]

/-- C14 (amended): for every value that is not an object (with `malloc`
succeeding), `napi_create_reference(v, 0)` returns `NAPIOK` and a reference
with count 0 whose stored value is `undefined`, not `v`; no registry, no
scope and no engine-level hold is touched (only the allocator moves); and
`napi_get_reference_value` on it yields `NULL`. -/
theorem napi_create_reference_primitive (w : World) (value : NAPIValue) (jsValue : JSValue)
    (old : NAPIRef) (r : NAPIValue)
    (hctx : w.context ≠ 0) (hbrk : w.brk ≠ 0) (hm : w.mallocPlan.head? ≠ some false)
    (hl : load w value = some jsValue) (hprim : JS_IsObject jsValue = false) :
    napi_create_reference w value 0 (some old) =
        some (NAPIStatus.NAPIOK, some w.brk,
          { w with
              brk := w.brk + 1
              mallocPlan := w.mallocPlan.tail
              refs := (w.brk, { value := JSValue.undefined, referenceCount := 0 }) :: w.refs }) ∧
    napi_get_reference_value
        { w with
            brk := w.brk + 1
            mallocPlan := w.mallocPlan.tail
            refs := (w.brk, { value := JSValue.undefined, referenceCount := 0 }) :: w.refs }
        w.brk (some r) =
      some (NAPIStatus.NAPIOK, some NAPIValue.NULL,
        { w with
            brk := w.brk + 1
            mallocPlan := w.mallocPlan.tail
            refs := (w.brk, { value := JSValue.undefined, referenceCount := 0 }) :: w.refs }) := by
  have hmal : malloc w = (w.brk, { w with brk := w.brk + 1, mallocPlan := w.mallocPlan.tail }) := by
    unfold malloc
    cases hp : w.mallocPlan with
    | nil => simp
    | cons b t =>
      cases b with
      | false => simp [hp] at hm
      | true => simp
  have hn : value ≠ NAPIValue.NULL := by rintro rfl; simp [load] at hl
  have hl2 : load { w with brk := w.brk + 1, mallocPlan := w.mallocPlan.tail } value = some jsValue := by
    cases value <;> simp [load] at hl ⊢ <;> exact hl
  refine ⟨?_, ?_⟩
  · simp [napi_create_reference, hn, hctx, hmal, hbrk, hl2, hprim]
  · simp [napi_get_reference_value, hbrk, List.lookup, JS_IsUndefined]

theorem napi_create_reference_primitive_witness :
    napi_create_reference stringWorld (NAPIValue.handleValue 9) 0 (some 0) =
        some (NAPIStatus.NAPIOK, some stringWorld.brk,
          { stringWorld with
              brk := stringWorld.brk + 1
              mallocPlan := stringWorld.mallocPlan.tail
              refs := (stringWorld.brk, { value := JSValue.undefined, referenceCount := 0 }) ::
                stringWorld.refs }) ∧
    napi_get_reference_value
        { stringWorld with
            brk := stringWorld.brk + 1
            mallocPlan := stringWorld.mallocPlan.tail
            refs := (stringWorld.brk, { value := JSValue.undefined, referenceCount := 0 }) ::
              stringWorld.refs }
        stringWorld.brk (some NAPIValue.nullValue) =
      some (NAPIStatus.NAPIOK, some NAPIValue.NULL,
        { stringWorld with
            brk := stringWorld.brk + 1
            mallocPlan := stringWorld.mallocPlan.tail
            refs := (stringWorld.brk, { value := JSValue.undefined, referenceCount := 0 }) ::
              stringWorld.refs }) :=
  napi_create_reference_primitive stringWorld (NAPIValue.handleValue 9) (JSValue.string 30) 0
    NAPIValue.nullValue (by decide) (by decide) (by decide) rfl rfl

/-- C14, counterexample: for the string 30 rooted in scope 7,
`napi_create_reference(v, 0)` and `napi_get_reference_value` both return
`NAPIOK`, but the reference (address 100) stores `undefined` and the read
yields `NULL`, not the string. -/
theorem createThenGet_primitive_yields_null :
    (createThenGet stringWorld (NAPIValue.handleValue 9)).map
        (fun r => (r.1, r.2.1, r.2.2.1, r.2.2.2.1, r.2.2.2.2.refs)) =
      some (NAPIStatus.NAPIOK, NAPIStatus.NAPIOK, some 100, some NAPIValue.NULL,
        [(100, { value := JSValue.undefined, referenceCount := 0 })]) := by
  rfl

/-- C13: for the string 30 rooted in scope 7, `napi_create_reference(v, 1)`
and one `napi_reference_unref` both return `NAPIOK` (count 0), and over the
two calls the string receives no duplicate and one release. -/
theorem createThenUnref_string_unbalanced :
    (createThenUnref stringWorld (NAPIValue.handleValue 9) 1).map
        (fun r => (r.1, r.2.1, r.2.2.1, r.2.2.2.log,
          duplicates r.2.2.2.log (JSValue.string 30), releases r.2.2.2.log (JSValue.string 30))) =
      some (NAPIStatus.NAPIOK, NAPIStatus.NAPIOK, some 0,
        [JSEvent.free (JSValue.string 30)], 0, 1) := by
  rfl

/-- C15: on the strong reference 50 with count 255, `napi_reference_ref`
returns `NAPIOK` with count 0 and stores the count 0, while the reference
still holds the object and is in no registry; a second `napi_reference_ref`
then fails with `NAPIGenericFailure` (the branch of `clearWeak` that the
code marks `assert(false)`) and writes no count. -/
theorem refTwice_wraps_to_zero :
    (refTwice fullWorld 50).map
        (fun r => (r.1, r.2.1, r.2.2.1, r.2.2.2.1, r.2.2.2.2.1.refs, r.2.2.2.2.1.referenceInfos,
          r.2.2.2.2.1.log)) =
      some (NAPIStatus.NAPIOK, some 0, NAPIStatus.NAPIGenericFailure, some 7,
        [(50, { value := JSValue.object 40, referenceCount := 0 })], [], []) := by
  rfl

/-- C16: `napi_create_external(77, f, 88)` with the user finalizer number 3
succeeds in scope 7 (external 101, `ExternalInfo` 100 carrying `f`); after
the close of the scope and the engine's collection of the external, which
runs `externalFinalizer`, no finalize callback has been called and the
`ExternalInfo` is still allocated. -/
theorem externalLifecycle_finalizer_not_invoked :
    (externalLifecycle objWorld 77 (NAPIFinalize.user 3) 88 7 101).map
        (fun r => (r.1, r.2.1, r.2.2.1.externalInfos, r.2.2.1.objects.lookup 101,
          r.2.2.2.finalized, r.2.2.2.externalInfos, r.2.2.2.objects.lookup 101)) =
      some (NAPIStatus.NAPIOK, NAPIStatus.NAPIOK,
        [(100, { env := 1, data := 77, finalizeHint := 88, finalizeCallback := NAPIFinalize.user 3 })],
        some { class_id := 58, opaquePtr := 100, props := [] },
        [],
        [(100, { env := 1, data := 77, finalizeHint := 88, finalizeCallback := NAPIFinalize.user 3 })],
        none) := by
  rfl

theorem napi_get_value_external_spec_witness :
    napi_get_value_external
        (napi_create_external objWorld 77 (NAPIFinalize.user 3) 88 (some NAPIValue.NULL)).2.2
        (NAPIValue.handleValue 102) (some 5) =
      some (NAPIStatus.NAPIOK, some 77,
        (napi_create_external objWorld 77 (NAPIFinalize.user 3) 88 (some NAPIValue.NULL)).2.2) ∧
    napi_get_value_external objWorld (NAPIValue.handleValue 9) (some 5) =
      some (NAPIStatus.NAPIOK, some 0, objWorld) :=
  ⟨(napi_get_value_external_spec objWorld).1 77 88 (NAPIFinalize.user 3) NAPIValue.NULL
      (some (NAPIValue.handleValue 102))
      (napi_create_external objWorld 77 (NAPIFinalize.user 3) 88 (some NAPIValue.NULL)).2.2 5 rfl,
   (napi_get_value_external_spec objWorld).2 (NAPIValue.handleValue 9) (JSValue.object 40) 5 rfl
      (Or.inr ⟨40, { class_id := 1, opaquePtr := 0, props := [] }, rfl, rfl, by decide⟩)⟩

/-- C19: a host function invoked through `callAsFunction` on the stack
"scope 7": for a callback that returns a valid value and leaves no
exception, and for one that throws, the scope stack after the invocation is
not the stack before it: the scope 100, opened by the first of the two
calls of `napi_open_handle_scope`, is still open on top of it. -/
theorem callAsFunction_leaves_scope_open :
    (callAsFunction (fun _ => returnUndefined) funcWorld JSValue.undefined [] (JSValue.object 45)).map
        (fun r => (r.1, r.2.handleScopeList)) =
      some (JSValue.undefined, ⟨100, [], none⟩ :: funcWorld.handleScopeList) ∧
    (callAsFunction (fun _ => throwFive) funcWorld JSValue.undefined [] (JSValue.object 45)).map
        (fun r => (r.1, r.2.exception, r.2.handleScopeList)) =
      some (JSValue.exception, JSValue.int 5, ⟨100, [], none⟩ :: funcWorld.handleScopeList) := by
  constructor <;> rfl

/-- C20: with no exception pending and whatever the engine's call would do,
`napi_call_function(env, NULL, func, 0, NULL, NULL)` on the function rooted
by handle 9 returns `NAPIInvalidArg` and changes nothing. -/
theorem napi_call_function_null_this
    (JS_Call : World → JSValue → JSValue → List JSValue → Option (JSValue × World)) :
    napi_call_function JS_Call funcWorld NAPIValue.NULL (NAPIValue.handleValue 9) 0 none none =
      some (NAPIStatus.NAPIInvalidArg, none, funcWorld) := by
  rfl

theorem setWeak_new_handle (w : World) (top : OpaqueNAPIHandleScope)
    (rest : List OpaqueNAPIHandleScope) (h : Ptr) (ref : NAPIRef) (p : Ptr) (o : JSObject)
    (hctx : w.context ≠ 0) (hexc : w.exception = JSValue.null) (hm : w.mallocPlan = [])
    (he : w.enginePlan = []) (hstack : w.handleScopeList = top :: rest)
    (href : ref ≠ 0) (hh : h < w.brk)
    (hvalue : load w (NAPIValue.handleValue h) = some (JSValue.object p))
    (ho : w.objects.lookup p = some o) (hprop : o.props.lookup referenceString = none)
    (hobjs : below w.objects w.brk) (hexts : below w.externalInfos w.brk)
    (hinfos : below w.referenceInfos w.brk) :
    setWeak w (NAPIValue.handleValue h) ref =
      some (NAPIStatus.NAPIOK,
        { w with
            brk := w.brk + 7
            strings := (w.brk, referenceString) :: w.strings
            handleScopeList :=
              { top with
                  handleList :=
                    ⟨w.brk + 6, JSValue.object (w.brk + 5)⟩ :: ⟨w.brk + 2, JSValue.undefined⟩ ::
                      ⟨w.brk + 1, JSValue.string w.brk⟩ :: top.handleList } :: rest
            referenceInfos := (w.brk + 3, { referenceList := [ref] }) :: w.referenceInfos
            externalInfos :=
              (w.brk + 4, { env := w.env, data := w.brk + 3, finalizeHint := 0,
                            finalizeCallback := NAPIFinalize.referenceFinalize }) :: w.externalInfos
            objects :=
              (w.brk + 5, { class_id := w.externalClassId, opaquePtr := w.brk + 4, props := [] }) ::
                updateAt w.objects p
                  (fun o => { o with props := o.props ++ [(referenceString, JSValue.object (w.brk + 5))] })
            log := w.log ++ [JSEvent.dup (JSValue.object (w.brk + 5))] }) := by
  have hp : p < w.brk := lookup_lt w.objects w.brk p o hobjs ho
  have hp5 : p ≠ w.brk + 5 := by unfold Ptr at *; omega
  have hp5c : ¬ w.brk + 1 + 1 + 1 + 1 + 1 = p := by unfold Ptr at *; omega
  have hp5b : (p == w.brk + 5) = false := by simpa using hp5
  have hh1 : ¬ w.brk + 1 = h := by unfold Ptr at *; omega
  have hh2 : ¬ w.brk + 1 + 1 = h := by unfold Ptr at *; omega
  have hh6 : ¬ w.brk + 1 + 1 + 1 + 1 + 1 + 1 = h := by unfold Ptr at *; omega
  have h1 := updateAt_below w.externalInfos w.brk (w.brk + 4)
    (fun info => { info with finalizeCallback := NAPIFinalize.referenceFinalize }) hexts (by omega)
  have h2 := updateAt_below w.objects w.brk (w.brk + 5)
    (fun o => { o with opaquePtr := w.brk + 4 }) hobjs (by omega)
  have h3 := updateAt_below w.referenceInfos w.brk (w.brk + 3)
    (fun info => { referenceList := ref :: info.referenceList }) hinfos (by omega)
  simp only [load, hstack, findHandle] at hvalue
  simp [setWeak, href, napi_create_string_utf8, napi_get_property, napi_typeof, setWeakCreate,
    napi_create_external, napi_get_value_external, napi_set_property,
    NAPI_PREAMBLE, JS_GetException, JS_IsNull, hctx, hexc,
    JS_NewStringLen, engineFails, he, JS_IsException, addValueToHandleScope, hstack, malloc, hm,
    load, findHandle, hvalue, JS_ValueToAtom, JS_GetProperty, ho, hprop, JS_IsUndefined,
    JS_NewObjectClass, JS_SetOpaque, updateAt_cons, JS_GetOpaque, JS_SetProperty, JS_DupValue,
    JS_VALUE_HAS_REF_COUNT, List.lookup, hp5b, hp5, hp5c, h1, h2, h3, hh1, hh2, hh6, List.find?_cons]

theorem eraseAt_below {α : Type} (m : List (Nat × α)) (n k : Nat) (h : below m n) (hk : n ≤ k) :
    eraseAt m k = m := by
  unfold eraseAt
  apply List.filter_eq_self.mpr
  intro e he
  have := h e he
  have hne : e.1 ≠ k := by omega
  simpa using hne

theorem eraseAt_cons_self {α : Type} (m : List (Nat × α)) (k : Nat) (x : α) :
    eraseAt ((k, x) :: m) k = eraseAt m k := by
  simp [eraseAt]

theorem create_weak_noscope (w : World) (value : NAPIValue) (p : Ptr) (old : NAPIRef)
    (hctx : w.context ≠ 0) (hexc : w.exception = JSValue.null) (hm : w.mallocPlan = [])
    (he : w.enginePlan = []) (hstack : w.handleScopeList = []) (hbrk : w.brk ≠ 0)
    (hvalue : load w value = some (JSValue.object p)) (hrefs : below w.refs w.brk) :
    napi_create_reference w value 0 (some old) =
      some (NAPIStatus.NAPIHandleScopeMismatch, some w.brk,
        { w with
            brk := w.brk + 1 + 1
            strings := (w.brk + 1, referenceString) :: w.strings
            log := w.log ++ [JSEvent.free (JSValue.string (w.brk + 1))] }) := by
  have hn : value ≠ NAPIValue.NULL := by rintro rfl; simp [load] at hvalue
  have he1 := eraseAt_below w.refs w.brk w.brk hrefs (le_refl _)
  cases value <;> simp only [load] at hvalue <;>
    simp [napi_create_reference, hctx, malloc, hm, hbrk, load, hvalue, JS_IsObject, setWeak,
      napi_create_string_utf8, NAPI_PREAMBLE, JS_GetException, JS_IsNull, hexc, JS_NewStringLen,
      engineFails, he, JS_IsException, addValueToHandleScope, hstack, JS_FreeValue,
      JS_VALUE_HAS_REF_COUNT, eraseAt_cons_self, he1, findHandle]
  all_goals (first | cases hvalue | simp [hstack, findHandle] at hvalue)

theorem create_weak (w : World) (top : OpaqueNAPIHandleScope)
    (rest : List OpaqueNAPIHandleScope) (value : NAPIValue) (p : Ptr) (o : JSObject)
    (old : NAPIRef)
    (hctx : w.context ≠ 0) (hexc : w.exception = JSValue.null) (hm : w.mallocPlan = [])
    (he : w.enginePlan = []) (hstack : w.handleScopeList = top :: rest)
    (hvalue : load w value = some (JSValue.object p))
    (hbelow : ∀ h, value = NAPIValue.handleValue h → h < w.brk)
    (ho : w.objects.lookup p = some o) (hprop : o.props.lookup referenceString = none)
    (hfresh : Fresh w) :
    napi_create_reference w value 0 (some old) =
      some (NAPIStatus.NAPIOK, some w.brk,
        { w with
            brk := w.brk + 1 + 7
            refs := (w.brk, { value := JSValue.object p, referenceCount := 0 }) :: w.refs
            strings := (w.brk + 1, referenceString) :: w.strings
            handleScopeList :=
              { top with
                  handleList :=
                    ⟨w.brk + 1 + 6, JSValue.object (w.brk + 1 + 5)⟩ ::
                      ⟨w.brk + 1 + 2, JSValue.undefined⟩ ::
                      ⟨w.brk + 1 + 1, JSValue.string (w.brk + 1)⟩ :: top.handleList } :: rest
            referenceInfos := (w.brk + 1 + 3, { referenceList := [w.brk] }) :: w.referenceInfos
            externalInfos :=
              (w.brk + 1 + 4,
                { env := w.env, data := w.brk + 1 + 3, finalizeHint := 0,
                  finalizeCallback := NAPIFinalize.referenceFinalize }) :: w.externalInfos
            objects :=
              (w.brk + 1 + 5,
                { class_id := w.externalClassId, opaquePtr := w.brk + 1 + 4, props := [] }) ::
                updateAt w.objects p
                  (fun o =>
                    { o with
                        props := o.props ++ [(referenceString, JSValue.object (w.brk + 1 + 5))] })
            log := w.log ++ [JSEvent.dup (JSValue.object (w.brk + 1 + 5))] }) := by
  obtain ⟨hobjs, hexts, hinfos, hrefs, _⟩ := hfresh
  have hp : p < w.brk := lookup_lt w.objects w.brk p o hobjs ho
  have hbrk : w.brk ≠ 0 := by unfold Ptr at *; omega
  let W1 : World :=
    { w with
        brk := w.brk + 1
        refs := (w.brk, { value := JSValue.object p, referenceCount := 0 }) :: w.refs }
  have hsw : setWeak W1 value w.brk = some (NAPIStatus.NAPIOK,
      { W1 with
          brk := W1.brk + 7
          strings := (W1.brk, referenceString) :: W1.strings
          handleScopeList :=
            { top with
                handleList :=
                  ⟨W1.brk + 6, JSValue.object (W1.brk + 5)⟩ :: ⟨W1.brk + 2, JSValue.undefined⟩ ::
                    ⟨W1.brk + 1, JSValue.string W1.brk⟩ :: top.handleList } :: rest
          referenceInfos := (W1.brk + 3, { referenceList := [w.brk] }) :: W1.referenceInfos
          externalInfos :=
            (W1.brk + 4,
              { env := W1.env, data := W1.brk + 3, finalizeHint := 0,
                finalizeCallback := NAPIFinalize.referenceFinalize }) :: W1.externalInfos
          objects :=
            (W1.brk + 5, { class_id := W1.externalClassId, opaquePtr := W1.brk + 4, props := [] }) ::
              updateAt W1.objects p
                (fun o =>
                  { o with props := o.props ++ [(referenceString, JSValue.object (W1.brk + 5))] })
          log := W1.log ++ [JSEvent.dup (JSValue.object (W1.brk + 5))] }) := by
    cases value with
    | NULL => simp [load] at hvalue
    | undefinedValue => simp [load] at hvalue
    | nullValue => simp [load] at hvalue
    | handleValue h =>
      have hh : h < w.brk := hbelow h rfl
      exact setWeak_new_handle W1 top rest h w.brk p o hctx hexc hm he hstack hbrk
        (Nat.lt_succ_of_lt hh) hvalue ho hprop (below_mono _ _ _ hobjs (Nat.le_succ _))
        (below_mono _ _ _ hexts (Nat.le_succ _)) (below_mono _ _ _ hinfos (Nat.le_succ _))
    | refValue r =>
      simp only [load] at hvalue
      cases hr : w.refs.lookup r with
      | none => simp [hr] at hvalue
      | some x =>
        obtain ⟨xv, xc⟩ := x
        simp only [hr, Option.map_some', Option.some.injEq] at hvalue
        subst hvalue
        have hrlt : r < w.brk := lookup_lt w.refs w.brk r _ hrefs hr
        have hrne : r ≠ w.brk := by unfold NAPIRef Ptr at *; omega
        have hl : W1.refs.lookup r = some ⟨JSValue.object p, xc⟩ := by
          show List.lookup r ((w.brk, _) :: w.refs) = _
          rw [lookup_cons_ne _ _ _ _ hrne, hr]
        exact setWeak_new W1 top rest r w.brk xc p o hctx hexc hm he hstack hbrk hl ho hprop
          (below_mono _ _ _ hobjs (Nat.le_succ _)) (below_mono _ _ _ hexts (Nat.le_succ _))
          (below_mono _ _ _ hinfos (Nat.le_succ _))
  have hn : value ≠ NAPIValue.NULL := by rintro rfl; simp [load] at hvalue
  have hl1 : load { w with brk := w.brk + 1 } value = some (JSValue.object p) := by
    cases value <;> simp only [load] at hvalue ⊢ <;> exact hvalue
  have hmal : malloc w = (w.brk, { w with brk := w.brk + 1 }) := by simp [malloc, hm]
  unfold napi_create_reference
  simp only [hn, if_false, hctx, hmal, hbrk, hl1, JS_IsObject]
  simp only [Bool.not_true, Bool.false_and, Bool.false_eq_true, if_false, ne_eq,
    not_true_eq_false]
  have hW1 :
      ({ w with
          brk := w.brk + 1
          refs := (w.brk, { value := JSValue.object p, referenceCount := 0 % 256 }) :: w.refs } :
        World) = W1 := rfl
  rw [hW1, hsw]
  rfl

theorem clearWeak_shared (w : World) (top : OpaqueNAPIHandleScope)
    (rest : List OpaqueNAPIHandleScope) (ref : NAPIRef) (c : Nat) (p q x : Ptr) (o e : JSObject)
    (info : ExternalInfo) (l : List NAPIRef)
    (hctx : w.context ≠ 0) (hexc : w.exception = JSValue.null) (hm : w.mallocPlan = [])
    (he : w.enginePlan = []) (hstack : w.handleScopeList = top :: rest)
    (href : ref ≠ 0)
    (hvalue : w.refs.lookup ref = some ⟨JSValue.object p, c⟩)
    (ho : w.objects.lookup p = some o)
    (hprop : o.props.lookup referenceString = some (JSValue.object q))
    (hq : w.objects.lookup q = some e) (hclass : e.class_id = w.externalClassId)
    (hx : e.opaquePtr = x) (hx0 : x ≠ 0) (hinfo : w.externalInfos.lookup x = some info)
    (hd0 : info.data ≠ 0)
    (hlist : w.referenceInfos.lookup info.data = some { referenceList := l })
    (hmem : ref ∈ l) (hshared : l ≠ [ref]) :
    clearWeak w ref =
      some (NAPIStatus.NAPIOK,
        { w with
            brk := w.brk + 3
            strings := (w.brk, referenceString) :: w.strings
            handleScopeList :=
              { top with
                  handleList :=
                    ⟨w.brk + 2, JSValue.object q⟩ :: ⟨w.brk + 1, JSValue.string w.brk⟩ ::
                      top.handleList } :: rest
            referenceInfos :=
              w.referenceInfos.map
                (fun e => (e.1, { referenceList := e.2.referenceList.erase ref }))
            log := w.log ++ [JSEvent.dup (JSValue.object q)] }) := by
  have hmem1 := mem_of_lookup _ _ _ hlist
  have hany : ∃ a b, (a, b) ∈ w.referenceInfos ∧ ref ∈ b.referenceList :=
    ⟨_, _, hmem1, hmem⟩
  simp [clearWeak, href, napi_create_string_utf8, napi_get_property, napi_get_value_external,
    LIST_REMOVE,
    NAPI_PREAMBLE, JS_GetException, JS_IsNull, hctx, hexc,
    JS_NewStringLen, engineFails, he, JS_IsException, addValueToHandleScope, hstack, malloc, hm,
    load, findHandle, hvalue, JS_ValueToAtom, JS_GetProperty, ho, hprop,
    JS_GetOpaque, hq, hclass, hx, hx0, hinfo, hd0, hlist, JS_DupValue,
    JS_VALUE_HAS_REF_COUNT, List.lookup, hany, hshared]

theorem lookup_map_snd {α : Type} (m : List (Nat × α)) (k : Nat) (f : α → α) :
    (m.map (fun e => (e.1, f e.2))).lookup k = (m.lookup k).map f := by
  induction m with
  | nil => rfl
  | cons e t ih =>
    obtain ⟨a, b⟩ := e
    by_cases hk : k = a
    · subst hk
      simp [List.lookup]
    · have hb : (k == a) = false := by simpa using hk
      simp [List.lookup, hb, ih]

theorem delete_of_clearWeak (w w2 : World) (ref : NAPIRef) (p : Ptr)
    (href : ref ≠ 0) (hctx : w.context ≠ 0)
    (hvalue : w.refs.lookup ref = some ⟨JSValue.object p, 0⟩)
    (hc : clearWeak w ref = some (NAPIStatus.NAPIOK, w2)) :
    napi_delete_reference w ref =
      some (NAPIStatus.NAPIOK, { w2 with refs := eraseAt w2.refs ref }) := by
  simp [napi_delete_reference, href, hctx, hvalue, JS_IsObject, JS_IsUndefined, hc]

/-- C11 (amended): with a handle scope open, no exception pending and no
allocation failing, for a live object whose hidden slot holds the external
of a registry with the list `l`, and a weak reference `ref` of that list:
`napi_delete_reference` returns `NAPIOK`, frees the reference, and leaves
the registry list equal to `l` without `ref`; when `l` has at least two
entries the hidden slot stays on the object, and when `ref` was the only
entry the hidden slot is removed from the object. -/
theorem napi_delete_reference_weak (w : World) (top : OpaqueNAPIHandleScope)
    (rest : List OpaqueNAPIHandleScope) (ref : NAPIRef) (p q x : Ptr) (o e : JSObject)
    (info : ExternalInfo) (l : List NAPIRef)
    (hctx : w.context ≠ 0) (hexc : w.exception = JSValue.null) (hm : w.mallocPlan = [])
    (he : w.enginePlan = []) (hstack : w.handleScopeList = top :: rest)
    (href : ref ≠ 0)
    (hvalue : w.refs.lookup ref = some ⟨JSValue.object p, 0⟩)
    (ho : w.objects.lookup p = some o)
    (hprop : o.props.lookup referenceString = some (JSValue.object q))
    (hq : w.objects.lookup q = some e) (hclass : e.class_id = w.externalClassId)
    (hx : e.opaquePtr = x) (hx0 : x ≠ 0) (hinfo : w.externalInfos.lookup x = some info)
    (hd0 : info.data ≠ 0)
    (hlist : w.referenceInfos.lookup info.data = some { referenceList := l })
    (hmem : ref ∈ l) :
    ∃ w1, napi_delete_reference w ref = some (NAPIStatus.NAPIOK, w1) ∧
      w1.referenceInfos.lookup info.data = some { referenceList := l.erase ref } ∧
      w1.refs = eraseAt w.refs ref ∧
      (2 ≤ l.length →
        (w1.objects.lookup p).map (fun o => o.props.lookup referenceString) =
          some (some (JSValue.object q))) ∧
      (l = [ref] →
        (w1.objects.lookup p).map (fun o => o.props.lookup referenceString) = some none) := by
  have hmap : (w.referenceInfos.map
      (fun e => (e.1, ({ referenceList := e.2.referenceList.erase ref } : ReferenceInfo)))).lookup
        info.data = some { referenceList := l.erase ref } := by
    rw [lookup_map_snd w.referenceInfos info.data
      (fun i => ({ referenceList := i.referenceList.erase ref } : ReferenceInfo)), hlist]
    rfl
  by_cases hl : l = [ref]
  · subst hl
    have hc := clearWeak_single w top rest ref 0 p q x o e info hctx hexc hm he hstack href hvalue
      ho hprop hq hclass hx hx0 hinfo hd0 hlist
    refine ⟨_, delete_of_clearWeak w _ ref p href hctx hvalue hc, ?_, ?_, ?_, ?_⟩
    · exact hmap
    · rfl
    · intro h2; simp at h2
    · intro _
      have hlk : List.lookup p (updateAt w.objects p
          (fun o => { o with props := o.props.filter (fun e => e.1 ≠ referenceString) })) =
          (w.objects.lookup p).map
            (fun o => { o with props := o.props.filter (fun e => e.1 ≠ referenceString) }) :=
        lookup_updateAt_self w.objects p _
      show Option.map _ (List.lookup p (updateAt w.objects p
          (fun o => { o with props := o.props.filter (fun e => e.1 ≠ referenceString) }))) = _
      rw [hlk, ho]
      exact congrArg some (lookup_filter_self _ _)
  · have hc := clearWeak_shared w top rest ref 0 p q x o e info l hctx hexc hm he hstack href
      hvalue ho hprop hq hclass hx hx0 hinfo hd0 hlist hmem hl
    refine ⟨_, delete_of_clearWeak w _ ref p href hctx hvalue hc, ?_, ?_, ?_, ?_⟩
    · exact hmap
    · rfl
    · intro _
      show Option.map _ (List.lookup p w.objects) = _
      rw [ho]
      exact congrArg some hprop
    · intro h; exact absurd h hl

/-- C11, counterexample: the object 40 is watched by the two weak references
51 and 50, and no handle scope is open: `napi_delete_reference` on 51
returns `NAPIHandleScopeMismatch`, and the reference and the registry list
are as before. -/
theorem napi_delete_reference_weak_no_scope :
    (napi_delete_reference twoWeakNoScope 51).map
        (fun r => (r.1, r.2.refs, r.2.referenceInfos)) =
      some (NAPIStatus.NAPIHandleScopeMismatch, twoWeakNoScope.refs,
        [(62, { referenceList := [51, 50] })]) := by
  rfl

theorem napi_delete_reference_weak_witness :
    ∃ w1, napi_delete_reference twoWeak 51 = some (NAPIStatus.NAPIOK, w1) ∧
      w1.referenceInfos.lookup 62 = some { referenceList := [51, 50].erase 51 } ∧
      w1.refs = eraseAt twoWeak.refs 51 ∧
      (2 ≤ [51, 50].length →
        (w1.objects.lookup 40).map (fun o => o.props.lookup referenceString) =
          some (some (JSValue.object 60))) ∧
      ([51, 50] = [51] →
        (w1.objects.lookup 40).map (fun o => o.props.lookup referenceString) = some none) :=
  napi_delete_reference_weak twoWeak ⟨7, [⟨9, JSValue.object 40⟩], none⟩ [] 51 40 60 61
    { class_id := 1, opaquePtr := 0, props := [("__reference__", JSValue.object 60)] }
    { class_id := 58, opaquePtr := 61, props := [] }
    { env := 1, data := 62, finalizeHint := 0, finalizeCallback := NAPIFinalize.referenceFinalize }
    [51, 50] (by decide) rfl rfl rfl rfl (by decide) rfl rfl rfl rfl rfl rfl (by decide) rfl
    (by decide) rfl (by decide)

/-- C12 (amended): `napi_create_reference(obj, 0)` for a live object without
a hidden registry slot (no exception pending, no allocation failing, fresh
addresses) depends on the scope stack and modifies it.  With no handle scope
open it returns `NAPIHandleScopeMismatch` and leaves no reference, registry
or slot behind (only the key string was created and released).  With a scope
open it returns `NAPIOK`, and the topmost scope has three more handles: the
key string, the `undefined` read from the slot, and the new external; the
scopes below are unchanged. -/
theorem napi_create_reference_weak_scope (w : World) (value : NAPIValue) (p : Ptr)
    (o : JSObject) (old : NAPIRef)
    (hctx : w.context ≠ 0) (hexc : w.exception = JSValue.null) (hm : w.mallocPlan = [])
    (he : w.enginePlan = [])
    (hvalue : load w value = some (JSValue.object p))
    (hbelow : ∀ h, value = NAPIValue.handleValue h → h < w.brk)
    (ho : w.objects.lookup p = some o) (hprop : o.props.lookup referenceString = none)
    (hfresh : Fresh w) :
    (w.handleScopeList = [] →
      napi_create_reference w value 0 (some old) =
        some (NAPIStatus.NAPIHandleScopeMismatch, some w.brk,
          { w with
              brk := w.brk + 1 + 1
              strings := (w.brk + 1, referenceString) :: w.strings
              log := w.log ++ [JSEvent.free (JSValue.string (w.brk + 1))] })) ∧
    (∀ top rest, w.handleScopeList = top :: rest →
      ∃ w1, napi_create_reference w value 0 (some old) = some (NAPIStatus.NAPIOK, some w.brk, w1) ∧
        w1.handleScopeList =
          { top with
              handleList :=
                ⟨w.brk + 1 + 6, JSValue.object (w.brk + 1 + 5)⟩ ::
                  ⟨w.brk + 1 + 2, JSValue.undefined⟩ ::
                  ⟨w.brk + 1 + 1, JSValue.string (w.brk + 1)⟩ :: top.handleList } :: rest ∧
        w1.refs = (w.brk, { value := JSValue.object p, referenceCount := 0 }) :: w.refs ∧
        w1.referenceInfos = (w.brk + 1 + 3, { referenceList := [w.brk] }) :: w.referenceInfos) := by
  have hp : p < w.brk := lookup_lt w.objects w.brk p o hfresh.1 ho
  have hbrk : w.brk ≠ 0 := by unfold Ptr at *; omega
  refine ⟨?_, ?_⟩
  · intro hstack
    exact create_weak_noscope w value p old hctx hexc hm he hstack hbrk hvalue hfresh.2.2.2.1
  · intro top rest hstack
    exact ⟨_, create_weak w top rest value p o old hctx hexc hm he hstack hvalue hbelow ho hprop
      hfresh, rfl, rfl, rfl⟩

theorem napi_create_reference_weak_scope_witness :
    napi_create_reference strongNoScope (NAPIValue.refValue 50) 0 (some 0) =
        some (NAPIStatus.NAPIHandleScopeMismatch, some strongNoScope.brk,
          { strongNoScope with
              brk := strongNoScope.brk + 1 + 1
              strings := (strongNoScope.brk + 1, referenceString) :: strongNoScope.strings
              log := strongNoScope.log ++ [JSEvent.free (JSValue.string (strongNoScope.brk + 1))] }) ∧
    ∃ w1, napi_create_reference objWorld (NAPIValue.handleValue 9) 0 (some 0) =
        some (NAPIStatus.NAPIOK, some objWorld.brk, w1) ∧
      w1.handleScopeList =
        { (⟨7, [⟨9, JSValue.object 40⟩], none⟩ : OpaqueNAPIHandleScope) with
            handleList :=
              ⟨objWorld.brk + 1 + 6, JSValue.object (objWorld.brk + 1 + 5)⟩ ::
                ⟨objWorld.brk + 1 + 2, JSValue.undefined⟩ ::
                ⟨objWorld.brk + 1 + 1, JSValue.string (objWorld.brk + 1)⟩ ::
                [⟨9, JSValue.object 40⟩] } :: [] ∧
      w1.refs = (objWorld.brk, { value := JSValue.object 40, referenceCount := 0 }) :: objWorld.refs ∧
      w1.referenceInfos =
        (objWorld.brk + 1 + 3, { referenceList := [objWorld.brk] }) :: objWorld.referenceInfos :=
  ⟨(napi_create_reference_weak_scope strongNoScope (NAPIValue.refValue 50) 40 ⟨1, 0, []⟩ 0
      (by decide) rfl rfl rfl rfl (by intro h hh; cases hh) rfl rfl
      (by simp [Fresh, below, strongNoScope, refsWorld, objWorld, freshWorld])).1 rfl,
   (napi_create_reference_weak_scope objWorld (NAPIValue.handleValue 9) 40 ⟨1, 0, []⟩ 0
      (by decide) rfl rfl rfl rfl
      (by intro h hh; cases hh; decide) rfl rfl
      (by simp [Fresh, below, objWorld, freshWorld])).2
      ⟨7, [⟨9, JSValue.object 40⟩], none⟩ [] rfl⟩

/-- C12, counterexample: with no handle scope open (the object 40 is kept by
the strong reference 50, whose value is passed),
`napi_create_reference(obj, 0)` returns `NAPIHandleScopeMismatch`; and in
the world where scope 7 is open it returns `NAPIOK` and the list of scope 7
grows from one handle to four. -/
theorem napi_create_reference_weak_uses_scope :
    (napi_create_reference strongNoScope (NAPIValue.refValue 50) 0 (some 0)).map
        (fun r => (r.1, r.2.2.refs)) =
      some (NAPIStatus.NAPIHandleScopeMismatch, strongNoScope.refs) ∧
    (napi_create_reference objWorld (NAPIValue.handleValue 9) 0 (some 0)).map
        (fun r => (r.1, r.2.2.handleScopeList)) =
      some (NAPIStatus.NAPIOK,
        [⟨7, [⟨107, JSValue.object 106⟩, ⟨103, JSValue.undefined⟩, ⟨102, JSValue.string 101⟩,
              ⟨9, JSValue.object 40⟩], none⟩]) := by
  constructor <;> rfl

theorem napi_open_handle_scope_ok (w : World) (old : NAPIHandleScope) (hm : w.mallocPlan = [])
    (hbrk : w.brk ≠ 0) :
    napi_open_handle_scope w (some old) =
      (NAPIStatus.NAPIOK, some w.brk,
        { w with
            brk := w.brk + 1
            handleScopeList :=
              { addr := w.brk, handleList := [], escapeCalled := none } :: w.handleScopeList }) := by
  simp [napi_open_handle_scope, malloc, hm, hbrk]

/-- C21: for every host callback that returns a `NULL` `NAPIValue` (the
function's `FunctionInfo` is live and belongs to this environment, and the
two scope allocations succeed), `callAsFunction` reads `*((JSValue *)NULL)`:
the invocation is undefined behaviour, not a call that evaluates to
`undefined`. -/
theorem callAsFunction_null_result (callbacks : Nat → NAPICallback) (w : World)
    (thisVal : JSValue) (argv : List JSValue) (funcData : JSValue) (functionInfo : Ptr)
    (info : FunctionInfo)
    (hop : JS_GetOpaque w funcData w.functionClassId = some functionInfo)
    (hf : functionInfo ≠ 0) (hinfo : w.functionInfos.lookup functionInfo = some info)
    (hcb : info.callback ≠ 0) (henv0 : info.env ≠ 0) (henv : info.env = w.env)
    (hm : w.mallocPlan = []) (hbrk : w.brk ≠ 0)
    (hnull : ∀ w1 i, ∃ w2, callbacks info.callback w1 i = some (NAPIValue.NULL, w2)) :
    callAsFunction callbacks w thisVal argv funcData = none := by
  have h1 := napi_open_handle_scope_ok w 0 hm hbrk
  have h2 := napi_open_handle_scope_ok
    { w with
        brk := w.brk + 1
        handleScopeList :=
          { addr := w.brk, handleList := [], escapeCalled := none } :: w.handleScopeList }
    w.brk hm (Nat.succ_ne_zero _)
  unfold callAsFunction
  rw [hop]
  simp only [hf, hinfo, hcb, henv0, if_false, or_self, ne_eq, not_true_eq_false, henv, h1, h2]
  obtain ⟨w2, hw2⟩ := hnull _ _
  rw [hw2]
  have henv1 : w.env ≠ 0 := henv ▸ henv0
  simp [load, henv1]

theorem callAsFunction_null_result_witness :
    callAsFunction (fun _ => returnNull) funcWorld JSValue.undefined [] (JSValue.object 45) = none :=
  callAsFunction_null_result (fun _ => returnNull) funcWorld JSValue.undefined []
    (JSValue.object 45) 46 { env := 1, data := 0, callback := 1 } rfl (by decide) rfl (by decide)
    (by decide) rfl rfl (by decide) (fun w1 _ => ⟨w1, rfl⟩)

theorem storeLoop_spec (f : Nat → CallbackValue) (n : Nat) :
    ∀ (i : Nat) (a : List CallbackValue), i + n ≤ a.length →
      ∃ a1, storeLoop f n i a = some a1 ∧ a1.length = a.length ∧
        ∀ j, a1.get? j = if i ≤ j ∧ j < i + n then some (f j) else a.get? j := by
  induction n with
  | zero =>
    intro i a _
    refine ⟨a, rfl, rfl, ?_⟩
    intro j
    have : ¬ (i ≤ j ∧ j < i) := by omega
    simp [this]
  | succ n ih =>
    intro i a h
    have hi : i < a.length := by omega
    obtain ⟨a1, h1, h2, h3⟩ := ih (i + 1) (a.set i (f i)) (by simp; omega)
    refine ⟨a1, ?_, ?_, ?_⟩
    · simp [storeLoop, hi, h1]
    · simpa using h2
    · intro j
      rw [h3 j]
      by_cases hj : j = i
      · subst hj
        have c1 : ¬ (j + 1 ≤ j ∧ j < j + 1 + n) := by omega
        have c2 : j ≤ j ∧ j < j + (n + 1) := by omega
        simp [c1, c2, List.getElem?_set, hi]
      · by_cases c : i ≤ j ∧ j < i + (n + 1)
        · have c1 : i + 1 ≤ j ∧ j < i + 1 + n := by omega
          simp [c, c1]
        · have c1 : ¬ (i + 1 ≤ j ∧ j < i + 1 + n) := by omega
          have hne : i ≠ j := fun e => hj e.symm
          simp [c, c1, List.getElem?_set, hne]

/-- C22: for a callback info carrying `n = callbackInfo->argc` arguments and
a call of `napi_get_cb_info` with a non-null `argv` array that has room for
the requested capacity `c = *argc`: the call returns `NAPIOK`; afterwards
`argv[i]` is the address of actual argument `i` (and reads as that
argument) for every `i < min c n`, `argv[i]` is the address of the
undefined value for every `min c n ≤ i < c`, every slot at an index `≥ c`
holds what it held before, the array has its length, and `*argc` is `n`. -/
theorem napi_get_cb_info_spec (w : World) (env : Ptr) (info : OpaqueNAPICallbackInfo) (c : Nat)
    (a : List CallbackValue) (thisArg : Option CallbackValue) (data : Option Ptr)
    (henv : env ≠ 0) (hcap : c ≤ a.length) :
    ∃ a1, napi_get_cb_info env (some info) (some c) (some a) thisArg data =
        some (NAPIStatus.NAPIOK, some info.argc, some a1,
          thisArg.map (fun _ => CallbackValue.thisArg), data.map (fun _ => info.data)) ∧
      a1.length = a.length ∧
      (∀ i, i < min c info.argc →
        a1.get? i = some (CallbackValue.argv i) ∧
          (a1.get? i).bind (loadCallbackValue w info) = info.argv.get? i) ∧
      (∀ i, min c info.argc ≤ i → i < c →
        a1.get? i = some (CallbackValue.value NAPIValue.undefinedValue) ∧
          (a1.get? i).bind (loadCallbackValue w info) = some JSValue.undefined) ∧
      (∀ i, c ≤ i → a1.get? i = a.get? i) := by
  have hmin : (if c > info.argc then info.argc else c) = min c info.argc := by
    split <;> omega
  obtain ⟨a1, h1, h2, h3⟩ := storeLoop_spec CallbackValue.argv (min c info.argc) 0 a (by omega)
  obtain ⟨a2, h4, h5, h6⟩ :=
    storeLoop_spec (fun _ => CallbackValue.value NAPIValue.undefinedValue) (c - min c info.argc)
      (min c info.argc) a1 (by omega)
  by_cases hlt : min c info.argc < c
  · refine ⟨a2, ?_, by omega, ?_, ?_, ?_⟩
    · simp [napi_get_cb_info, henv, hmin, h1, h4, hlt]
    · intro i hi
      have e : a2.get? i = some (CallbackValue.argv i) := by
        rw [h6 i, h3 i]
        have c1 : ¬ (min c info.argc ≤ i ∧ i < min c info.argc + (c - min c info.argc)) := by omega
        have c2 : 0 ≤ i ∧ i < 0 + min c info.argc := by omega
        simp only [c1, c2, if_false, if_true, and_self]
      rw [e]
      exact ⟨rfl, rfl⟩
    · intro i hi hic
      have e : a2.get? i = some (CallbackValue.value NAPIValue.undefinedValue) := by
        rw [h6 i]
        have c1 : min c info.argc ≤ i ∧ i < min c info.argc + (c - min c info.argc) := by omega
        simp only [c1, if_true, and_self]
      rw [e]
      exact ⟨rfl, rfl⟩
    · intro i hi
      rw [h6 i, h3 i]
      have c1 : ¬ (min c info.argc ≤ i ∧ i < min c info.argc + (c - min c info.argc)) := by omega
      have c2 : ¬ (0 ≤ i ∧ i < 0 + min c info.argc) := by omega
      simp only [c1, c2, if_false]
  · refine ⟨a1, ?_, h2, ?_, ?_, ?_⟩
    · simp [napi_get_cb_info, henv, hmin, h1, hlt]
    · intro i hi
      have e : a1.get? i = some (CallbackValue.argv i) := by
        rw [h3 i]
        have c2 : 0 ≤ i ∧ i < 0 + min c info.argc := by omega
        simp only [c2, if_true, and_self]
      rw [e]
      exact ⟨rfl, rfl⟩
    · intro i hi hic
      omega
    · intro i hi
      rw [h3 i]
      have c2 : ¬ (0 ≤ i ∧ i < 0 + min c info.argc) := by omega
      simp only [c2, if_false]

theorem napi_get_cb_info_spec_witness :
    ∃ a1, napi_get_cb_info 1 (some twoArgs) (some 3)
        (some [CallbackValue.value NAPIValue.NULL, CallbackValue.value NAPIValue.NULL,
          CallbackValue.value NAPIValue.NULL, CallbackValue.value NAPIValue.nullValue])
        none none =
        some (NAPIStatus.NAPIOK, some twoArgs.argc, some a1,
          (none : Option CallbackValue).map (fun _ => CallbackValue.thisArg),
          (none : Option Ptr).map (fun _ => twoArgs.data)) ∧
      a1.length =
        [CallbackValue.value NAPIValue.NULL, CallbackValue.value NAPIValue.NULL,
          CallbackValue.value NAPIValue.NULL, CallbackValue.value NAPIValue.nullValue].length ∧
      (∀ i, i < min 3 twoArgs.argc →
        a1.get? i = some (CallbackValue.argv i) ∧
          (a1.get? i).bind (loadCallbackValue freshWorld twoArgs) = twoArgs.argv.get? i) ∧
      (∀ i, min 3 twoArgs.argc ≤ i → i < 3 →
        a1.get? i = some (CallbackValue.value NAPIValue.undefinedValue) ∧
          (a1.get? i).bind (loadCallbackValue freshWorld twoArgs) = some JSValue.undefined) ∧
      (∀ i, 3 ≤ i → a1.get? i =
        [CallbackValue.value NAPIValue.NULL, CallbackValue.value NAPIValue.NULL,
          CallbackValue.value NAPIValue.NULL, CallbackValue.value NAPIValue.nullValue].get? i) :=
  napi_get_cb_info_spec freshWorld 1 twoArgs 3 _ none none (by decide) (by decide)

/-- C24: an escapable scope that has not escaped yet and has a scope below
it, a non-null `escapee`, an allocation of the new `Handle` that succeeds,
and a `result` variable that held `NULL` before the call:
`napi_escape_handle` returns `NAPIMemoryError`; nothing is escaped, and the
handle that was allocated is not linked anywhere. -/
theorem napi_escape_handle_null_result (w : World) (scope : NAPIEscapableHandleScope)
    (escapee : NAPIValue) (above : List OpaqueNAPIHandleScope) (s handleScope : OpaqueNAPIHandleScope)
    (rest : List OpaqueNAPIHandleScope)
    (hscope : scope ≠ 0) (hesc : escapee ≠ NAPIValue.NULL)
    (hsplit : splitScopes w.handleScopeList scope = some (above, s, handleScope :: rest))
    (hcalled : s.escapeCalled = some false) (hm : w.mallocPlan = []) (hbrk : w.brk ≠ 0) :
    (malloc w).1 = w.brk ∧ (malloc w).1 ≠ 0 ∧
      napi_escape_handle w scope escapee (some NAPIValue.NULL) =
        some (NAPIStatus.NAPIMemoryError, some NAPIValue.NULL, { w with brk := w.brk + 1 }) := by
  refine ⟨?_, ?_, ?_⟩
  · simp [malloc, hm]
  · simpa [malloc, hm] using hbrk
  · simp [napi_escape_handle, hscope, hesc, hsplit, hcalled, malloc, hm]

theorem napi_escape_handle_null_result_witness :
    (malloc escapableOverPlain).1 = escapableOverPlain.brk ∧ (malloc escapableOverPlain).1 ≠ 0 ∧
      napi_escape_handle escapableOverPlain 7 (NAPIValue.handleValue 9) (some NAPIValue.NULL) =
        some (NAPIStatus.NAPIMemoryError, some NAPIValue.NULL,
          { escapableOverPlain with brk := escapableOverPlain.brk + 1 }) :=
  napi_escape_handle_null_result escapableOverPlain 7 (NAPIValue.handleValue 9) []
    ⟨7, [⟨9, JSValue.object 40⟩], some false⟩ ⟨5, [], none⟩ [] (by decide) (by decide) rfl rfl
    rfl (by decide)

/-- C25: `napi_create_reference` on a live object with a 32-bit initial
count `n` that is not zero but a multiple of 256 (256, 512, ...) returns
`NAPIOK` and leaves a Reference whose stored count is 0 and whose stored
value is the live object, which occurs in no registry list (the registries
are as before, and the fresh address is in none of them) and holds one
duplicated engine value. -/
theorem napi_create_reference_truncates_count (w : World) (value : NAPIValue) (p : Ptr)
    (o : JSObject) (n : Nat) (old : NAPIRef)
    (hctx : w.context ≠ 0) (hm : w.mallocPlan = []) (hfresh : Fresh w)
    (hvalue : load w value = some (JSValue.object p)) (ho : w.objects.lookup p = some o)
    (hn : n ≠ 0) (_h32 : n < 2 ^ 32) (hmod : n % 256 = 0) :
    ∃ w1, napi_create_reference w value n (some old) = some (NAPIStatus.NAPIOK, some w.brk, w1) ∧
      w1.refs.lookup w.brk = some { value := JSValue.object p, referenceCount := 0 } ∧
      w1.objects.lookup p = some o ∧
      w1.referenceInfos = w.referenceInfos ∧
      (∀ e ∈ w1.referenceInfos, w.brk ∉ e.2.referenceList) ∧
      w1.log = w.log ++ [JSEvent.dup (JSValue.object p)] := by
  have hp : p < w.brk := lookup_lt w.objects w.brk p o hfresh.1 ho
  have hbrk : w.brk ≠ 0 := by unfold Ptr at *; omega
  refine ⟨{ w with
      brk := w.brk + 1
      refs := (w.brk, { value := JSValue.object p, referenceCount := 0 }) :: w.refs
      log := w.log ++ [JSEvent.dup (JSValue.object p)] }, ?_, ?_, ho, rfl, hfresh.2.2.2.2, rfl⟩
  · cases value <;> simp only [load] at hvalue <;>
      simp [napi_create_reference, hctx, malloc, hm, hbrk, load, hvalue, JS_IsObject, hn, hmod,
        JS_DupValue, JS_VALUE_HAS_REF_COUNT]
    all_goals cases hvalue
  · simp [List.lookup]

theorem napi_create_reference_truncates_count_witness :
    ∃ w1, napi_create_reference objWorld (NAPIValue.handleValue 9) 256 (some 0) =
        some (NAPIStatus.NAPIOK, some objWorld.brk, w1) ∧
      w1.refs.lookup objWorld.brk = some { value := JSValue.object 40, referenceCount := 0 } ∧
      w1.objects.lookup 40 = some { class_id := 1, opaquePtr := 0, props := [] } ∧
      w1.referenceInfos = objWorld.referenceInfos ∧
      (∀ e ∈ w1.referenceInfos, objWorld.brk ∉ e.2.referenceList) ∧
      w1.log = objWorld.log ++ [JSEvent.dup (JSValue.object 40)] :=
  napi_create_reference_truncates_count objWorld (NAPIValue.handleValue 9) 40
    { class_id := 1, opaquePtr := 0, props := [] } 256 0 (by decide) rfl
    (by simp [Fresh, below, objWorld, freshWorld]) rfl rfl (by decide) (by decide) (by decide)

/-- C26: with a context, no exception pending, a live runtime, no
allocation and no engine call failing, but no handle scope open, so that
rooting the constructor fails with `NAPIHandleScopeMismatch`:
`NAPIDefineClass` returns `NAPIOK` (the `int` 0 that `JS_NewClass` returned
and not the rooting status), `*result` still holds what it held before,
and the scope stack is still empty, so no handle holds the constructor. -/
theorem NAPIDefineClass_rooting_failure (w : World) (t : ClassTable) (utf8name : Option String)
    (constructor : Nat) (data : Ptr) (old : NAPIValue)
    (hctx : w.context ≠ 0) (hexc : w.exception = JSValue.null) (hcons : constructor ≠ 0)
    (hrt : t.runtime ≠ 0) (hm : w.mallocPlan = []) (hbrk : w.brk ≠ 0) (he : w.enginePlan = [])
    (hstack : w.handleScopeList = []) :
    ∃ w1 t1, NAPIDefineClass w t utf8name none constructor data (some old) =
        some (NAPIStatus.NAPIOK, some old, w1, t1) ∧
      w1.handleScopeList = [] := by
  simp [NAPIDefineClass, NAPI_PREAMBLE, hctx, hexc, JS_GetException, JS_IsNull, hcons, hrt, malloc,
    hm, hbrk, JS_NewClassID, JS_NewClass, engineFails, he, JS_NewObjectClass, JS_IsException,
    JS_SetOpaque, JS_NewCFunction2, addValueToHandleScope, hstack, NAPIStatus.ofInt, JS_FreeValue,
    JS_VALUE_HAS_REF_COUNT]

theorem NAPIDefineClass_rooting_failure_witness :
    ∃ w1 t1, NAPIDefineClass freshWorld freshClasses (some "Point") none 1 0
        (some NAPIValue.NULL) =
        some (NAPIStatus.NAPIOK, some NAPIValue.NULL, w1, t1) ∧
      w1.handleScopeList = [] :=
  NAPIDefineClass_rooting_failure freshWorld freshClasses (some "Point") 1 0 NAPIValue.NULL
    (by decide) rfl (by decide) (by decide) rfl (by decide) rfl rfl

theorem lookup_eraseAt_self {α : Type} (m : List (Nat × α)) (k : Nat) :
    (eraseAt m k).lookup k = none := by
  induction m with
  | nil => rfl
  | cons e t ih =>
    by_cases h : e.1 = k
    · simpa [eraseAt, List.filter, h] using ih
    · have h2 : (k == e.1) = false := by simpa using fun x => h x.symm
      simpa [eraseAt, List.filter, h, List.lookup, h2] using ih

/-- C23: the invariant holds and the shared runtime exists, so other
contexts are live (count above zero); `NAPICreateEnv` is called, `malloc`
succeeds and the engine fails to make the new context (`JS_NewContext`
returns `NULL`).  The call returns `NAPIMemoryError` after
`JS_FreeRuntime(runtime); runtime = NULL;`: the runtime is destroyed while
the count and the live contexts are what they were, so at this return the
runtime does not exist although the count is above zero. -/
theorem NAPICreateEnv_context_failure (p : Process) (old : Ptr) (rest : List Bool)
    (hinv : RuntimeInvariant p) (hexists : runtimeExists p) (hm : p.mallocPlan = [])
    (hbrk : p.brk ≠ 0) (he : p.enginePlan = false :: rest) :
    0 < p.contextCount ∧
      (NAPICreateEnv p (some old)).1 = NAPIStatus.NAPIMemoryError ∧
      (NAPICreateEnv p (some old)).2.2.runtime = 0 ∧
      (NAPICreateEnv p (some old)).2.2.runtimes.lookup p.runtime = none ∧
      (NAPICreateEnv p (some old)).2.2.contextCount = p.contextCount ∧
      (NAPICreateEnv p (some old)).2.2.contexts = p.contexts ∧
      ¬ RuntimeInvariant (NAPICreateEnv p (some old)).2.2 := by
  have hcount : 0 < p.contextCount := hinv.mp hexists
  have hrt : p.runtime ≠ 0 := hexists.1
  have hc0 : p.contextCount ≠ 0 := by omega
  have hr : NAPICreateEnv p (some old) =
      (NAPIStatus.NAPIMemoryError, some p.brk,
        { p with
            brk := p.brk + 1
            enginePlan := rest
            runtimes := eraseAt p.runtimes p.runtime
            runtime := 0 }) := by
    simp [NAPICreateEnv, hrt, hc0, Process.malloc, hm, hbrk, Process.JS_NewContext,
      Process.engineSucceeds, he, Process.JS_FreeRuntime]
  rw [hr]
  refine ⟨hcount, rfl, rfl, lookup_eraseAt_self _ _, rfl, rfl, ?_⟩
  intro h
  have h2 := h.mpr hcount
  exact h2.1 rfl

theorem NAPICreateEnv_context_failure_witness :
    0 < oneEnvThenFailure.contextCount ∧
      (NAPICreateEnv oneEnvThenFailure (some 0)).1 = NAPIStatus.NAPIMemoryError ∧
      (NAPICreateEnv oneEnvThenFailure (some 0)).2.2.runtime = 0 ∧
      (NAPICreateEnv oneEnvThenFailure (some 0)).2.2.runtimes.lookup oneEnvThenFailure.runtime =
        none ∧
      (NAPICreateEnv oneEnvThenFailure (some 0)).2.2.contextCount =
        oneEnvThenFailure.contextCount ∧
      (NAPICreateEnv oneEnvThenFailure (some 0)).2.2.contexts = oneEnvThenFailure.contexts ∧
      ¬ RuntimeInvariant (NAPICreateEnv oneEnvThenFailure (some 0)).2.2 :=
  NAPICreateEnv_context_failure oneEnvThenFailure 0 []
    ⟨fun _ => by decide, fun _ => ⟨by decide, rfl⟩⟩ ⟨by decide, rfl⟩ rfl (by decide) rfl

theorem WellFormedUTF8.append {p q : List Nat} (hp : WellFormedUTF8 p) (hq : WellFormedUTF8 q) :
    WellFormedUTF8 (p ++ q) := by
  induction hp with
  | nil => simpa using hq
  | cons b t rest hb ht _ ih =>
    have := WellFormedUTF8.cons b t (rest ++ q) hb ht ih
    simpa [List.append_assoc] using this

theorem WellFormedUTF8.single (b : Nat) (t : List Nat) (hb : utf8Length b = t.length + 1)
    (ht : ∀ x ∈ t, isContinuation x) : WellFormedUTF8 (b :: t) := by
  have := WellFormedUTF8.cons b t [] hb ht WellFormedUTF8.nil
  simpa using this

/-- A byte of a well-formed sequence lies in one of its characters. -/
theorem WellFormedUTF8.split {s : List Nat} (h : WellFormedUTF8 s) :
    ∀ n, n < s.length →
      ∃ p b t r, s = p ++ (b :: t ++ r) ∧ WellFormedUTF8 p ∧ utf8Length b = t.length + 1 ∧
        (∀ x ∈ t, isContinuation x) ∧ WellFormedUTF8 r ∧ p.length ≤ n ∧
        n < p.length + (t.length + 1) := by
  induction h with
  | nil => intro n hn; simp at hn
  | cons b t rest hb ht hrest ih =>
    intro n hn
    by_cases hlt : n < t.length + 1
    · exact ⟨[], b, t, rest, by simp, WellFormedUTF8.nil, hb, ht, hrest, by simp, by simpa using hlt⟩
    · have hn2 : n - (t.length + 1) < rest.length := by
        simp at hn; omega
      obtain ⟨p, b2, t2, r, hs, hp, hb2, ht2, hr, h1, h2⟩ := ih (n - (t.length + 1)) hn2
      refine ⟨b :: t ++ p, b2, t2, r, ?_, ?_, hb2, ht2, hr, ?_, ?_⟩
      · rw [hs]; simp [List.append_assoc]
      · exact WellFormedUTF8.append (WellFormedUTF8.single b t hb ht) hp
      · simp; omega
      · simp; omega

theorem utf8Length_facts (b : Nat) (h : utf8Length b ≠ 0) :
    (b % 256) >>> 6 ≠ 2 ∧ ((b % 256) >>> 7 = 0 ∨ (b % 256) >>> 6 = 3) ∧
      getUTF8CharacterBytesLength (b % 256) (some 0) = (true, some (utf8Length b)) := by
  simp only [Nat.shiftRight_eq_div_pow, getUTF8CharacterBytesLength]
  unfold utf8Length at h ⊢
  norm_num
  split_ifs at h ⊢ <;> first | omega | exact ⟨by omega, by omega, rfl⟩

theorem isContinuation_shift (x : Nat) (h : isContinuation x) : (x % 256) >>> 6 = 2 := by
  unfold isContinuation at h
  simp only [Nat.shiftRight_eq_div_pow]
  omega

theorem scanBack_spec (p : List Nat) (b : Nat) (t r : List Nat) (hb : utf8Length b = t.length + 1)
    (ht : ∀ x ∈ t, isContinuation x) :
    ∀ d, d ≤ t.length → scanBack (p ++ (b :: t ++ r)) (p.length + d) = some p.length := by
  have hb0 : utf8Length b ≠ 0 := by omega
  have hlead := (utf8Length_facts b hb0).1
  intro d
  induction d with
  | zero =>
    intro _
    cases hp : p.length with
    | zero =>
      have : p = [] := List.length_eq_zero.mp hp
      subst this
      simp [scanBack]
    | succ j =>
      have hget : (p ++ (b :: t ++ r)).get? (j + 1) = some b := by
        rw [← hp, List.get?_eq_getElem?, List.getElem?_append_right (Nat.le_refl _)]
        simp
      simp only [Nat.add_zero, scanBack, hget, hlead, if_false]
  | succ d ih =>
    intro hd
    have hget : (p ++ (b :: t ++ r)).get? (p.length + d + 1) = t.get? d := by
      rw [List.get?_eq_getElem?, List.getElem?_append_right (by omega)]
      have : p.length + d + 1 - p.length = d + 1 := by omega
      rw [this]
      simp [List.getElem?_append_left (show d < t.length by omega)]
    obtain ⟨x, hx⟩ : ∃ x, t.get? d = some x := ⟨t.get ⟨d, by omega⟩, by simp⟩
    have hmem : x ∈ t := List.get?_mem hx
    have hc := isContinuation_shift x (ht x hmem)
    have hidx : p.length + (d + 1) = (p.length + d) + 1 := by omega
    rw [hidx]
    simp only [scanBack, hget, hx, hc, if_true]
    exact ih (by omega)

theorem WellFormedUTF8.take_first (b : Nat) (t r : List Nat) (j : Nat)
    (hb : utf8Length b = t.length + 1) (hj : 1 ≤ j)
    (h : WellFormedUTF8 ((b :: t ++ r).take j)) :
    t.length + 1 ≤ j ∧ WellFormedUTF8 (r.take (j - (t.length + 1))) := by
  obtain ⟨j1, rfl⟩ : ∃ j1, j = j1 + 1 := ⟨j - 1, by omega⟩
  generalize hx : (b :: t ++ r).take (j1 + 1) = x at h
  cases h with
  | nil => simp at hx
  | cons b2 t2 rest hb2 ht2 hrest =>
    simp only [List.cons_append, List.take_succ_cons, List.cons.injEq] at hx
    obtain ⟨hbb, htake⟩ := hx
    subst hbb
    have hlen : t2.length = t.length := by omega
    have hl : (List.take j1 (t ++ r)).length = t2.length + rest.length := by
      rw [htake]; simp
    have hle : t.length ≤ j1 := by
      simp at hl; omega
    refine ⟨by omega, ?_⟩
    have hdrop : rest = (List.take j1 (t ++ r)).drop t.length := by
      rw [htake, ← hlen]; simp
    have : (j1 + 1 - (t.length + 1)) = j1 - t.length := by omega
    rw [this]
    have h2 : (List.take j1 (t ++ r)).drop t.length = List.take (j1 - t.length) r := by
      rw [List.drop_take]
      simp
    rw [← h2, ← hdrop]
    exact hrest

/-- The character boundaries of a well-formed sequence: a prefix that is
well-formed does not end inside a character. -/
theorem WellFormedUTF8.boundary {p : List Nat} (hp : WellFormedUTF8 p) (b : Nat) (t r : List Nat)
    (hb : utf8Length b = t.length + 1) :
    ∀ j, WellFormedUTF8 ((p ++ (b :: t ++ r)).take j) →
      j ≤ p.length ∨ p.length + (t.length + 1) ≤ j := by
  induction hp with
  | nil =>
    intro j h
    by_cases hj : j = 0
    · left; simp [hj]
    · right
      have := (WellFormedUTF8.take_first b t r j hb (by omega) (by simpa using h)).1
      simpa using this
  | cons b0 t0 rest0 hb0 ht0 hrest0 ih =>
    intro j h
    by_cases hj : j = 0
    · left; simp [hj]
    · have h2 : WellFormedUTF8 ((b0 :: t0 ++ (rest0 ++ (b :: t ++ r))).take j) := by
        simpa [List.append_assoc] using h
      obtain ⟨h3, h4⟩ := WellFormedUTF8.take_first b0 t0 _ j hb0 (by omega) h2
      rcases ih _ h4 with h5 | h5
      · left; simp; omega
      · right; simp; omega

theorem take_set_self (l : List Nat) (n a : Nat) : (l.set n a).take n = l.take n := by
  rw [List.set_take]
  exact List.set_eq_of_length_le (by simp)

/-- C27: for a live string value whose UTF-8 byte sequence `s` (what
`JS_ToCStringLen` yields) is well-formed, a non-null `buf` of `bufSize ≥ 1`
bytes and a non-null `result`, with a context and no exception pending:
`napi_get_value_string_utf8` returns `NAPIOK`; with `k` the value stored in
`*result`, the first `k` bytes of `buf` are the first `k` bytes of `s`,
`buf[k]` is the NUL byte, `k ≤ bufSize - 1`, the prefix of length `k` ends on
a character boundary (it is well-formed itself, so no character is split),
and no longer prefix of at most `bufSize - 1` bytes does; `k` is the length
of `s` when that is at most `bufSize - 1`. -/
theorem napi_get_value_string_utf8_spec (w w2 : World) (value : NAPIValue) (v : JSValue)
    (s b : List Nat) (bufSize old : Nat)
    (hctx : w.context ≠ 0) (hexc : w.exception = JSValue.null)
    (hvalue : load w value = some v) (hstr : JS_IsString v = true)
    (hc : JS_ToCStringLen w v = some (some s, w2))
    (hwf : WellFormedUTF8 s) (hsize : 1 ≤ bufSize) (hbuf : b.length = bufSize) :
    ∃ k b1 w3, napi_get_value_string_utf8 w value (some b) bufSize (some old) =
        some (NAPIStatus.NAPIOK, some b1, some k, w3) ∧
      k ≤ bufSize - 1 ∧ k ≤ s.length ∧ WellFormedUTF8 (s.take k) ∧
      (∀ j, j ≤ bufSize - 1 → j ≤ s.length → WellFormedUTF8 (s.take j) → j ≤ k) ∧
      b1.length = bufSize ∧ b1.take k = s.take k ∧ b1.get? k = some 0 ∧
      (s.length ≤ bufSize - 1 → k = s.length) := by
  have hpre := NAPI_PREAMBLE_ok w hctx hexc
  have hv : value ≠ NAPIValue.NULL := by rintro rfl; simp [load] at hvalue
  have h0 : bufSize ≠ 0 := by omega
  by_cases h1 : bufSize = 1
  · refine ⟨0, b.set 0 0, w, ?_, by omega, by omega, by simpa using WellFormedUTF8.nil, ?_, ?_, ?_,
      ?_, ?_⟩
    · simp [napi_get_value_string_utf8, hpre, hv, hvalue, hstr, h0, h1, storeByte, hbuf]
    · intro j hj _ _; omega
    · simp [hbuf]
    · simp
    · simp [hbuf, h1]
    · intro h; omega
  · by_cases hlen : s.length ≤ bufSize - 1
    · refine ⟨s.length, (s.take s.length ++ b.drop s.length).set s.length 0, w2, ?_, hlen,
        Nat.le_refl _, by simpa using hwf, ?_, ?_, ?_, ?_, ?_⟩
      · have hm : memmove b s s.length = some (s.take s.length ++ b.drop s.length) := by
          simp [memmove, hbuf]; omega
        have hst : storeByte (s.take s.length ++ b.drop s.length) s.length 0 =
            some ((s.take s.length ++ b.drop s.length).set s.length 0) := by
          simp [storeByte, hbuf]; omega
        simp only [napi_get_value_string_utf8, hpre, hv, hvalue, hstr, h0, h1, hc, hlen,
          JS_FreeCString, hm, hst, if_false, if_true, Bool.not_true, false_and, and_false,
          Option.map_some', Option.isSome_some, Bool.false_eq_true]
      · intro j _ hj _; exact hj
      · simp [hbuf]; omega
      · simp
      · have hl : s.length < (s.take s.length ++ b.drop s.length).length := by
          simp [hbuf]; omega
        simp only [List.get?_eq_getElem?, List.getElem?_set_self hl]
      · intro _; rfl
    · have hn : bufSize - 2 < s.length := by omega
      obtain ⟨p, b0, t, r, hs, hp, hb0, ht, hr, hp1, hp2⟩ := hwf.split (bufSize - 2) hn
      have hb00 : utf8Length b0 ≠ 0 := by omega
      obtain ⟨f1, f2, f3⟩ := utf8Length_facts b0 hb00
      have hscan : scanBack s (bufSize - 2) = some p.length := by
        have := scanBack_spec p b0 t r hb0 ht (bufSize - 2 - p.length) (by omega)
        rw [hs]
        rwa [show p.length + (bufSize - 2 - p.length) = bufSize - 2 by omega] at this
      have hcp : s.getD p.length 0 = b0 := by
        have : (p ++ (b0 :: t ++ r))[p.length]? = some b0 := by
          rw [List.getElem?_append_right (Nat.le_refl _)]; simp
        rw [hs, List.getD_eq_getElem?_getD, this]; rfl
      have hm : memmove b s (bufSize - 1) = some (s.take (bufSize - 1) ++ b.drop (bufSize - 1)) := by
        simp [memmove, hbuf]; omega
      have hb1len : (s.take (bufSize - 1) ++ b.drop (bufSize - 1)).length = bufSize := by
        simp [hbuf]; omega
      have hslen : s.length = p.length + (t.length + 1) + r.length := by
        rw [hs]; simp; omega
      have htakep : s.take p.length = p := by rw [hs]; simp
      have htakepc : s.take (p.length + (t.length + 1)) = p ++ (b0 :: t) := by
        rw [hs]
        rw [show p ++ (b0 :: t ++ r) = (p ++ (b0 :: t)) ++ r by simp]
        rw [List.take_left' (by simp)]
      by_cases hcase : p.length + (t.length + 1) - 1 > bufSize - 2
      · -- the character would be split: cut before it
        have hst : storeByte (s.take (bufSize - 1) ++ b.drop (bufSize - 1)) p.length 0 =
            some ((s.take (bufSize - 1) ++ b.drop (bufSize - 1)).set p.length 0) := by
          simp only [storeByte, hb1len]; rw [if_pos (by omega)]
        refine ⟨p.length, (s.take (bufSize - 1) ++ b.drop (bufSize - 1)).set p.length 0, w2, ?_,
          by omega, by omega, by rw [htakep]; exact hp, ?_, ?_, ?_, ?_, ?_⟩
        · have c1 : ¬ (p.length + utf8Length b0 - 1 < bufSize - 2) := by omega
          have c2 : p.length + utf8Length b0 - 1 > bufSize - 2 := by omega
          simp only [napi_get_value_string_utf8, hpre, hv, hvalue, hstr, h0, h1, hc, hlen,
            JS_FreeCString, hm, hscan, hcp, f1, f2, f3, hb00, c1, c2, hst, if_false, if_true,
            Bool.not_true, false_and, and_false, Option.map_some', Option.isSome_some,
            Bool.false_eq_true, Option.getD_some]
        · intro j hj1 hj2 hj
          have hj' : WellFormedUTF8 ((p ++ (b0 :: t ++ r)).take j) := by rw [← hs]; exact hj
          rcases hp.boundary b0 t r hb0 j hj' with h | h
          · exact h
          · omega
        · simp [hbuf]; omega
        · rw [take_set_self, List.take_append_of_le_length (by simp; omega), List.take_take]
          simp; omega
        · have hl : p.length < (s.take (bufSize - 1) ++ b.drop (bufSize - 1)).length := by omega
          simp only [List.get?_eq_getElem?, List.getElem?_set_self hl]
        · intro h; omega
      · -- the character ends with the last byte copied
        have hk : p.length + (t.length + 1) = bufSize - 1 := by omega
        have hst : storeByte (s.take (bufSize - 1) ++ b.drop (bufSize - 1)) (bufSize - 1) 0 =
            some ((s.take (bufSize - 1) ++ b.drop (bufSize - 1)).set (bufSize - 1) 0) := by
          simp only [storeByte, hb1len]; rw [if_pos (by omega)]
        refine ⟨bufSize - 1, (s.take (bufSize - 1) ++ b.drop (bufSize - 1)).set (bufSize - 1) 0, w2,
          ?_, by omega, by omega, ?_, ?_, ?_, ?_, ?_, ?_⟩
        · have c1 : ¬ (p.length + utf8Length b0 - 1 < bufSize - 2) := by omega
          have c2 : ¬ (p.length + utf8Length b0 - 1 > bufSize - 2) := by omega
          simp only [napi_get_value_string_utf8, hpre, hv, hvalue, hstr, h0, h1, hc, hlen,
            JS_FreeCString, hm, hscan, hcp, f1, f2, f3, hb00, c1, c2, hst, if_false, if_true,
            Bool.not_true, false_and, and_false, Option.map_some', Option.isSome_some,
            Bool.false_eq_true, Option.getD_some]
        · rw [← hk, htakepc]
          exact WellFormedUTF8.append hp (WellFormedUTF8.single b0 t hb0 ht)
        · intro j hj1 _ _; exact hj1
        · simp [hbuf]; omega
        · rw [take_set_self, List.take_append_of_le_length (by simp; omega), List.take_take]
          simp
        · have hl : bufSize - 1 < (s.take (bufSize - 1) ++ b.drop (bufSize - 1)).length := by omega
          simp only [List.get?_eq_getElem?, List.getElem?_set_self hl]
        · intro h; omega

theorem napi_get_value_string_utf8_spec_witness :
    ∃ k b1 w3, napi_get_value_string_utf8 accentWorld (NAPIValue.handleValue 9) (some [9, 9, 9]) 3
        (some 7) = some (NAPIStatus.NAPIOK, some b1, some k, w3) ∧
      k ≤ 3 - 1 ∧ k ≤ [104, 195, 169, 108, 108, 111].length ∧
      WellFormedUTF8 ([104, 195, 169, 108, 108, 111].take k) ∧
      (∀ j, j ≤ 3 - 1 → j ≤ [104, 195, 169, 108, 108, 111].length →
        WellFormedUTF8 ([104, 195, 169, 108, 108, 111].take j) → j ≤ k) ∧
      b1.length = 3 ∧ b1.take k = [104, 195, 169, 108, 108, 111].take k ∧ b1.get? k = some 0 ∧
      ([104, 195, 169, 108, 108, 111].length ≤ 3 - 1 →
        k = [104, 195, 169, 108, 108, 111].length) :=
  napi_get_value_string_utf8_spec accentWorld accentWorld (NAPIValue.handleValue 9)
    (JSValue.string 30) [104, 195, 169, 108, 108, 111] [9, 9, 9] 3 7 (by decide) rfl rfl rfl rfl
    (WellFormedUTF8.cons 104 [] _ rfl (by simp)
      (WellFormedUTF8.cons 195 [169] _ rfl (by simp [isContinuation])
        (WellFormedUTF8.cons 108 [] _ rfl (by simp)
          (WellFormedUTF8.cons 108 [] _ rfl (by simp)
            (WellFormedUTF8.cons 111 [] _ rfl (by simp) WellFormedUTF8.nil)))))
    (by decide) rfl

end QJS
